import Mathlib

/-!
# WallDisplay Sonos core — verification of the specified behaviour

This file gives a shallow embedding, in Lean 4, of the pure core of the
WallDisplay repository's Sonos engine (package `sonos`): the string-repair
pipeline for doubly-escaped NOTIFY payloads, the XML-token-stream parsers
for device descriptions, SOAP envelopes and AVTransport events, the SSDP
deduplication fold, the GENA timeout negotiation, the renewal-interval
clamp and the track change signature.  Network transport (HTTP, UDP) is
modelled by passing response bodies / headers as explicit values.

Strings are processed as `List Char`.  The Go source walks `string`s
byte-by-byte; every input relevant here is ASCII, where byte-by-byte and
rune-by-rune traversal coincide, and the embedding notes the places where
that matters.
-/

namespace WallDisplay

/-! ## Go string helpers (package `strings` / `unicode`, as used by the source) -/

/-- `unicode.IsSpace` restricted to the code points the source's inputs use
(ASCII whitespace plus NEL and NBSP; the Go table additionally covers the
Unicode `Z*` categories, which never occur in this repository's data). -/
def goIsSpace (c : Char) : Bool :=
  c.toNat = 32 || c.toNat = 9 || c.toNat = 10 || c.toNat = 11 || c.toNat = 12 ||
  c.toNat = 13 || c.toNat = 133 || c.toNat = 160

/-- `strings.TrimSpace` on a character list. -/
def goTrimSpaceL (s : List Char) : List Char :=
  ((s.dropWhile goIsSpace).reverse.dropWhile goIsSpace).reverse

/-- `strings.TrimSpace`. -/
def goTrimSpace (s : String) : String :=
  (goTrimSpaceL s.toList).asString

/-- ASCII lower-casing of one character.  `strings.ToLower` applies the
Unicode simple case mapping; on the ASCII data handled here the two agree,
and non-ASCII characters are left unchanged. -/
def goToLowerChar (c : Char) : Char :=
  if 65 ≤ c.toNat ∧ c.toNat ≤ 90 then Char.ofNat (c.toNat + 32) else c

/-- `strings.ToLower` (ASCII fragment of the Unicode mapping). -/
def goToLower (s : String) : String :=
  (s.toList.map goToLowerChar).asString

/-- `strings.Join` with separator `|` etc. -/
def goJoin (parts : List String) (sep : String) : String :=
  String.intercalate sep parts

/-- `strings.EqualFold` on the ASCII fragment (case-insensitive equality). -/
def goEqualFold (a b : String) : Bool :=
  goToLower a = goToLower b

/-! ## `sanitizeInvalidEntities` and its helpers (src/unnamed/part_000, playback) -/

/-- `isEntityTerminator` from the source. -/
def isEntityTerminator (ch : Char) : Bool :=
  ch = ' ' || ch = '\t' || ch = '\n' || ch = '\r' || ch = '<' || ch = '>' ||
  ch = '"' || ch = '\''

/-- `isHexDigit` from the source. -/
def isHexDigitGo (r : Char) : Bool :=
  ('0' ≤ r ∧ r ≤ '9') || ('a' ≤ r ∧ r ≤ 'f') || ('A' ≤ r ∧ r ≤ 'F')

/-- `isValidEntityName` from the source: `#` + decimal digits, `#x`/`#X` +
hex digits, or a non-empty alphanumeric run. -/
def isValidEntityName (name : List Char) : Bool :=
  match name with
  | [] => false
  | '#' :: tail =>
    match tail with
    | [] => false
    | c :: tail2 =>
      if c = 'x' ∨ c = 'X' then
        match tail2 with
        | [] => false
        | _ => tail2.all isHexDigitGo
      else
        (c :: tail2).all (fun d => '0' ≤ d ∧ d ≤ '9')
  | cs => cs.all (fun c =>
      ('a' ≤ c ∧ c ≤ 'z') || ('A' ≤ c ∧ c ≤ 'Z') || ('0' ≤ c ∧ c ≤ '9'))

/-- One character may be part of a scanned entity name: the Go scan stops at
`;`, `&`, or an `isEntityTerminator` character. -/
def entityNameChar (c : Char) : Bool :=
  ¬ (c = ';' ∨ c = '&' ∨ isEntityTerminator c)

/-- The byte loop of `sanitizeInvalidEntities`, fuelled by the input length.
`acc` is the output builder, accumulated in reverse (the Go loop writes
into a `strings.Builder`); the caller reverses it once at the end.
On `&` the scan runs to the first `;`/`&`/terminator; a following `;` with a
valid name keeps the entity verbatim, otherwise the single `&` becomes
`&amp;` and scanning resumes at the next character. -/
def sanitizeLoop : Nat → List Char → List Char → List Char
  | 0, _, acc => acc
  | _ + 1, [], acc => acc
  | fuel + 1, ch :: rest, acc =>
    if ch ≠ '&' then sanitizeLoop fuel rest (ch :: acc)
    else
      match rest with
      | [] => "&amp;".toList.reverseAux acc
      | _ :: _ =>
        let name := rest.takeWhile entityNameChar
        match rest.drop name.length with
        | ';' :: tail =>
          if isValidEntityName name then
            sanitizeLoop fuel tail (('&' :: name ++ [';']).reverseAux acc)
          else
            sanitizeLoop fuel rest ("&amp;".toList.reverseAux acc)
        | _ => sanitizeLoop fuel rest ("&amp;".toList.reverseAux acc)

/-- `sanitizeInvalidEntities` from the source, including the
`strings.Contains(s, "&")` fast path. -/
def sanitizeInvalidEntities (s : String) : String :=
  if s.toList.contains '&' then (sanitizeLoop s.toList.length s.toList []).reverse.asString
  else s

/-! ## `html.UnescapeString` and `strings.ReplaceAll` as used by the event decoder -/

/-- `strings.ReplaceAll` with a non-empty pattern: left-to-right,
non-overlapping replacement.  `acc` is the output accumulated in
reverse. -/
def replaceAllLoop (pat sub : List Char) : Nat → List Char → List Char → List Char
  | 0, _, acc => acc
  | _ + 1, [], acc => acc
  | fuel + 1, ch :: rest, acc =>
    if pat.isPrefixOf (ch :: rest) then
      replaceAllLoop pat sub fuel ((ch :: rest).drop pat.length) (sub.reverseAux acc)
    else
      replaceAllLoop pat sub fuel rest (ch :: acc)

/-- `strings.ReplaceAll`. -/
def goReplaceAll (s pat sub : String) : String :=
  if pat.toList.isEmpty then s
  else (replaceAllLoop pat.toList sub.toList s.toList.length s.toList []).reverse.asString

/-- The named-entity fragment of the HTML5 reference table that the
repository's payloads exercise: the five XML predefined entities, with the
HTML5 legacy (semicolon-less) forms of `amp`/`lt`/`gt`/`quot`.  Listed
longest-first so prefix matching reproduces Go's longest-match rule. -/
def htmlEntitySubset : List (List Char × Char) :=
  [("apos;".toList, '\''), ("quot;".toList, '"'), ("amp;".toList, '&'),
   ("quot".toList, '"'), ("lt;".toList, '<'), ("gt;".toList, '>'),
   ("amp".toList, '&'), ("lt".toList, '<'), ("gt".toList, '>')]

/-- Longest named-entity match at the head of `s` (the part after `&`). -/
def matchNamedEntity (s : List Char) : Option (Char × List Char) :=
  (htmlEntitySubset.find? fun p => p.1.isPrefixOf s).map
    fun p => (p.2, s.drop p.1.length)

/-- Decimal/hexadecimal digit accumulation for numeric character
references. -/
def digitsToNat (base : Nat) (ds : List Char) : Nat :=
  ds.foldl (fun acc c =>
    acc * base +
      (if '0' ≤ c ∧ c ≤ '9' then c.toNat - '0'.toNat
       else if 'a' ≤ c ∧ c ≤ 'f' then c.toNat - 'a'.toNat + 10
       else c.toNat - 'A'.toNat + 10)) 0

/-- Numeric character reference after `&#` (Go `html` package: optional
`x`/`X`, at least one digit, optional trailing `;`; invalid code points
become U+FFFD). -/
def matchNumericEntity (s : List Char) : Option (Char × List Char) :=
  let core : Bool → List Char → Option (Char × List Char) := fun hex t =>
    let ds := t.takeWhile (fun c => if hex then isHexDigitGo c else '0' ≤ c ∧ c ≤ '9')
    match ds with
    | [] => none
    | _ :: _ =>
      let rest := t.drop ds.length
      let rest := match rest with | ';' :: r => r | r => r
      let n := digitsToNat (if hex then 16 else 10) ds
      let n := if n = 0 ∨ n > 0x10FFFF ∨ (0xD800 ≤ n ∧ n ≤ 0xDFFF) then 0xFFFD else n
      some (Char.ofNat n, rest)
  match s with
  | 'x' :: t => core true t
  | 'X' :: t => core true t
  | t => core false t

/-- The scan loop of `html.UnescapeString`: each `&` is resolved against
the entity table (longest match) or a numeric reference; an unresolvable
`&` is copied literally and never re-examined.  `acc` is the output
accumulated in reverse. -/
def htmlUnescapeLoop : Nat → List Char → List Char → List Char
  | 0, _, acc => acc
  | _ + 1, [], acc => acc
  | fuel + 1, ch :: rest, acc =>
    if ch = '&' then
      match rest with
      | '#' :: t =>
        match matchNumericEntity t with
        | some (c, rest') => htmlUnescapeLoop fuel rest' (c :: acc)
        | none => htmlUnescapeLoop fuel rest ('&' :: acc)
      | _ =>
        match matchNamedEntity rest with
        | some (c, rest') => htmlUnescapeLoop fuel rest' (c :: acc)
        | none => htmlUnescapeLoop fuel rest ('&' :: acc)
    else htmlUnescapeLoop fuel rest (ch :: acc)

/-- `html.UnescapeString`, restricted to the entity subset above (the
repository's payloads contain no other references). -/
def htmlUnescape (s : String) : String :=
  (htmlUnescapeLoop s.toList.length s.toList []).reverse.asString

/-! ## `escapeAttributeMarkup` (src/sonos/events.go) -/

/-- The quote character written as an entity. -/
def quoteEntity (ch : Char) : List Char :=
  if ch = '"' then "&quot;".toList else "&apos;".toList

/-- The byte loop of `escapeAttributeMarkup`, fuelled by the number of
bytes left (the Go loop is indexed by `i < len(s)`).  The five scanner
variables mirror the Go locals: whether we are inside an outer attribute
value (`inAttr`) and its quote, the nested-tag depth, whether we are
inside a nested `<...>` run, and the quote of a nested attribute.
`prev` is `s[i-1]` (used by the `>` branch to detect a self-closing
`/>`), the one-character lookahead for `</` is by pattern matching on
the tail, and `acc` is the output accumulated in reverse. -/
def escapeAttrLoop (inAttr : Bool) (attrQuote : Char) (nestedDepth : Nat)
    (inNestedTag : Bool) (nestedAttrQuote : Option Char) (prev : Option Char) :
    Nat → List Char → List Char → List Char
  | 0, _, acc => acc
  | _ + 1, [], acc => acc
  | fuel + 1, ch :: rest, acc =>
    if !inAttr then
      if ch = '"' ∨ ch = '\'' then
        escapeAttrLoop true ch nestedDepth inNestedTag nestedAttrQuote (some ch)
          fuel rest (ch :: acc)
      else
        escapeAttrLoop inAttr attrQuote nestedDepth inNestedTag nestedAttrQuote (some ch)
          fuel rest (ch :: acc)
    else
      if ch = '"' ∨ ch = '\'' then
        match nestedAttrQuote with
        | some q =>
          escapeAttrLoop inAttr attrQuote nestedDepth inNestedTag
            (if ch = q then none else some q) (some ch)
            fuel rest ((quoteEntity ch).reverseAux acc)
        | none =>
          if inNestedTag then
            escapeAttrLoop inAttr attrQuote nestedDepth inNestedTag (some ch) (some ch)
              fuel rest ((quoteEntity ch).reverseAux acc)
          else if ch = attrQuote ∧ nestedDepth = 0 then
            escapeAttrLoop false attrQuote nestedDepth inNestedTag none (some ch)
              fuel rest (ch :: acc)
          else
            escapeAttrLoop inAttr attrQuote nestedDepth inNestedTag none (some ch)
              fuel rest ((quoteEntity ch).reverseAux acc)
      else if ch = '&' then
        escapeAttrLoop inAttr attrQuote nestedDepth inNestedTag nestedAttrQuote (some ch)
          fuel rest ("&amp;".toList.reverseAux acc)
      else if ch = '<' then
        match rest with
        | '/' :: _ =>
          escapeAttrLoop inAttr attrQuote (nestedDepth - 1) true nestedAttrQuote (some ch)
            fuel rest ("&lt;".toList.reverseAux acc)
        | _ =>
          escapeAttrLoop inAttr attrQuote (nestedDepth + 1) true nestedAttrQuote (some ch)
            fuel rest ("&lt;".toList.reverseAux acc)
      else if ch = '>' then
        escapeAttrLoop inAttr attrQuote
          (if nestedDepth > 0 ∧ prev = some '/' then nestedDepth - 1 else nestedDepth)
          false nestedAttrQuote (some ch) fuel rest ("&gt;".toList.reverseAux acc)
      else
        escapeAttrLoop inAttr attrQuote nestedDepth inNestedTag nestedAttrQuote (some ch)
          fuel rest (ch :: acc)

/-- `escapeAttributeMarkup` from the source. -/
def escapeAttributeMarkup (s : String) : String :=
  (escapeAttrLoop false '"' 0 false none none s.toList.length s.toList []).reverse.asString

/-- `prepareLastChangeXML` from the source: protect doubly-escaped quote
entities, one HTML unescape pass, restore, re-escape markup inside
attribute values, then sanitize stray ampersands. -/
def prepareLastChangeXML (raw : String) : String :=
  let placeholderQuot := "__SONOS_ATTR_QUOT__"
  let placeholderApos := "__SONOS_ATTR_APOS__"
  let temp := goReplaceAll raw "&amp;quot;" placeholderQuot
  let temp := goReplaceAll temp "&amp;apos;" placeholderApos
  let decoded := htmlUnescape temp
  let decoded := goReplaceAll decoded placeholderQuot "&quot;"
  let decoded := goReplaceAll decoded placeholderApos "&apos;"
  sanitizeInvalidEntities (escapeAttributeMarkup decoded)

/-!
## An XML token stream (model of Go `encoding/xml.Decoder.Token`)

The Go parsers below (`parseTrackMetadata`, `parseDeviceDescription`) and
the `xml.Unmarshal` calls all consume the decoder's token stream:
start-elements with namespace-resolved names and attributes, end-elements,
and character data.  The tokenizer here produces that stream for
well-formed documents (the strict decoder errors on mismatched tags,
unknown entity references, or raw `<` inside attribute values — all of
which yield `none`).  Comments and processing instructions are skipped;
the consumers ignore those token kinds anyway.
-/

/-- A namespace-resolved XML name: `space` is the namespace URI (or the
undeclared prefix, as Go leaves it), `localName` the local part. -/
structure XmlName where
  space : String
  localName : String
deriving Repr, DecidableEq

/-- Decoder tokens, as consumed by the Go source's `switch tok :=
token.(type)` loops. -/
inductive XmlTok where
  | startEl (name : XmlName) (attrs : List (XmlName × String)) : XmlTok
  | endEl (name : XmlName) : XmlTok
  | charData (text : String) : XmlTok
deriving Repr, DecidableEq

/-- Syntactic tokens before namespace resolution. -/
inductive RawTok where
  | rawStart (qname : List Char) (attrs : List (List Char × List Char)) (selfClosing : Bool) : RawTok
  | rawEnd (qname : List Char) : RawTok
  | rawText (text : List Char) : RawTok
deriving Repr, DecidableEq

/-- Characters allowed in element/attribute names (ASCII fragment). -/
def xmlNameChar (c : Char) : Bool :=
  ('a' ≤ c ∧ c ≤ 'z') || ('A' ≤ c ∧ c ≤ 'Z') || ('0' ≤ c ∧ c ≤ '9') ||
  c = ':' || c = '-' || c = '_' || c = '.'

/-- XML whitespace inside tags. -/
def xmlIsSpace (c : Char) : Bool :=
  c = ' ' || c = '\t' || c = '\n' || c = '\r'

/-- Value of one entity reference (name between `&` and `;`): the five
predefined entities or a numeric character reference; anything else is a
syntax error for the strict decoder. -/
def xmlEntityValue (name : List Char) : Option Char :=
  if name = "lt".toList then some '<'
  else if name = "gt".toList then some '>'
  else if name = "amp".toList then some '&'
  else if name = "quot".toList then some '"'
  else if name = "apos".toList then some '\''
  else
    match name with
    | '#' :: t =>
      let hex := match t with | 'x' :: _ => true | 'X' :: _ => true | _ => false
      let ds := if hex then t.drop 1 else t
      if ds ≠ [] ∧ ds.all (fun c => if hex then isHexDigitGo c else '0' ≤ c ∧ c ≤ '9') then
        let n := digitsToNat (if hex then 16 else 10) ds
        if n < 0xD800 ∨ (0xE000 ≤ n ∧ n ≤ 0x10FFFF) then some (Char.ofNat n) else none
      else none
    | _ => none

/-- Entity decoding of one character-data run, stopping at `<` (or end of
input); the decoded run is accumulated in reverse in `acc`, and the
remainder of the input is returned alongside it.  A raw `&` that does not
begin a well-formed predefined/numeric entity reference is a syntax error
(`none`), as in the strict Go decoder. -/
def xmlDecodeTextAcc : Nat → List Char → List Char → Option (List Char × List Char)
  | 0, _, _ => none
  | _ + 1, [], acc => some (acc, [])
  | fuel + 1, s@(ch :: rest), acc =>
    if ch = '<' then some (acc, s)
    else if ch = '&' then
      let name := rest.takeWhile fun c => ¬ (c = ';' ∨ c = '<')
      match rest.drop name.length with
      | ';' :: tail =>
        match xmlEntityValue name with
        | some c => xmlDecodeTextAcc fuel tail (c :: acc)
        | none => none
      | _ => none
    else xmlDecodeTextAcc fuel rest (ch :: acc)

/-- Entity decoding of attribute values; the decoded value is accumulated
in reverse in `acc`. -/
def xmlDecodeEntitiesAcc : Nat → List Char → List Char → Option (List Char)
  | 0, s, acc => if s.isEmpty then some acc else none
  | _ + 1, [], acc => some acc
  | fuel + 1, ch :: rest, acc =>
    if ch = '&' then
      let name := rest.takeWhile (· ≠ ';')
      match rest.drop name.length with
      | ';' :: tail =>
        match xmlEntityValue name with
        | some c => xmlDecodeEntitiesAcc fuel tail (c :: acc)
        | none => none
      | _ => none
    else xmlDecodeEntitiesAcc fuel rest (ch :: acc)

/-- Entity decoding of attribute values. -/
def xmlDecodeEntities (fuel : Nat) (s : List Char) : Option (List Char) :=
  (xmlDecodeEntitiesAcc fuel s []).map List.reverse

/-- Drop everything up to and including the first occurrence of `pat`. -/
def dropThrough (pat : List Char) : Nat → List Char → Option (List Char)
  | 0, _ => none
  | _ + 1, [] => none
  | fuel + 1, s@(_ :: rest) =>
    if pat.isPrefixOf s then some (s.drop pat.length)
    else dropThrough pat fuel rest

/-- Attribute list of a start tag, ending at `>` or `/>`.  Returns the raw
attributes, the self-closing flag and the remainder of the input. -/
def parseAttrs : Nat → List Char → Option (List (List Char × List Char) × Bool × List Char)
  | 0, _ => none
  | fuel + 1, s =>
    let s := s.dropWhile xmlIsSpace
    match s with
    | '>' :: r => some ([], false, r)
    | '/' :: '>' :: r => some ([], true, r)
    | _ =>
      let name := s.takeWhile xmlNameChar
      if name.isEmpty then none
      else
        let s1 := (s.drop name.length).dropWhile xmlIsSpace
        match s1 with
        | '=' :: s2 =>
          let s2 := s2.dropWhile xmlIsSpace
          match s2 with
          | q :: s3 =>
            if q = '"' ∨ q = '\'' then
              let v := s3.takeWhile (· ≠ q)
              match s3.drop v.length with
              | _ :: s5 =>
                if v.contains '<' then none
                else
                  match xmlDecodeEntities v.length v with
                  | some vd =>
                    (parseAttrs fuel s5).map fun r => ((name, vd) :: r.1, r.2)
                  | none => none
              | [] => none
            else none
          | [] => none
        | _ => none

/-- Syntactic tokenization: tags, text runs, comments/PIs/doctype
skipped. -/
def rawTokenize : Nat → List Char → Option (List RawTok)
  | 0, _ => none
  | _ + 1, [] => some []
  | fuel + 1, input@(ch :: rest) =>
    if ch = '<' then
      match rest with
      | '?' :: t =>
        match dropThrough "?>".toList t.length t with
        | some r => rawTokenize fuel r
        | none => none
      | '!' :: t =>
        if "--".toList.isPrefixOf t then
          match dropThrough "-->".toList t.length (t.drop 2) with
          | some r => rawTokenize fuel r
          | none => none
        else
          match dropThrough ">".toList t.length t with
          | some r => rawTokenize fuel r
          | none => none
      | '/' :: t =>
        let name := t.takeWhile xmlNameChar
        if name.isEmpty then none
        else
          match (t.drop name.length).dropWhile xmlIsSpace with
          | '>' :: r => (rawTokenize fuel r).map (RawTok.rawEnd name :: ·)
          | _ => none
      | _ =>
        let name := rest.takeWhile xmlNameChar
        if name.isEmpty then none
        else
          match parseAttrs rest.length (rest.drop name.length) with
          | some (attrs, sc, r) =>
            (rawTokenize fuel r).map (RawTok.rawStart name attrs sc :: ·)
          | none => none
    else
      match xmlDecodeTextAcc (fuel + 1) input [] with
      | some (txtRev, rest') =>
        (rawTokenize fuel rest').map (RawTok.rawText txtRev.reverse :: ·)
      | none => none

/-- Split a qualified name at its first colon. -/
def splitQName (q : List Char) : Option (List Char) × List Char :=
  let pre := q.takeWhile (· ≠ ':')
  match q.drop pre.length with
  | ':' :: loc => (some pre, loc)
  | _ => (none, q)

/-- Namespace environment: innermost bindings first; key `""` is the
default namespace. -/
abbrev NsEnv := List (String × String)

/-- Resolve an element name against the environment (default namespace
applies; an undeclared prefix is kept as the space, as Go does). -/
def resolveElemName (env : NsEnv) (q : List Char) : XmlName :=
  match splitQName q with
  | (none, loc) =>
    ⟨((env.find? fun b => b.1 = "").map Prod.snd).getD "", loc.asString⟩
  | (some p, loc) =>
    ⟨((env.find? fun b => b.1 = p.asString).map Prod.snd).getD p.asString, loc.asString⟩

/-- Resolve an attribute name (no default namespace for attributes). -/
def resolveAttrName (env : NsEnv) (q : List Char) : XmlName :=
  match splitQName q with
  | (none, loc) => ⟨"", loc.asString⟩
  | (some p, loc) =>
    if p = "xmlns".toList then ⟨"xmlns", loc.asString⟩
    else ⟨((env.find? fun b => b.1 = p.asString).map Prod.snd).getD p.asString, loc.asString⟩

/-- Namespace resolution and well-formedness: the stack holds, per open
element, its raw name and the environment to restore at its end tag. -/
def resolveTokens : List RawTok → List (List Char × NsEnv) → NsEnv → Option (List XmlTok)
  | [], stack, _ => if stack.isEmpty then some [] else none
  | RawTok.rawText t :: rest, stack, env =>
    (resolveTokens rest stack env).map (XmlTok.charData t.asString :: ·)
  | RawTok.rawEnd q :: rest, stack, env =>
    match stack with
    | (qtop, envOuter) :: stack' =>
      if q = qtop then
        (resolveTokens rest stack' envOuter).map (XmlTok.endEl (resolveElemName env q) :: ·)
      else none
    | [] => none
  | RawTok.rawStart q attrs sc :: rest, stack, env =>
    let newBindings : NsEnv := attrs.filterMap fun a =>
      if a.1 = "xmlns".toList then some ("", a.2.asString)
      else if "xmlns:".toList.isPrefixOf a.1 then some ((a.1.drop 6).asString, a.2.asString)
      else none
    let env' := newBindings ++ env
    let name := resolveElemName env' q
    let rattrs := attrs.map fun a => (resolveAttrName env' a.1, a.2.asString)
    if sc then
      (resolveTokens rest stack env).map fun ts =>
        XmlTok.startEl name rattrs :: XmlTok.endEl name :: ts
    else
      (resolveTokens rest ((q, env) :: stack) env').map (XmlTok.startEl name rattrs :: ·)

/-- The decoder's token stream for a document, or `none` where the strict
Go decoder reports a syntax error. -/
def xmlTokens (s : String) : Option (List XmlTok) :=
  (rawTokenize (s.toList.length + 1) s.toList).bind (resolveTokens · [] [])

/-! ## Element-tree helpers over token fragments (model of `xml.Unmarshal`) -/

/-- Inner tokens of one element: everything before the matching end tag
(`depth` counts still-open nested elements), and the remaining stream. -/
def takeElement : List XmlTok → Nat → List XmlTok × List XmlTok
  | [], _ => ([], [])
  | XmlTok.endEl _ :: rest, 0 => ([], rest)
  | XmlTok.endEl n :: rest, d + 1 =>
    let r := takeElement rest d
    (XmlTok.endEl n :: r.1, r.2)
  | XmlTok.startEl n a :: rest, d =>
    let r := takeElement rest (d + 1)
    (XmlTok.startEl n a :: r.1, r.2)
  | XmlTok.charData s :: rest, d =>
    let r := takeElement rest d
    (XmlTok.charData s :: r.1, r.2)

/-- An element with its attributes and inner token fragment. -/
structure XmlElem where
  name : XmlName
  attrs : List (XmlName × String)
  inner : List XmlTok
deriving Repr, DecidableEq

/-- The top-level elements of a balanced token fragment. -/
def topElementsAux : Nat → List XmlTok → List XmlElem
  | 0, _ => []
  | _ + 1, [] => []
  | fuel + 1, XmlTok.startEl n a :: rest =>
    let r := takeElement rest 0
    ⟨n, a, r.1⟩ :: topElementsAux fuel r.2
  | fuel + 1, _ :: rest => topElementsAux fuel rest

/-- The top-level elements of a balanced token fragment. -/
def elemsOf (ts : List XmlTok) : List XmlElem :=
  topElementsAux ts.length ts

/-- Character data directly inside an element (Go's unmarshal of a string
field skips nested elements; their text is not collected). -/
def topCharData : List XmlTok → Nat → List String
  | [], _ => []
  | XmlTok.charData s :: rest, 0 => s :: topCharData rest 0
  | XmlTok.charData _ :: rest, d + 1 => topCharData rest (d + 1)
  | XmlTok.startEl _ _ :: rest, d => topCharData rest (d + 1)
  | XmlTok.endEl _ :: rest, d => topCharData rest (d - 1)

/-- Concatenated direct text content of an element. -/
def textOf (e : XmlElem) : String :=
  String.join (topCharData e.inner 0)

/-- Value of the attribute with the given local name, if present (Go's
`xml:"val,attr"` matches by local name). -/
def attrVal (e : XmlElem) (loc : String) : Option String :=
  (e.attrs.find? fun a => a.1.localName = loc).map Prod.snd

/-- Direct children with the given local name (Go's unqualified struct
tags match element local names regardless of namespace). -/
def childrenNamed (e : XmlElem) (loc : String) : List XmlElem :=
  (elemsOf e.inner).filter fun c => c.name.localName = loc

/-- Go unmarshal semantics for repeated matches of a non-slice field: each
occurrence is unmarshaled in order, so the last one wins. -/
def lastChildNamed (e : XmlElem) (loc : String) : Option XmlElem :=
  (childrenNamed e loc).getLast?

/-- Text of the last matching child, or `""` when absent (Go zero value). -/
def lastChildText (e : XmlElem) (loc : String) : String :=
  ((lastChildNamed e loc).map textOf).getD ""

/-! ## DIDL-Lite metadata parsing (`parseTrackMetadata`, src/unnamed/part_000) -/

/-- `didlItem` from the source (the variant carrying `AlbumArtURI`, which
is the one the repository's tests exercise). -/
structure DidlItem where
  title : String := ""
  creator : String := ""
  album : String := ""
  streamInfo : String := ""
  programTitle : String := ""
  radioShow : String := ""
  albumArtURI : String := ""
deriving Repr, DecidableEq

/-- The namespace-aware field assignment of `parseTrackMetadata`'s
character-data branch, including the bare-local-name fallback. -/
def didlAssign (item : DidlItem) (field : XmlName) (value : String) : DidlItem :=
  if field.space = "http://purl.org/dc/elements/1.1/" then
    if field.localName = "title" then { item with title := value }
    else if field.localName = "creator" then { item with creator := value }
    else item
  else if field.space = "urn:schemas-upnp-org:metadata-1-0/upnp/" then
    if field.localName = "album" then { item with album := value }
    else if field.localName = "albumArtURI" then { item with albumArtURI := value }
    else item
  else if field.space = "urn:schemas-rinconnetworks-com:metadata-1-0/" then
    if field.localName = "streamContent" then { item with streamInfo := value }
    else if field.localName = "programTitle" then { item with programTitle := value }
    else if field.localName = "radioShow" then { item with radioShow := value }
    else item
  else
    if field.localName = "title" then
      if item.title = "" then { item with title := value } else item
    else if field.localName = "creator" then
      if item.creator = "" then { item with creator := value } else item
    else if field.localName = "album" then
      if item.album = "" then { item with album := value } else item
    else item

/-- The token loop of `parseTrackMetadata`: the stack of open elements
(head = innermost), the capture flag, and the depth at which `item`
opened.  Character data is captured only one level inside `item`; the
matching `</item>` returns early. -/
def parseTrackMetadataLoop :
    List XmlTok → List XmlName → Bool → Nat → DidlItem → DidlItem
  | [], _, _, _, item => item
  | XmlTok.startEl n _ :: rest, stack, capturing, itemDepth, item =>
    let stack' := n :: stack
    if ¬ capturing ∧ n.localName = "item" then
      parseTrackMetadataLoop rest stack' true stack'.length item
    else
      parseTrackMetadataLoop rest stack' capturing itemDepth item
  | XmlTok.endEl n :: rest, stack, capturing, itemDepth, item =>
    if capturing ∧ n.localName = "item" ∧ stack.length = itemDepth then item
    else parseTrackMetadataLoop rest stack.tail capturing itemDepth item
  | XmlTok.charData s :: rest, stack, capturing, itemDepth, item =>
    if capturing ∧ stack.length = itemDepth + 1 then
      let value := goTrimSpace s
      if value = "" then parseTrackMetadataLoop rest stack capturing itemDepth item
      else
        match stack with
        | top :: _ =>
          parseTrackMetadataLoop rest stack capturing itemDepth (didlAssign item top value)
        | [] => parseTrackMetadataLoop rest stack capturing itemDepth item
    else parseTrackMetadataLoop rest stack capturing itemDepth item

/-- `parseTrackMetadata` from the source: tokenize, then run the loop;
a decoder syntax error is reported to the caller. -/
def parseTrackMetadata (s : String) : Except String DidlItem :=
  match xmlTokens s with
  | none => Except.error "XML syntax error"
  | some ts => Except.ok (parseTrackMetadataLoop ts [] false 0 {})

/-! ## `buildTrackInfo` and `TrackInfo` (src/unnamed/part_000) -/

/-- `TrackInfo` from the source (playback variant with `AlbumArtURI`). -/
structure TrackInfo where
  title : String := ""
  artist : String := ""
  album : String := ""
  streamInfo : String := ""
  uri : String := ""
  state : String := ""
  albumArtURI : String := ""
deriving Repr, DecidableEq

/-- `positionInfoResponse` from the source. -/
structure PositionInfoResponse where
  trackMetaData : String := ""
  trackURI : String := ""
deriving Repr, DecidableEq

/-- `buildTrackInfo` from the source: unescape + sanitize the DIDL-Lite
fragment, parse it, trim the fields, and apply the title fallback chain
(programTitle, then radioShow, then the stream description). -/
def buildTrackInfo (resp : PositionInfoResponse) : Except String TrackInfo :=
  let info : TrackInfo := { uri := goTrimSpace resp.trackURI }
  let meta := goTrimSpace resp.trackMetaData
  if meta = "" then Except.ok info
  else
    let decoded := sanitizeInvalidEntities (htmlUnescape meta)
    match parseTrackMetadata decoded with
    | Except.error e => Except.error ("sonos: parse track metadata: " ++ e)
    | Except.ok item =>
      let info := { info with
        title := goTrimSpace item.title
        artist := goTrimSpace item.creator
        album := goTrimSpace item.album
        streamInfo := goTrimSpace item.streamInfo
        albumArtURI := goTrimSpace item.albumArtURI }
      let info :=
        if info.title = "" then
          if goTrimSpace item.programTitle ≠ "" then
            { info with title := goTrimSpace item.programTitle }
          else if goTrimSpace item.radioShow ≠ "" then
            { info with title := goTrimSpace item.radioShow }
          else if info.streamInfo ≠ "" then
            { info with title := info.streamInfo }
          else info
        else info
      Except.ok info

/-! ## `parseDeviceDescription` (src/sonos/metadata.go) -/

/-- `DeviceMetadata` from the source. -/
structure DeviceMetadata where
  deviceType : String := ""
  friendlyName : String := ""
  manufacturer : String := ""
  roomName : String := ""
  modelName : String := ""
  modelNumber : String := ""
  serialNumber : String := ""
  softwareVersion : String := ""
deriving Repr, DecidableEq

/-- Field assignment of `parseDeviceDescription`'s character-data branch
(by local element name). -/
def metaAssign (meta : DeviceMetadata) (field : String) (value : String) : DeviceMetadata :=
  if field = "deviceType" then { meta with deviceType := value }
  else if field = "friendlyName" then { meta with friendlyName := value }
  else if field = "manufacturer" then { meta with manufacturer := value }
  else if field = "roomName" then { meta with roomName := value }
  else if field = "modelName" then { meta with modelName := value }
  else if field = "modelNumber" then { meta with modelNumber := value }
  else if field = "serialNumber" then { meta with serialNumber := value }
  else if field = "softwareVersion" then { meta with softwareVersion := value }
  else meta

/-- The token loop of `parseDeviceDescription`.  Capturing opens at a
`device` element whose immediate parent is `root`; character data is
captured only one level inside it; the matching end tag returns the
captured metadata; at end of input, metadata with neither a device type
nor a friendly name is an error. -/
def parseDeviceDescriptionLoop :
    List XmlTok → List XmlName → Bool → Nat → DeviceMetadata → Except String DeviceMetadata
  | [], _, _, _, meta =>
    if meta.deviceType ≠ "" ∨ meta.friendlyName ≠ "" then Except.ok meta
    else Except.error "sonos: metadata missing top-level device information"
  | XmlTok.startEl n _ :: rest, stack, capturing, deviceDepth, meta =>
    let stack' := n :: stack
    match stack' with
    | _ :: parent :: _ =>
      if ¬ capturing ∧ parent.localName = "root" ∧ n.localName = "device" then
        parseDeviceDescriptionLoop rest stack' true stack'.length meta
      else
        parseDeviceDescriptionLoop rest stack' capturing deviceDepth meta
    | _ => parseDeviceDescriptionLoop rest stack' capturing deviceDepth meta
  | XmlTok.endEl n :: rest, stack, capturing, deviceDepth, meta =>
    if capturing ∧ n.localName = "device" ∧ stack.length = deviceDepth then Except.ok meta
    else parseDeviceDescriptionLoop rest stack.tail capturing deviceDepth meta
  | XmlTok.charData s :: rest, stack, capturing, deviceDepth, meta =>
    if capturing ∧ stack.length = deviceDepth + 1 then
      let value := goTrimSpace s
      if value = "" then parseDeviceDescriptionLoop rest stack capturing deviceDepth meta
      else
        match stack with
        | top :: _ =>
          parseDeviceDescriptionLoop rest stack capturing deviceDepth
            (metaAssign meta top.localName value)
        | [] => parseDeviceDescriptionLoop rest stack capturing deviceDepth meta
    else parseDeviceDescriptionLoop rest stack capturing deviceDepth meta

/-- `parseDeviceDescription` from the source. -/
def parseDeviceDescription (body : String) : Except String DeviceMetadata :=
  match xmlTokens body with
  | none => Except.error "sonos: decode metadata xml"
  | some ts => parseDeviceDescriptionLoop ts [] false 0 {}

/-! ## `ParseAVTransportEvent` (src/sonos/events.go) -/

/-- Characters before the first occurrence of `pat`, accumulated in
reverse, together with the remainder (starting at `pat`); `none` when
`pat` never occurs. -/
def takeUntilRev (pat : List Char) : Nat → List Char → List Char → Option (List Char × List Char)
  | 0, _, _ => none
  | _ + 1, [], _ => none
  | fuel + 1, s@(c :: rest), acc =>
    if pat.isPrefixOf s then some (acc, s)
    else takeUntilRev pat fuel rest (c :: acc)

/-- The raw `innerxml` capture of each `<tag …> … </tag>` element, in
document order and each in reverse — the model of `xml.Unmarshal` filling
the `LastChange innerXML` field of `eventProperty`: the bytes between the
start tag and its end tag are kept verbatim (still entity-escaped). -/
def innerRawRevOf (tag : List Char) : Nat → List Char → List (List Char)
  | 0, _ => []
  | _ + 1, [] => []
  | fuel + 1, s@(_ :: rest) =>
    let opening := '<' :: tag
    if opening.isPrefixOf s then
      match s.drop opening.length with
      | c :: _ =>
        if c = '>' ∨ xmlIsSpace c then
          match dropThrough ['>'] (fuel + 1) (s.drop opening.length) with
          | some contentStart =>
            match takeUntilRev ('<' :: '/' :: tag) (fuel + 1) contentStart [] with
            | some (contentRev, rest') =>
              contentRev :: innerRawRevOf tag fuel rest'
            | none => []
          | none => []
        else innerRawRevOf tag fuel rest
      | [] => []
    else innerRawRevOf tag fuel rest

/-- `avTransportInstance` from the source: the `val` attributes of the
`TransportState`, `CurrentTrackMetaData` and `CurrentTrackURI` children
of one `InstanceID` element. -/
structure AVInstance where
  transportState : String := ""
  currentTrackMetaData : String := ""
  currentTrackURI : String := ""
deriving Repr, DecidableEq

/-- Unmarshal one `InstanceID` element: for each matching child in order,
a present `val` attribute overwrites the field (absent attributes leave it
unchanged, as Go unmarshal does). -/
def avInstanceOf (inst : XmlElem) : AVInstance :=
  let getv := fun (loc : String) =>
    (childrenNamed inst loc).foldl
      (fun acc c => match attrVal c "val" with | some v => v | none => acc) ""
  ⟨getv "TransportState", getv "CurrentTrackMetaData", getv "CurrentTrackURI"⟩

/-- Model of `xml.Unmarshal` into `avTransportLastChange`: the root
element's direct `InstanceID` children, in order; `none` on a decoder
error (malformed document or no root element). -/
def decodeLastChange (prepared : String) : Option (List AVInstance) :=
  (xmlTokens prepared).bind fun ts =>
    match elemsOf ts with
    | [] => none
    | root :: _ => some ((childrenNamed root "InstanceID").map avInstanceOf)

/-- `AVTransportEvent` from the source. -/
structure AVTransportEvent where
  transportState : String := ""
  track : TrackInfo := {}
deriving Repr, DecidableEq

/-- `ParseAVTransportEvent` from the source: decode the property set
(strict), take the first non-blank raw `LastChange` value, run it through
`prepareLastChangeXML`, decode the inner document, and build the track
from the first `InstanceID` (a metadata parse failure downgrades to
keeping only the URI). -/
def parseAVTransportEvent (body : String) : Except String AVTransportEvent :=
  match xmlTokens body with
  | none => Except.error "sonos: decode avtransport event"
  | some _ =>
    let candidatesRev := innerRawRevOf "LastChange".toList body.toList.length body.toList
    -- the Go test `strings.TrimSpace(raw) != ""` holds exactly when the raw
    -- value contains a non-whitespace character (direction-independent)
    match candidatesRev.find? fun r => r.any fun c => ¬ goIsSpace c with
    | none => Except.error "sonos: event missing LastChange"
    | some rawRev =>
      let prepared := prepareLastChangeXML rawRev.reverse.asString
      match decodeLastChange prepared with
      | none => Except.error "sonos: decode last change"
      | some [] => Except.error "sonos: last change missing InstanceID"
      | some (inst :: _) =>
        let transportState := goTrimSpace inst.transportState
        let meta := goTrimSpace inst.currentTrackMetaData
        let uri := goTrimSpace inst.currentTrackURI
        let meta := if goEqualFold meta "not_implemented" then "" else meta
        let track : TrackInfo :=
          if meta ≠ "" ∨ uri ≠ "" then
            match buildTrackInfo ⟨meta, uri⟩ with
            | Except.ok info => info
            | Except.error _ => { uri := uri }
          else {}
        Except.ok ⟨transportState, track⟩

/-! ## SOAP position-info response parsing (src/unnamed/part_000) -/

/-- The `UPnPError` detail of a SOAP fault. -/
structure UPnPErrorInfo where
  errorCode : String := ""
  errorDescription : String := ""
deriving Repr, DecidableEq

/-- `soapFault` from the source. -/
structure SoapFault where
  faultCode : String := ""
  faultString : String := ""
  detail : UPnPErrorInfo := {}
deriving Repr, DecidableEq

/-- `positionInfoBody` from the source: optional response and fault. -/
structure PositionInfoEnvelopeBody where
  response : Option PositionInfoResponse := none
  fault : Option SoapFault := none
deriving Repr, DecidableEq

/-- Unmarshal a `Fault` element (fields by local name, per Go tags). -/
def decodeSoapFault (e : XmlElem) : SoapFault :=
  let upnpE := (lastChildNamed e "detail").bind (lastChildNamed · "UPnPError")
  { faultCode := lastChildText e "faultcode"
    faultString := lastChildText e "faultstring"
    detail :=
      { errorCode := ((upnpE.map (lastChildText · "errorCode")).getD "")
        errorDescription := ((upnpE.map (lastChildText · "errorDescription")).getD "") } }

/-- Model of `xml.Unmarshal` into `positionInfoEnvelope`: root element,
`Body` child, its `Fault` / `GetPositionInfoResponse` children. -/
def decodePositionInfoEnvelope (body : String) : Option PositionInfoEnvelopeBody :=
  (xmlTokens body).bind fun ts =>
    match elemsOf ts with
    | [] => none
    | root :: _ =>
      let bodyE := lastChildNamed root "Body"
      some
        { response := (bodyE.bind (lastChildNamed · "GetPositionInfoResponse")).map
            fun r => ⟨lastChildText r "TrackMetaData", lastChildText r "TrackURI"⟩
          fault := (bodyE.bind (lastChildNamed · "Fault")).map decodeSoapFault }

/-- The fault-description selection of `parsePositionInfoResponse`:
UPnP error description, else fault string, else `UPnPError <code>`. -/
def faultDescription (fault : SoapFault) : String :=
  let desc := fault.faultString
  let desc := if fault.detail.errorDescription ≠ "" then fault.detail.errorDescription else desc
  if desc = "" ∧ fault.detail.errorCode ≠ "" then "UPnPError " ++ fault.detail.errorCode
  else desc

/-- `parsePositionInfoResponse` from the source: a decode failure is an
error, a `Fault` is translated into an error carrying the most specific
description, a missing response element is an error, otherwise the
response is returned. -/
def parsePositionInfoResponse (body : String) : Except String PositionInfoResponse :=
  match decodePositionInfoEnvelope body with
  | none => Except.error "sonos: decode position info"
  | some env =>
    match env.fault with
    | some fault =>
      Except.error ("sonos: avtransport fault " ++ fault.faultCode ++ ": " ++ faultDescription fault)
    | none =>
      match env.response with
      | none => Except.error "sonos: empty position info response"
      | some r => Except.ok r

/-! ## Device model, Sonos classification and discovery deduplication
(src/sonos/metadata.go, discovery source in src/sonos/metadata_test.go's
sibling file) -/

/-- `Device` from the source (the advertisement header map is carried as
an association list). -/
structure Device where
  ip : String := ""
  location : String := ""
  server : String := ""
  st : String := ""
  usn : String := ""
  headers : List (String × String) := []
  metadata : DeviceMetadata := {}
  isSonos : Bool := false
deriving Repr, DecidableEq

/-- Contiguous-substring test on character lists. -/
def listIsInfixOf (sub : List Char) : List Char → Bool
  | [] => sub.isEmpty
  | s@(_ :: rest) => sub.isPrefixOf s || listIsInfixOf sub rest

/-- `strings.Contains`. -/
def goContains (s sub : String) : Bool :=
  listIsInfixOf sub.toList s.toList

/-- `isSonosDevice` from the source: manufacturer / device type / model
name substring heuristics, case-insensitively. -/
def isSonosDevice (meta : DeviceMetadata) : Bool :=
  if goContains (goToLower meta.manufacturer) "sonos" then true
  else if goContains (goToLower meta.deviceType) "zoneplayer" ∨
          goContains (goToLower meta.deviceType) "sonos" then true
  else if goContains (goToLower meta.modelName) "sonos" then true
  else false

/-- The deduplication key of the discovery loop: USN, falling back to the
source IP when the USN header is absent. -/
def dedupKey (d : Device) : String :=
  if d.usn = "" then d.ip else d.usn

/-- One iteration of the discovery collection loop: a device whose key was
seen before replaces the earlier entry at its index (`devices[idx] =
device`), otherwise it is appended.  The source keeps an `indexByKey` map;
since keys in the accumulated list are unique and indices equal positions,
looking up the first entry with the same key is the same operation. -/
def insertObserved (acc : List Device) (d : Device) : List Device :=
  match acc.findIdx? fun e => dedupKey e = dedupKey d with
  | some i => acc.set i d
  | none => acc ++ [d]

/-- The discovery read loop's accumulation over the sequence of
well-formed parsed responses, in arrival order (no target room given). -/
def collectDevices (responses : List Device) : List Device :=
  responses.foldl insertObserved []

/-- The source's `sort.Slice` less function: by IP, then by location. -/
def deviceLess (a b : Device) : Bool :=
  if a.ip = b.ip then decide (a.location < b.location) else decide (a.ip < b.ip)

/-- Insertion into a sorted run (model of the final deterministic sort). -/
def insertSorted (d : Device) : List Device → List Device
  | [] => [d]
  | e :: rest => if deviceLess d e then d :: e :: rest else e :: insertSorted d rest

/-- Insertion sort with `deviceLess` (the source's comparison is a strict
total order on the deduplicated keys, so the sorted result is the same). -/
def sortDevices : List Device → List Device
  | [] => []
  | d :: rest => insertSorted d (sortDevices rest)

/-- The device set `Discover` returns for a given sequence of well-formed
advertisements when no target room is supplied: dedup by key, empty stays
empty (`nil`), otherwise sorted by address then location. -/
def discoverResult (responses : List Device) : List Device :=
  let devices := collectDevices responses
  if devices.isEmpty then [] else sortDevices devices

/-! ## GENA timeout negotiation (src/sonos/events.go) -/

/-- Nanoseconds in one minute. -/
def nsPerMinute : Int := 60000000000

/-- The renewal-ticker interval computed by `ListenForEvents` for a
(positive) negotiated lease: half the lease, clamped below at one
minute. -/
def renewalInterval (timeout : Int) : Int :=
  if timeout / 2 < nsPerMinute then nsPerMinute else timeout / 2

/-! ## Endpoint URL construction and enrichment (src/sonos/metadata.go) -/

/-- The subset of `net/url.URL` the source manipulates. -/
structure GoURL where
  scheme : String := ""
  host : String := ""
  path : String := ""
  query : String := ""
  fragment : String := ""
deriving Repr, DecidableEq

/-- Partial model of `net/url.Parse` for the absolute HTTP location URLs
the source handles: scheme before `://`, host up to the first
`/`/`?`/`#`, then path, query, fragment.  Control characters and spaces
are parse errors (as in Go); exotic URL forms are outside the inputs this
development evaluates. -/
def goURLParse (raw : String) : Option GoURL :=
  let cs := raw.toList
  if cs.any fun c => c = ' ' ∨ c.toNat < 32 then none
  else
    let (scheme, rest) :=
      match takeUntilRev "://".toList cs.length cs [] with
      | some (schemeRev, r) => (schemeRev.reverse, r.drop 3)
      | none => ([], cs)
    let host := rest.takeWhile fun c => ¬ (c = '/' ∨ c = '?' ∨ c = '#')
    let rest := rest.drop host.length
    let path := rest.takeWhile fun c => ¬ (c = '?' ∨ c = '#')
    let rest := rest.drop path.length
    let query :=
      match rest with
      | '?' :: t => t.takeWhile (· ≠ '#')
      | _ => []
    let fragment :=
      match rest.drop (if query.isEmpty then 0 else query.length + 1) with
      | '#' :: t => t
      | _ => []
    some ⟨scheme.asString, host.asString, path.asString, query.asString, fragment.asString⟩

/-- `url.URL.String` for the subset above. -/
def goURLString (u : GoURL) : String :=
  (if u.scheme = "" then "" else u.scheme ++ "://") ++ u.host ++ u.path ++
  (if u.query = "" then "" else "?" ++ u.query) ++
  (if u.fragment = "" then "" else "#" ++ u.fragment)

/-- `strings.TrimRight(s, "/")`. -/
def goTrimRightSlash (s : String) : String :=
  ((s.toList.reverse.dropWhile (· = '/')).reverse).asString

/-- `avTransportURL` from the source: an empty (or whitespace-only)
location is a descriptive error; otherwise path/query/fragment are
stripped from the location and the AVTransport path is appended. -/
def avTransportURL (device : Device) (suffix : String) : Except String String :=
  if goTrimSpace device.location = "" then
    Except.error "sonos: device location is empty"
  else
    match goURLParse device.location with
    | none => Except.error "sonos: parse device location"
    | some u =>
      let base := { u with path := "", query := "", fragment := "" }
      Except.ok (goTrimRightSlash (goURLString base) ++ "/MediaRenderer/AVTransport/" ++ suffix)

/-- `enrichMetadata` from the source, with the HTTP fetch of the
description document passed as an oracle: an empty location returns the
device unchanged with no error; fetch and parse errors are propagated;
on success the metadata is attached and the Sonos flag only ever gains
confidence. -/
def enrichMetadata (device : Device) (fetch : String → Except String String) :
    Except String Device :=
  if device.location = "" then Except.ok device
  else
    match fetch device.location with
    | Except.error e => Except.error e
    | Except.ok body =>
      match parseDeviceDescription body with
      | Except.error e => Except.error e
      | Except.ok meta =>
        Except.ok { device with
          metadata := meta
          isSonos := device.isSonos || isSonosDevice meta }

/-! ## Track change signature (src/sonos/listener.go) -/

/-- `trackSignature` from the source: the six fields are trimmed,
lower-cased and joined with `|`. -/
def trackSignature (info : TrackInfo) (display : String) : String :=
  goJoin
    ([info.title, info.artist, info.album, info.streamInfo, info.uri, display].map
      fun f => goToLower (goTrimSpace f)) "|"

/-! ## The real NOTIFY payload fixture (src/sonos/events_test.go), split into
segments so that proofs can step the scanners chunk by chunk -/

def c1b1 : String := "<?xml version=\"1.0\" encoding=\"utf-8\"?>"
def c1b2 : String := "\n<e:propertyset xmlns:e=\"urn:schemas-upnp-org:event-1-0\">"
def c1b3 : String := "\n  <e:property>"
def c1b4a : String := "\n    "
def c1b4b : String := "<LastChange>"
def c1b4bt : String := "LastChange>"
def c1tailB : String := "</LastChange>\n  </e:property>\n</e:propertyset>"

def c1r1 : String := "&lt;Event xmlns=&quot;urn:schemas-upnp-org:metadata-1-0/AVT/&quot; xmlns:r=&quot;urn:schemas-rinconnetworks-com:metadata-1-0/&quot;&gt;&lt;InstanceID val="
def c1r2 : String := "&quot;0&quot;&gt;&lt;TransportState val=&quot;PAUSED_PLAYBACK&quot;/&gt;&lt;CurrentPlayMode val=&quot;NORMAL&quot;/&gt;&lt;CurrentCrossfadeMode val=&quot;0"
def c1r3 : String := "&quot;/&gt;&lt;NumberOfTracks val=&quot;1&quot;/&gt;&lt;CurrentTrack val=&quot;1&quot;/&gt;&lt;CurrentSection val=&quot;0&quot;/&gt;&lt;CurrentTrackURI v"
def c1r4 : String := "al=&quot;x-sonos-vli:RINCON_F0F6C19DB2C101400:1,airplay:3e4acedc271c488c9f7a78dc0cb819df&quot;/&gt;&lt;CurrentTrackDuration val=&quot;0:04:59&quot;/&gt;&lt;C"
def c1r5 : String := "urrentTrackMetaData val=&quot;&amp;lt;DIDL-Lite xmlns:dc=&amp;quot;http://purl.org/dc/elements/1.1/&amp;quot; xmlns:upnp=&amp;quot;urn:schemas-upnp-or"
def c1r6 : String := "g:metadata-1-0/upnp/&amp;quot; xmlns:r=&amp;quot;urn:schemas-rinconnetworks-com:metadata-1-0/&amp;quot; xmlns=&amp;quot;urn:schemas-upnp-org:metadata-1-0/"
def c1r7 : String := "DIDL-Lite/&amp;quot;&amp;gt;&amp;lt;item id=&amp;quot;-1&amp;quot; parentID=&amp;quot;-1&amp;quot;&amp;gt;&amp;lt;res duration=&amp;quot;0:04:59&amp;quot;&amp;g"
def c1r8 : String := "t;&amp;lt;/res&amp;gt;&amp;lt;upnp:albumArtURI&amp;gt;http://192.168.7.119:1400/getaa?v=0&amp;amp;amp;vli=1&amp;amp;amp;u=2507217148&amp;lt;/upnp:al"
def c1r9 : String := "bumArtURI&amp;gt;&amp;lt;upnp:class&amp;gt;object.item.audioItem.musicTrack&amp;lt;/upnp:class&amp;gt;&amp;lt;dc:title&amp;gt;Tigers&amp;lt;/dc:title&amp;g"
def c1r10 : String := "t;&amp;lt;dc:creator&amp;gt;The Submarines&amp;lt;/dc:creator&amp;gt;&amp;lt;upnp:album&amp;gt;Love Notes/Letter Bombs (Deluxe Edition)&amp;lt;/upnp:albu"
def c1r11 : String := "m&amp;gt;&amp;lt;r:tiid&amp;gt;8894326627379687932&amp;lt;/r:tiid&amp;gt;&amp;lt;/item&amp;gt;&amp;lt;/DIDL-Lite&amp;gt;&quot;/&gt;&lt;r:NextTrackURI val"
def c1r12 : String := "=&quot;&quot;/&gt;&lt;r:NextTrackMetaData val=&quot;&amp;lt;DIDL-Lite xmlns:dc=&amp;quot;http://purl.org/dc/elements/1.1/&amp;quot; xmlns:upnp=&amp;quot;u"
def c1r13 : String := "rn:schemas-upnp-org:metadata-1-0/upnp/&amp;quot; xmlns:r=&amp;quot;urn:schemas-rinconnetworks-com:metadata-1-0/&amp;quot; xmlns=&amp;quot;urn:schemas-upnp"
def c1r14 : String := "-org:metadata-1-0/DIDL-Lite/&amp;quot;&amp;gt;&amp;lt;item id=&amp;quot;-1&amp;quot; parentID=&amp;quot;-1&amp;quot;&amp;gt;&amp;lt;res&amp;gt;&amp;lt;/re"
def c1r15 : String := "s&amp;gt;&amp;lt;upnp:albumArtURI&amp;gt;&amp;lt;/upnp:albumArtURI&amp;gt;&amp;lt;upnp:class&amp;gt;object.item.audioItem.musicTrack&amp;lt;/upnp:class"
def c1r16 : String := "&amp;gt;&amp;lt;/item&amp;gt;&amp;lt;/DIDL-Lite&amp;gt;&quot;/&gt;&lt;r:EnqueuedTransportURI val=&quot;&quot;/&gt;&lt;r:EnqueuedTransportURIMetaData val="
def c1r17 : String := "&quot;&amp;lt;DIDL-Lite xmlns:dc=&amp;quot;http://purl.org/dc/elements/1.1/&amp;quot; xmlns:upnp=&amp;quot;urn:schemas-upnp-org:metadata-1-0/upnp/&amp;quot; x"
def c1r18 : String := "mlns:r=&amp;quot;urn:schemas-rinconnetworks-com:metadata-1-0/&amp;quot; xmlns=&amp;quot;urn:schemas-upnp-org:metadata-1-0/DIDL-Lite/&amp;quot;&amp;gt;&amp;l"
def c1r19 : String := "t;item id=&amp;quot;-1&amp;quot; parentID=&amp;quot;-1&amp;quot; restricted=&amp;quot;true&amp;quot;&amp;gt;&amp;lt;dc:title&amp;gt;&amp;lt;/dc:title"
def c1r20 : String := "&amp;gt;&amp;lt;upnp:class&amp;gt;object.item.audioItem.linein.airplay&amp;lt;/upnp:class&amp;gt;&amp;lt;desc id=&amp;quot;cdudn&amp;quot; nameSpace=&amp;quot;u"
def c1r21 : String := "rn:schemas-rinconnetworks-com:metadata-1-0/&amp;quot;&amp;gt;&amp;lt;/desc&amp;gt;&amp;lt;upnp:albumArtURI&amp;gt;&amp;lt;/upnp:albumArtURI&amp;gt;"
def c1r22 : String := "&amp;lt;r:contentService name=&amp;quot;Airplay&amp;quot;/&amp;gt;&amp;lt;/item&amp;gt;&amp;lt;/DIDL-Lite&amp;gt;&quot;/&gt;&lt;/InstanceID&gt;&lt;/Event&gt;"
def c1r1t : String := "t;Event xmlns=&quot;urn:schemas-upnp-org:metadata-1-0/AVT/&quot; xmlns:r=&quot;urn:schemas-rinconnetworks-com:metadata-1-0/&quot;&gt;&lt;InstanceID val="

def c1a1 : String := "&lt;Event xmlns=&quot;urn:schemas-upnp-org:metadata-1-0/AVT/&quot; xmlns:r=&quot;urn:schemas-rinconnetworks-com:metadata-1-0/&quot;&gt;&lt;InstanceID val="
def c1a2 : String := "&quot;0&quot;&gt;&lt;TransportState val=&quot;PAUSED_PLAYBACK&quot;/&gt;&lt;CurrentPlayMode val=&quot;NORMAL&quot;/&gt;&lt;CurrentCrossfadeMode val=&quot;0"
def c1a3 : String := "&quot;/&gt;&lt;NumberOfTracks val=&quot;1&quot;/&gt;&lt;CurrentTrack val=&quot;1&quot;/&gt;&lt;CurrentSection val=&quot;0&quot;/&gt;&lt;CurrentTrackURI v"
def c1a4 : String := "al=&quot;x-sonos-vli:RINCON_F0F6C19DB2C101400:1,airplay:3e4acedc271c488c9f7a78dc0cb819df&quot;/&gt;&lt;CurrentTrackDuration val=&quot;0:04:59&quot;/&gt;&lt;C"
def c1a5 : String := "urrentTrackMetaData val=&quot;&amp;lt;DIDL-Lite xmlns:dc=__SONOS_ATTR_QUOT__http://purl.org/dc/elements/1.1/__SONOS_ATTR_QUOT__ xmlns:upnp=__SONOS_ATTR_QUOT__urn:schemas-upnp-or"
def c1a6 : String := "g:metadata-1-0/upnp/__SONOS_ATTR_QUOT__ xmlns:r=__SONOS_ATTR_QUOT__urn:schemas-rinconnetworks-com:metadata-1-0/__SONOS_ATTR_QUOT__ xmlns=__SONOS_ATTR_QUOT__urn:schemas-upnp-org:metadata-1-0/"
def c1a7 : String := "DIDL-Lite/__SONOS_ATTR_QUOT__&amp;gt;&amp;lt;item id=__SONOS_ATTR_QUOT__-1__SONOS_ATTR_QUOT__ parentID=__SONOS_ATTR_QUOT__-1__SONOS_ATTR_QUOT__&amp;gt;&amp;lt;res duration=__SONOS_ATTR_QUOT__0:04:59__SONOS_ATTR_QUOT__&amp;g"
def c1a8 : String := "t;&amp;lt;/res&amp;gt;&amp;lt;upnp:albumArtURI&amp;gt;http://192.168.7.119:1400/getaa?v=0&amp;amp;amp;vli=1&amp;amp;amp;u=2507217148&amp;lt;/upnp:al"
def c1a9 : String := "bumArtURI&amp;gt;&amp;lt;upnp:class&amp;gt;object.item.audioItem.musicTrack&amp;lt;/upnp:class&amp;gt;&amp;lt;dc:title&amp;gt;Tigers&amp;lt;/dc:title&amp;g"
def c1a10 : String := "t;&amp;lt;dc:creator&amp;gt;The Submarines&amp;lt;/dc:creator&amp;gt;&amp;lt;upnp:album&amp;gt;Love Notes/Letter Bombs (Deluxe Edition)&amp;lt;/upnp:albu"
def c1a11 : String := "m&amp;gt;&amp;lt;r:tiid&amp;gt;8894326627379687932&amp;lt;/r:tiid&amp;gt;&amp;lt;/item&amp;gt;&amp;lt;/DIDL-Lite&amp;gt;&quot;/&gt;&lt;r:NextTrackURI val"
def c1a12 : String := "=&quot;&quot;/&gt;&lt;r:NextTrackMetaData val=&quot;&amp;lt;DIDL-Lite xmlns:dc=__SONOS_ATTR_QUOT__http://purl.org/dc/elements/1.1/__SONOS_ATTR_QUOT__ xmlns:upnp=__SONOS_ATTR_QUOT__u"
def c1a13 : String := "rn:schemas-upnp-org:metadata-1-0/upnp/__SONOS_ATTR_QUOT__ xmlns:r=__SONOS_ATTR_QUOT__urn:schemas-rinconnetworks-com:metadata-1-0/__SONOS_ATTR_QUOT__ xmlns=__SONOS_ATTR_QUOT__urn:schemas-upnp"
def c1a14 : String := "-org:metadata-1-0/DIDL-Lite/__SONOS_ATTR_QUOT__&amp;gt;&amp;lt;item id=__SONOS_ATTR_QUOT__-1__SONOS_ATTR_QUOT__ parentID=__SONOS_ATTR_QUOT__-1__SONOS_ATTR_QUOT__&amp;gt;&amp;lt;res&amp;gt;&amp;lt;/re"
def c1a15 : String := "s&amp;gt;&amp;lt;upnp:albumArtURI&amp;gt;&amp;lt;/upnp:albumArtURI&amp;gt;&amp;lt;upnp:class&amp;gt;object.item.audioItem.musicTrack&amp;lt;/upnp:class"
def c1a16 : String := "&amp;gt;&amp;lt;/item&amp;gt;&amp;lt;/DIDL-Lite&amp;gt;&quot;/&gt;&lt;r:EnqueuedTransportURI val=&quot;&quot;/&gt;&lt;r:EnqueuedTransportURIMetaData val="
def c1a17 : String := "&quot;&amp;lt;DIDL-Lite xmlns:dc=__SONOS_ATTR_QUOT__http://purl.org/dc/elements/1.1/__SONOS_ATTR_QUOT__ xmlns:upnp=__SONOS_ATTR_QUOT__urn:schemas-upnp-org:metadata-1-0/upnp/__SONOS_ATTR_QUOT__ x"
def c1a18 : String := "mlns:r=__SONOS_ATTR_QUOT__urn:schemas-rinconnetworks-com:metadata-1-0/__SONOS_ATTR_QUOT__ xmlns=__SONOS_ATTR_QUOT__urn:schemas-upnp-org:metadata-1-0/DIDL-Lite/__SONOS_ATTR_QUOT__&amp;gt;&amp;l"
def c1a19 : String := "t;item id=__SONOS_ATTR_QUOT__-1__SONOS_ATTR_QUOT__ parentID=__SONOS_ATTR_QUOT__-1__SONOS_ATTR_QUOT__ restricted=__SONOS_ATTR_QUOT__true__SONOS_ATTR_QUOT__&amp;gt;&amp;lt;dc:title&amp;gt;&amp;lt;/dc:title"
def c1a20 : String := "&amp;gt;&amp;lt;upnp:class&amp;gt;object.item.audioItem.linein.airplay&amp;lt;/upnp:class&amp;gt;&amp;lt;desc id=__SONOS_ATTR_QUOT__cdudn__SONOS_ATTR_QUOT__ nameSpace=__SONOS_ATTR_QUOT__u"
def c1a21 : String := "rn:schemas-rinconnetworks-com:metadata-1-0/__SONOS_ATTR_QUOT__&amp;gt;&amp;lt;/desc&amp;gt;&amp;lt;upnp:albumArtURI&amp;gt;&amp;lt;/upnp:albumArtURI&amp;gt;"
def c1a22 : String := "&amp;lt;r:contentService name=__SONOS_ATTR_QUOT__Airplay__SONOS_ATTR_QUOT__/&amp;gt;&amp;lt;/item&amp;gt;&amp;lt;/DIDL-Lite&amp;gt;&quot;/&gt;&lt;/InstanceID&gt;&lt;/Event&gt;"
def c1c1 : String := "<Event xmlns=\"urn:schemas-upnp-org:metadata-1-0/AVT/\" xmlns:r=\"urn:schemas-rinconnetworks-com:metadata-1-0/\"><InstanceID val="
def c1c2 : String := "\"0\"><TransportState val=\"PAUSED_PLAYBACK\"/><CurrentPlayMode val=\"NORMAL\"/><CurrentCrossfadeMode val=\"0"
def c1c3 : String := "\"/><NumberOfTracks val=\"1\"/><CurrentTrack val=\"1\"/><CurrentSection val=\"0\"/><CurrentTrackURI v"
def c1c4 : String := "al=\"x-sonos-vli:RINCON_F0F6C19DB2C101400:1,airplay:3e4acedc271c488c9f7a78dc0cb819df\"/><CurrentTrackDuration val=\"0:04:59\"/><C"
def c1c5 : String := "urrentTrackMetaData val=\"&lt;DIDL-Lite xmlns:dc=__SONOS_ATTR_QUOT__http://purl.org/dc/elements/1.1/__SONOS_ATTR_QUOT__ xmlns:upnp=__SONOS_ATTR_QUOT__urn:schemas-upnp-or"
def c1c6 : String := "g:metadata-1-0/upnp/__SONOS_ATTR_QUOT__ xmlns:r=__SONOS_ATTR_QUOT__urn:schemas-rinconnetworks-com:metadata-1-0/__SONOS_ATTR_QUOT__ xmlns=__SONOS_ATTR_QUOT__urn:schemas-upnp-org:metadata-1-0/"
def c1c7 : String := "DIDL-Lite/__SONOS_ATTR_QUOT__&gt;&lt;item id=__SONOS_ATTR_QUOT__-1__SONOS_ATTR_QUOT__ parentID=__SONOS_ATTR_QUOT__-1__SONOS_ATTR_QUOT__&gt;&lt;res duration=__SONOS_ATTR_QUOT__0:04:59__SONOS_ATTR_QUOT__&g"
def c1c8 : String := "t;&lt;/res&gt;&lt;upnp:albumArtURI&gt;http://192.168.7.119:1400/getaa?v=0&amp;amp;vli=1&amp;amp;u=2507217148&lt;/upnp:al"
def c1c9 : String := "bumArtURI&gt;&lt;upnp:class&gt;object.item.audioItem.musicTrack&lt;/upnp:class&gt;&lt;dc:title&gt;Tigers&lt;/dc:title&g"
def c1c10 : String := "t;&lt;dc:creator&gt;The Submarines&lt;/dc:creator&gt;&lt;upnp:album&gt;Love Notes/Letter Bombs (Deluxe Edition)&lt;/upnp:albu"
def c1c11 : String := "m&gt;&lt;r:tiid&gt;8894326627379687932&lt;/r:tiid&gt;&lt;/item&gt;&lt;/DIDL-Lite&gt;\"/><r:NextTrackURI val"
def c1c12 : String := "=\"\"/><r:NextTrackMetaData val=\"&lt;DIDL-Lite xmlns:dc=__SONOS_ATTR_QUOT__http://purl.org/dc/elements/1.1/__SONOS_ATTR_QUOT__ xmlns:upnp=__SONOS_ATTR_QUOT__u"
def c1c13 : String := "rn:schemas-upnp-org:metadata-1-0/upnp/__SONOS_ATTR_QUOT__ xmlns:r=__SONOS_ATTR_QUOT__urn:schemas-rinconnetworks-com:metadata-1-0/__SONOS_ATTR_QUOT__ xmlns=__SONOS_ATTR_QUOT__urn:schemas-upnp"
def c1c14 : String := "-org:metadata-1-0/DIDL-Lite/__SONOS_ATTR_QUOT__&gt;&lt;item id=__SONOS_ATTR_QUOT__-1__SONOS_ATTR_QUOT__ parentID=__SONOS_ATTR_QUOT__-1__SONOS_ATTR_QUOT__&gt;&lt;res&gt;&lt;/re"
def c1c15 : String := "s&gt;&lt;upnp:albumArtURI&gt;&lt;/upnp:albumArtURI&gt;&lt;upnp:class&gt;object.item.audioItem.musicTrack&lt;/upnp:class"
def c1c16 : String := "&gt;&lt;/item&gt;&lt;/DIDL-Lite&gt;\"/><r:EnqueuedTransportURI val=\"\"/><r:EnqueuedTransportURIMetaData val="
def c1c17 : String := "\"&lt;DIDL-Lite xmlns:dc=__SONOS_ATTR_QUOT__http://purl.org/dc/elements/1.1/__SONOS_ATTR_QUOT__ xmlns:upnp=__SONOS_ATTR_QUOT__urn:schemas-upnp-org:metadata-1-0/upnp/__SONOS_ATTR_QUOT__ x"
def c1c18 : String := "mlns:r=__SONOS_ATTR_QUOT__urn:schemas-rinconnetworks-com:metadata-1-0/__SONOS_ATTR_QUOT__ xmlns=__SONOS_ATTR_QUOT__urn:schemas-upnp-org:metadata-1-0/DIDL-Lite/__SONOS_ATTR_QUOT__&gt;&l"
def c1c19 : String := "t;item id=__SONOS_ATTR_QUOT__-1__SONOS_ATTR_QUOT__ parentID=__SONOS_ATTR_QUOT__-1__SONOS_ATTR_QUOT__ restricted=__SONOS_ATTR_QUOT__true__SONOS_ATTR_QUOT__&gt;&lt;dc:title&gt;&lt;/dc:title"
def c1c20 : String := "&gt;&lt;upnp:class&gt;object.item.audioItem.linein.airplay&lt;/upnp:class&gt;&lt;desc id=__SONOS_ATTR_QUOT__cdudn__SONOS_ATTR_QUOT__ nameSpace=__SONOS_ATTR_QUOT__u"
def c1c21 : String := "rn:schemas-rinconnetworks-com:metadata-1-0/__SONOS_ATTR_QUOT__&gt;&lt;/desc&gt;&lt;upnp:albumArtURI&gt;&lt;/upnp:albumArtURI&gt;"
def c1c22 : String := "&lt;r:contentService name=__SONOS_ATTR_QUOT__Airplay__SONOS_ATTR_QUOT__/&gt;&lt;/item&gt;&lt;/DIDL-Lite&gt;\"/></InstanceID></Event>"
def c1e1 : String := "<Event xmlns=\"urn:schemas-upnp-org:metadata-1-0/AVT/\" xmlns:r=\"urn:schemas-rinconnetworks-com:metadata-1-0/\"><InstanceID val="
def c1e2 : String := "\"0\"><TransportState val=\"PAUSED_PLAYBACK\"/><CurrentPlayMode val=\"NORMAL\"/><CurrentCrossfadeMode val=\"0"
def c1e3 : String := "\"/><NumberOfTracks val=\"1\"/><CurrentTrack val=\"1\"/><CurrentSection val=\"0\"/><CurrentTrackURI v"
def c1e4 : String := "al=\"x-sonos-vli:RINCON_F0F6C19DB2C101400:1,airplay:3e4acedc271c488c9f7a78dc0cb819df\"/><CurrentTrackDuration val=\"0:04:59\"/><C"
def c1e5 : String := "urrentTrackMetaData val=\"&lt;DIDL-Lite xmlns:dc=&quot;http://purl.org/dc/elements/1.1/&quot; xmlns:upnp=&quot;urn:schemas-upnp-or"
def c1e6 : String := "g:metadata-1-0/upnp/&quot; xmlns:r=&quot;urn:schemas-rinconnetworks-com:metadata-1-0/&quot; xmlns=&quot;urn:schemas-upnp-org:metadata-1-0/"
def c1e7 : String := "DIDL-Lite/&quot;&gt;&lt;item id=&quot;-1&quot; parentID=&quot;-1&quot;&gt;&lt;res duration=&quot;0:04:59&quot;&g"
def c1e8 : String := "t;&lt;/res&gt;&lt;upnp:albumArtURI&gt;http://192.168.7.119:1400/getaa?v=0&amp;amp;vli=1&amp;amp;u=2507217148&lt;/upnp:al"
def c1e9 : String := "bumArtURI&gt;&lt;upnp:class&gt;object.item.audioItem.musicTrack&lt;/upnp:class&gt;&lt;dc:title&gt;Tigers&lt;/dc:title&g"
def c1e10 : String := "t;&lt;dc:creator&gt;The Submarines&lt;/dc:creator&gt;&lt;upnp:album&gt;Love Notes/Letter Bombs (Deluxe Edition)&lt;/upnp:albu"
def c1e11 : String := "m&gt;&lt;r:tiid&gt;8894326627379687932&lt;/r:tiid&gt;&lt;/item&gt;&lt;/DIDL-Lite&gt;\"/><r:NextTrackURI val"
def c1e12 : String := "=\"\"/><r:NextTrackMetaData val=\"&lt;DIDL-Lite xmlns:dc=&quot;http://purl.org/dc/elements/1.1/&quot; xmlns:upnp=&quot;u"
def c1e13 : String := "rn:schemas-upnp-org:metadata-1-0/upnp/&quot; xmlns:r=&quot;urn:schemas-rinconnetworks-com:metadata-1-0/&quot; xmlns=&quot;urn:schemas-upnp"
def c1e14 : String := "-org:metadata-1-0/DIDL-Lite/&quot;&gt;&lt;item id=&quot;-1&quot; parentID=&quot;-1&quot;&gt;&lt;res&gt;&lt;/re"
def c1e15 : String := "s&gt;&lt;upnp:albumArtURI&gt;&lt;/upnp:albumArtURI&gt;&lt;upnp:class&gt;object.item.audioItem.musicTrack&lt;/upnp:class"
def c1e16 : String := "&gt;&lt;/item&gt;&lt;/DIDL-Lite&gt;\"/><r:EnqueuedTransportURI val=\"\"/><r:EnqueuedTransportURIMetaData val="
def c1e17 : String := "\"&lt;DIDL-Lite xmlns:dc=&quot;http://purl.org/dc/elements/1.1/&quot; xmlns:upnp=&quot;urn:schemas-upnp-org:metadata-1-0/upnp/&quot; x"
def c1e18 : String := "mlns:r=&quot;urn:schemas-rinconnetworks-com:metadata-1-0/&quot; xmlns=&quot;urn:schemas-upnp-org:metadata-1-0/DIDL-Lite/&quot;&gt;&l"
def c1e19 : String := "t;item id=&quot;-1&quot; parentID=&quot;-1&quot; restricted=&quot;true&quot;&gt;&lt;dc:title&gt;&lt;/dc:title"
def c1e20 : String := "&gt;&lt;upnp:class&gt;object.item.audioItem.linein.airplay&lt;/upnp:class&gt;&lt;desc id=&quot;cdudn&quot; nameSpace=&quot;u"
def c1e21 : String := "rn:schemas-rinconnetworks-com:metadata-1-0/&quot;&gt;&lt;/desc&gt;&lt;upnp:albumArtURI&gt;&lt;/upnp:albumArtURI&gt;"
def c1e22 : String := "&lt;r:contentService name=&quot;Airplay&quot;/&gt;&lt;/item&gt;&lt;/DIDL-Lite&gt;\"/></InstanceID></Event>"
def c1f1 : String := "<Event xmlns=\"urn:schemas-upnp-org:metadata-1-0/AVT/\" xmlns:r=\"urn:schemas-rinconnetworks-com:metadata-1-0/\"><InstanceID val="
def c1f2 : String := "\"0\"><TransportState val=\"PAUSED_PLAYBACK\"/><CurrentPlayMode val=\"NORMAL\"/><CurrentCrossfadeMode val=\"0"
def c1f3 : String := "\"/><NumberOfTracks val=\"1\"/><CurrentTrack val=\"1\"/><CurrentSection val=\"0\"/><CurrentTrackURI v"
def c1f4 : String := "al=\"x-sonos-vli:RINCON_F0F6C19DB2C101400:1,airplay:3e4acedc271c488c9f7a78dc0cb819df\"/><CurrentTrackDuration val=\"0:04:59\"/><C"
def c1f5 : String := "urrentTrackMetaData val=\"&amp;lt;DIDL-Lite xmlns:dc=&amp;quot;http://purl.org/dc/elements/1.1/&amp;quot; xmlns:upnp=&amp;quot;urn:schemas-upnp-or"
def c1f6 : String := "g:metadata-1-0/upnp/&amp;quot; xmlns:r=&amp;quot;urn:schemas-rinconnetworks-com:metadata-1-0/&amp;quot; xmlns=&amp;quot;urn:schemas-upnp-org:metadata-1-0/"
def c1f7 : String := "DIDL-Lite/&amp;quot;&amp;gt;&amp;lt;item id=&amp;quot;-1&amp;quot; parentID=&amp;quot;-1&amp;quot;&amp;gt;&amp;lt;res duration=&amp;quot;0:04:59&amp;quot;&amp;g"
def c1f8 : String := "t;&amp;lt;/res&amp;gt;&amp;lt;upnp:albumArtURI&amp;gt;http://192.168.7.119:1400/getaa?v=0&amp;amp;amp;vli=1&amp;amp;amp;u=2507217148&amp;lt;/upnp:al"
def c1f9 : String := "bumArtURI&amp;gt;&amp;lt;upnp:class&amp;gt;object.item.audioItem.musicTrack&amp;lt;/upnp:class&amp;gt;&amp;lt;dc:title&amp;gt;Tigers&amp;lt;/dc:title&amp;g"
def c1f10 : String := "t;&amp;lt;dc:creator&amp;gt;The Submarines&amp;lt;/dc:creator&amp;gt;&amp;lt;upnp:album&amp;gt;Love Notes/Letter Bombs (Deluxe Edition)&amp;lt;/upnp:albu"
def c1f11 : String := "m&amp;gt;&amp;lt;r:tiid&amp;gt;8894326627379687932&amp;lt;/r:tiid&amp;gt;&amp;lt;/item&amp;gt;&amp;lt;/DIDL-Lite&amp;gt;\"/><r:NextTrackURI val"
def c1f12 : String := "=\"\"/><r:NextTrackMetaData val=\"&amp;lt;DIDL-Lite xmlns:dc=&amp;quot;http://purl.org/dc/elements/1.1/&amp;quot; xmlns:upnp=&amp;quot;u"
def c1f13 : String := "rn:schemas-upnp-org:metadata-1-0/upnp/&amp;quot; xmlns:r=&amp;quot;urn:schemas-rinconnetworks-com:metadata-1-0/&amp;quot; xmlns=&amp;quot;urn:schemas-upnp"
def c1f14 : String := "-org:metadata-1-0/DIDL-Lite/&amp;quot;&amp;gt;&amp;lt;item id=&amp;quot;-1&amp;quot; parentID=&amp;quot;-1&amp;quot;&amp;gt;&amp;lt;res&amp;gt;&amp;lt;/re"
def c1f15 : String := "s&amp;gt;&amp;lt;upnp:albumArtURI&amp;gt;&amp;lt;/upnp:albumArtURI&amp;gt;&amp;lt;upnp:class&amp;gt;object.item.audioItem.musicTrack&amp;lt;/upnp:class"
def c1f16 : String := "&amp;gt;&amp;lt;/item&amp;gt;&amp;lt;/DIDL-Lite&amp;gt;\"/><r:EnqueuedTransportURI val=\"\"/><r:EnqueuedTransportURIMetaData val="
def c1f17 : String := "\"&amp;lt;DIDL-Lite xmlns:dc=&amp;quot;http://purl.org/dc/elements/1.1/&amp;quot; xmlns:upnp=&amp;quot;urn:schemas-upnp-org:metadata-1-0/upnp/&amp;quot; x"
def c1f18 : String := "mlns:r=&amp;quot;urn:schemas-rinconnetworks-com:metadata-1-0/&amp;quot; xmlns=&amp;quot;urn:schemas-upnp-org:metadata-1-0/DIDL-Lite/&amp;quot;&amp;gt;&amp;l"
def c1f19 : String := "t;item id=&amp;quot;-1&amp;quot; parentID=&amp;quot;-1&amp;quot; restricted=&amp;quot;true&amp;quot;&amp;gt;&amp;lt;dc:title&amp;gt;&amp;lt;/dc:title"
def c1f20 : String := "&amp;gt;&amp;lt;upnp:class&amp;gt;object.item.audioItem.linein.airplay&amp;lt;/upnp:class&amp;gt;&amp;lt;desc id=&amp;quot;cdudn&amp;quot; nameSpace=&amp;quot;u"
def c1f21 : String := "rn:schemas-rinconnetworks-com:metadata-1-0/&amp;quot;&amp;gt;&amp;lt;/desc&amp;gt;&amp;lt;upnp:albumArtURI&amp;gt;&amp;lt;/upnp:albumArtURI&amp;gt;"
def c1f22 : String := "&amp;lt;r:contentService name=&amp;quot;Airplay&amp;quot;/&amp;gt;&amp;lt;/item&amp;gt;&amp;lt;/DIDL-Lite&amp;gt;\"/></InstanceID></Event>"

/-- The raw `LastChange` inner document of the fixture. -/
def c1s0 : String := c1r1 ++ (c1r2 ++ (c1r3 ++ (c1r4 ++ (c1r5 ++ (c1r6 ++ (c1r7 ++ (c1r8 ++ (c1r9 ++ (c1r10 ++ (c1r11 ++ (c1r12 ++ (c1r13 ++ (c1r14 ++ (c1r15 ++ (c1r16 ++ (c1r17 ++ (c1r18 ++ (c1r19 ++ (c1r20 ++ (c1r21 ++ (c1r22)))))))))))))))))))))
/-- After protecting `&amp;quot;` (no `&amp;apos;` occurs, so also after the second pass). -/
def c1s1 : String := c1a1 ++ (c1a2 ++ (c1a3 ++ (c1a4 ++ (c1a5 ++ (c1a6 ++ (c1a7 ++ (c1a8 ++ (c1a9 ++ (c1a10 ++ (c1a11 ++ (c1a12 ++ (c1a13 ++ (c1a14 ++ (c1a15 ++ (c1a16 ++ (c1a17 ++ (c1a18 ++ (c1a19 ++ (c1a20 ++ (c1a21 ++ (c1a22)))))))))))))))))))))
/-- After the HTML unescape pass. -/
def c1s3 : String := c1c1 ++ (c1c2 ++ (c1c3 ++ (c1c4 ++ (c1c5 ++ (c1c6 ++ (c1c7 ++ (c1c8 ++ (c1c9 ++ (c1c10 ++ (c1c11 ++ (c1c12 ++ (c1c13 ++ (c1c14 ++ (c1c15 ++ (c1c16 ++ (c1c17 ++ (c1c18 ++ (c1c19 ++ (c1c20 ++ (c1c21 ++ (c1c22)))))))))))))))))))))
/-- After restoring the placeholders (no `__SONOS_ATTR_APOS__` occurs). -/
def c1s4 : String := c1e1 ++ (c1e2 ++ (c1e3 ++ (c1e4 ++ (c1e5 ++ (c1e6 ++ (c1e7 ++ (c1e8 ++ (c1e9 ++ (c1e10 ++ (c1e11 ++ (c1e12 ++ (c1e13 ++ (c1e14 ++ (c1e15 ++ (c1e16 ++ (c1e17 ++ (c1e18 ++ (c1e19 ++ (c1e20 ++ (c1e21 ++ (c1e22)))))))))))))))))))))
/-- After re-escaping markup inside attribute values; `sanitizeInvalidEntities` leaves it unchanged. -/
def c1s6 : String := c1f1 ++ (c1f2 ++ (c1f3 ++ (c1f4 ++ (c1f5 ++ (c1f6 ++ (c1f7 ++ (c1f8 ++ (c1f9 ++ (c1f10 ++ (c1f11 ++ (c1f12 ++ (c1f13 ++ (c1f14 ++ (c1f15 ++ (c1f16 ++ (c1f17 ++ (c1f18 ++ (c1f19 ++ (c1f20 ++ (c1f21 ++ (c1f22)))))))))))))))))))))

/-- The NOTIFY body of `TestParseAVTransportEventWithRealPayload`. -/
def fixtureReal : String :=
  c1b1 ++ (c1b2 ++ (c1b3 ++ (c1b4a ++ (c1b4b ++ (c1r1 ++ (c1r2 ++ (c1r3 ++ (c1r4 ++ (c1r5 ++ (c1r6 ++ (c1r7 ++ (c1r8 ++ (c1r9 ++ (c1r10 ++ (c1r11 ++ (c1r12 ++ (c1r13 ++ (c1r14 ++ (c1r15 ++ (c1r16 ++ (c1r17 ++ (c1r18 ++ (c1r19 ++ (c1r20 ++ (c1r21 ++ (c1r22 ++ c1tailB))))))))))))))))))))))))))

/-- The raw capture, accumulated in reverse chunk by chunk. -/
def c1rawRev : List Char := (List.reverseAux c1r22.toList (List.reverseAux c1r21.toList (List.reverseAux c1r20.toList (List.reverseAux c1r19.toList (List.reverseAux c1r18.toList (List.reverseAux c1r17.toList (List.reverseAux c1r16.toList (List.reverseAux c1r15.toList (List.reverseAux c1r14.toList (List.reverseAux c1r13.toList (List.reverseAux c1r12.toList (List.reverseAux c1r11.toList (List.reverseAux c1r10.toList (List.reverseAux c1r9.toList (List.reverseAux c1r8.toList (List.reverseAux c1r7.toList (List.reverseAux c1r6.toList (List.reverseAux c1r5.toList (List.reverseAux c1r4.toList (List.reverseAux c1r3.toList (List.reverseAux c1r2.toList (List.reverseAux c1r1.toList ([] : List Char)))))))))))))))))))))))
/-- The decoded character-data run of the body, accumulated in reverse. -/
def c1textRev : List Char := (List.reverseAux c1e22.toList (List.reverseAux c1e21.toList (List.reverseAux c1e20.toList (List.reverseAux c1e19.toList (List.reverseAux c1e18.toList (List.reverseAux c1e17.toList (List.reverseAux c1e16.toList (List.reverseAux c1e15.toList (List.reverseAux c1e14.toList (List.reverseAux c1e13.toList (List.reverseAux c1e12.toList (List.reverseAux c1e11.toList (List.reverseAux c1e10.toList (List.reverseAux c1e9.toList (List.reverseAux c1e8.toList (List.reverseAux c1e7.toList (List.reverseAux c1e6.toList (List.reverseAux c1e5.toList (List.reverseAux c1e4.toList (List.reverseAux c1e3.toList (List.reverseAux c1e2.toList (List.reverseAux c1e1.toList ([] : List Char)))))))))))))))))))))))

/-- The decoded `CurrentTrackMetaData` attribute (still XML-escaped DIDL). -/
def c1didl : String := "&lt;DIDL-Lite xmlns:dc=&quot;http://purl.org/dc/elements/1.1/&quot; xmlns:upnp=&quot;urn:schemas-upnp-org:metadata-1-0/upnp/&quot; xmlns:r=&quot;urn:schemas-rinconnetworks-com:metadata-1-0/&quot; xmlns=&quot;urn:schemas-upnp-org:metadata-1-0/DIDL-Lite/&quot;&gt;&lt;item id=&quot;-1&quot; parentID=&quot;-1&quot;&gt;&lt;res duration=&quot;0:04:59&quot;&gt;&lt;/res&gt;&lt;upnp:albumArtURI&gt;http://192.168.7.119:1400/getaa?v=0&amp;amp;vli=1&amp;amp;u=2507217148&lt;/upnp:albumArtURI&gt;&lt;upnp:class&gt;object.item.audioItem.musicTrack&lt;/upnp:class&gt;&lt;dc:title&gt;Tigers&lt;/dc:title&gt;&lt;dc:creator&gt;The Submarines&lt;/dc:creator&gt;&lt;upnp:album&gt;Love Notes/Letter Bombs (Deluxe Edition)&lt;/upnp:album&gt;&lt;r:tiid&gt;8894326627379687932&lt;/r:tiid&gt;&lt;/item&gt;&lt;/DIDL-Lite&gt;"
/-- The `InstanceID` record unmarshalled from the prepared document. -/
def c1inst : AVInstance := ⟨"PAUSED_PLAYBACK", c1didl, "x-sonos-vli:RINCON_F0F6C19DB2C101400:1,airplay:3e4acedc271c488c9f7a78dc0cb819df"⟩

def c1u1 : String := "<Event xmlns=\"urn:schemas-upnp-org:metadata-1-0/AVT/\" xmlns:r=\"urn:schemas-rinconnetworks-com:metadata-1-0/\">"
def c1u2 : String := "<InstanceID val="
def c1u3 : String := "\"0\">"
def c1u4 : String := "<TransportState val=\"PAUSED_PLAYBACK\"/>"
def c1u5 : String := "<CurrentPlayMode val=\"NORMAL\"/>"
def c1u6 : String := "<CurrentCrossfadeMode val=\"0"
def c1u7 : String := "\"/>"
def c1u8 : String := "<NumberOfTracks val=\"1\"/>"
def c1u9 : String := "<CurrentTrack val=\"1\"/>"
def c1u10 : String := "<CurrentSection val=\"0\"/>"
def c1u11 : String := "<CurrentTrackURI v"
def c1u12 : String := "al=\"x-sonos-vli:RINCON_F0F6C19DB2C101400:1,airplay:3e4acedc271c488c9f7a78dc0cb819df\"/>"
def c1u13 : String := "<CurrentTrackDuration val=\"0:04:59\"/>"
def c1u14 : String := "<C"
def c1u15 : String := "m&amp;gt;&amp;lt;r:tiid&amp;gt;8894326627379687932&amp;lt;/r:tiid&amp;gt;&amp;lt;/item&amp;gt;&amp;lt;/DIDL-Lite&amp;gt;\"/>"
def c1u16 : String := "<r:NextTrackURI val"
def c1u17 : String := "=\"\"/>"
def c1u18 : String := "<r:NextTrackMetaData val=\"&amp;lt;DIDL-Lite xmlns:dc=&amp;quot;http://purl.org/dc/elements/1.1/&amp;quot; xmlns:upnp=&amp;quot;u"
def c1u19 : String := "&amp;gt;&amp;lt;/item&amp;gt;&amp;lt;/DIDL-Lite&amp;gt;\"/>"
def c1u20 : String := "<r:EnqueuedTransportURI val=\"\"/>"
def c1u21 : String := "<r:EnqueuedTransportURIMetaData val="
def c1u22 : String := "&amp;lt;r:contentService name=&amp;quot;Airplay&amp;quot;/&amp;gt;&amp;lt;/item&amp;gt;&amp;lt;/DIDL-Lite&amp;gt;\"/>"
def c1u23 : String := "</InstanceID>"
def c1u24 : String := "</Event>"
def c1didl1 : String := "&lt;DIDL-Lite xmlns:dc=&quot;http://purl.org/dc/elements/1.1/&quot; xmlns:upnp=&quot;urn:schemas-upnp-org:metadata-1-0/upnp/&quot; xmlns:r=&quot;urn:schemas-rinconnetworks-com:metadata-1-0/&quot; xmlns=&quot;urn:schemas-upnp-org:metadata-1-0/DIDL-Lite/&quot;&gt;&lt;item id=&quot;-1&quot; parentID=&quot;-1&quot;&gt;&lt;res&gt;&lt;/res&gt;&lt;upnp:albumArtURI&gt;&lt;/upnp:albumArtURI&gt;&lt;upnp:class&gt;object.item.audioItem.musicTrack&lt;/upnp:class&gt;&lt;/item&gt;&lt;/DIDL-Lite&gt;"
def c1didl2 : String := "&lt;DIDL-Lite xmlns:dc=&quot;http://purl.org/dc/elements/1.1/&quot; xmlns:upnp=&quot;urn:schemas-upnp-org:metadata-1-0/upnp/&quot; xmlns:r=&quot;urn:schemas-rinconnetworks-com:metadata-1-0/&quot; xmlns=&quot;urn:schemas-upnp-org:metadata-1-0/DIDL-Lite/&quot;&gt;&lt;item id=&quot;-1&quot; parentID=&quot;-1&quot; restricted=&quot;true&quot;&gt;&lt;dc:title&gt;&lt;/dc:title&gt;&lt;upnp:class&gt;object.item.audioItem.linein.airplay&lt;/upnp:class&gt;&lt;desc id=&quot;cdudn&quot; nameSpace=&quot;urn:schemas-rinconnetworks-com:metadata-1-0/&quot;&gt;&lt;/desc&gt;&lt;upnp:albumArtURI&gt;&lt;/upnp:albumArtURI&gt;&lt;r:contentService name=&quot;Airplay&quot;/&gt;&lt;/item&gt;&lt;/DIDL-Lite&gt;"

end WallDisplay

namespace WallDisplay

/-- C2 (spec §8): the sanitizer on the literal `Rock &vibe & Roll &`. -/
theorem sanitize_rock_vibe :
    sanitizeInvalidEntities "Rock &vibe & Roll &" = "Rock &amp;vibe &amp; Roll &amp;" := by
  decide

/-- C4: two well-formed advertisements with the same (non-empty) USN
yield exactly one device — the later one — whatever the IPs are. -/
theorem discover_dedup_same_usn (d1 d2 : Device)
    (husn : d1.usn = d2.usn) (hne : d2.usn ≠ "") :
    discoverResult [d1, d2] = [d2] := by
  have h1 : d1.usn ≠ "" := husn ▸ hne
  have hkey : dedupKey d1 = dedupKey d2 := by
    simp [dedupKey, if_neg h1, if_neg hne, husn]
  simp [discoverResult, collectDevices, insertObserved, List.findIdx?, hkey,
    sortDevices, insertSorted]

/-- C4 witness: a concrete pair sharing a USN across different IPs. -/
theorem discover_dedup_same_usn_witness :
    discoverResult
      [{ ip := "10.0.0.1", usn := "uuid:A", server := "one" },
       { ip := "10.0.0.2", usn := "uuid:A", server := "two" }] =
      [{ ip := "10.0.0.2", usn := "uuid:A", server := "two" }] :=
  discover_dedup_same_usn _ _ (by decide) (by decide)

/-- C7: for every positive negotiated lease the renewal interval is half
the lease clamped below at one minute. -/
theorem renewal_interval_half_clamped (t : Int) (_h : 0 < t) :
    renewalInterval t = max (t / 2) nsPerMinute ∧ nsPerMinute ≤ renewalInterval t := by
  unfold renewalInterval nsPerMinute
  constructor
  · rcases le_or_lt 60000000000 (t / 2) with hge | hlt
    · rw [if_neg (not_lt.mpr hge), max_eq_left hge]
    · rw [if_pos hlt, max_eq_right hlt.le]
  · split <;> omega

/-- C7 witness: a 30-minute lease renews at exactly 15 minutes and a
30-second lease at exactly 1 minute. -/
theorem renewal_interval_half_clamped_witness :
    renewalInterval 1800000000000 = 900000000000 ∧
    renewalInterval 30000000000 = 60000000000 := by
  refine ⟨(renewal_interval_half_clamped 1800000000000 (by decide)).1.trans (by decide),
    (renewal_interval_half_clamped 30000000000 (by decide)).1.trans (by decide)⟩

/-- C9 counterexample: enrichment of a device with an empty location does
NOT fail — it returns the device unchanged with no error (the fetch
oracle is never consulted). -/
theorem enrich_empty_location_succeeds :
    enrichMetadata { location := "" } (fun loc => Except.error loc) =
      Except.ok ({ location := "" } : Device) := rfl

/-- C9 (amended): endpoint URL construction fails fast with the
descriptive error for an empty or whitespace-only location, while
metadata enrichment of an empty-location device silently returns it
unchanged (no guessed default, but also no error). -/
theorem empty_location_behaviour (device : Device) (suffix : String)
    (fetch : String → Except String String)
    (h : goTrimSpace device.location = "") :
    avTransportURL device suffix = Except.error "sonos: device location is empty" ∧
    (device.location = "" → enrichMetadata device fetch = Except.ok device) := by
  constructor
  · unfold avTransportURL
    rw [if_pos h]
  · intro hloc
    unfold enrichMetadata
    rw [if_pos hloc]

/-- C9 witness: a whitespace-only location for the URL builder and an
empty location for enrichment. -/
theorem empty_location_behaviour_witness :
    avTransportURL { location := "" } "Control" =
      Except.error "sonos: device location is empty" ∧
    enrichMetadata { location := "" } (fun _ => Except.error "boom") =
      Except.ok ({ location := "" } : Device) := by
  have h := empty_location_behaviour { location := "" } "Control"
    (fun _ => Except.error "boom") (by decide)
  exact ⟨h.1, h.2 rfl⟩

/-! ## Case/whitespace insensitivity of the change signature (C10) -/

/-- `Char.ofNat` at a valid code point evaluates back to it. -/
theorem char_toNat_ofNat (n : Nat) (h : n.isValidChar) : (Char.ofNat n).toNat = n := by
  simp [Char.ofNat, Char.toNat, h, Char.ofNatAux, UInt32.toNat, BitVec.toNat_ofNatLt]

/-- Lower-casing never changes whether a character is whitespace. -/
theorem goIsSpace_toLower (c : Char) : goIsSpace (goToLowerChar c) = goIsSpace c := by
  unfold goToLowerChar
  split
  · next h =>
    have hv : (c.toNat + 32).isValidChar := Or.inl (by omega)
    have ht := char_toNat_ofNat (c.toNat + 32) hv
    trans false
    · simp only [goIsSpace, ht, Bool.or_eq_false_iff, decide_eq_false_iff_not]
      omega
    · symm
      simp only [goIsSpace, Bool.or_eq_false_iff, decide_eq_false_iff_not]
      omega
  · rfl

/-- `dropWhile` over a prefix of satisfied elements. -/
theorem dropWhile_append_left_all {p : Char → Bool} :
    ∀ (w x : List Char), (∀ c ∈ w, p c = true) →
      (w ++ x).dropWhile p = x.dropWhile p := by
  intro w x hw
  induction w with
  | nil => rfl
  | cons c ws ih =>
    rw [List.cons_append, List.dropWhile_cons, if_pos (hw c (List.mem_cons_self c ws))]
    exact ih fun d hd => hw d (List.mem_cons_of_mem c hd)

/-- `dropWhile` erases an all-satisfied list. -/
theorem dropWhile_all {p : Char → Bool} (w : List Char) (hw : ∀ c ∈ w, p c = true) :
    w.dropWhile p = [] := by
  have := dropWhile_append_left_all w [] hw
  simpa using this

/-- `dropWhile` is idempotent. -/
theorem dropWhile_idem {p : Char → Bool} (l : List Char) :
    (l.dropWhile p).dropWhile p = l.dropWhile p := by
  induction l with
  | nil => rfl
  | cons c cs ih =>
    rw [List.dropWhile_cons]
    split
    · exact ih
    · next h => rw [List.dropWhile_cons, if_neg h]

/-- The head of a `dropWhile` result does not satisfy the predicate. -/
theorem dropWhile_head_false {p : Char → Bool} :
    ∀ (l : List Char) {c cs}, l.dropWhile p = c :: cs → p c = false := by
  intro l
  induction l with
  | nil => intro c cs h; cases h
  | cons a as ih =>
    intro c cs h
    rw [List.dropWhile_cons] at h
    by_cases ha : p a = true
    · exact ih (by rwa [if_pos ha] at h)
    · rw [if_neg ha] at h
      cases h
      simpa using ha

/-- Whitespace wings do not affect the trimmed value. -/
theorem trim_wings (w1 x w2 : List Char)
    (hw1 : ∀ c ∈ w1, goIsSpace c = true) (hw2 : ∀ c ∈ w2, goIsSpace c = true) :
    goTrimSpaceL (w1 ++ x ++ w2) = goTrimSpaceL x := by
  unfold goTrimSpaceL
  rw [List.append_assoc, dropWhile_append_left_all w1 (x ++ w2) hw1, List.dropWhile_append]
  split
  · next he =>
    rw [dropWhile_all w2 hw2]
    have hx : x.dropWhile goIsSpace = [] := by
      cases h : x.dropWhile goIsSpace with
      | nil => rfl
      | cons a as => rw [h] at he; cases he
    rw [hx]
  · rw [List.reverse_append,
      dropWhile_append_left_all _ _ fun c hc => hw2 c (List.mem_reverse.mp hc)]

/-- Trimming is idempotent. -/
theorem trim_idem (l : List Char) : goTrimSpaceL (goTrimSpaceL l) = goTrimSpaceL l := by
  unfold goTrimSpaceL
  set p := goIsSpace
  set u := l.dropWhile p with hu
  set w := u.reverse.dropWhile p with hw
  have stepA : (w.reverse).dropWhile p = w.reverse := by
    cases hwr : w.reverse with
    | nil => simp
    | cons c cs =>
      have hpre : w.reverse <+: u := by
        have hs : w <:+ u.reverse := hw ▸ List.dropWhile_suffix p
        have h2 := List.reverse_prefix.mpr hs
        rwa [List.reverse_reverse] at h2
      obtain ⟨t, ht⟩ := hpre
      have hc : p c = false := by
        refine @dropWhile_head_false p l c (cs ++ t) ?_
        rw [← hu, ← ht, hwr, List.cons_append]
      rw [List.dropWhile_cons, if_neg (by simp [hc])]
  rw [stepA, List.reverse_reverse, hw, dropWhile_idem]

/-- Lower-casing commutes with trimming. -/
theorem map_toLower_trim (l : List Char) :
    (goTrimSpaceL l).map goToLowerChar = goTrimSpaceL (l.map goToLowerChar) := by
  have hfun : (goIsSpace ∘ goToLowerChar) = goIsSpace := funext fun c => goIsSpace_toLower c
  unfold goTrimSpaceL
  rw [List.dropWhile_map, hfun, ← List.map_reverse, List.dropWhile_map, hfun,
    ← List.map_reverse]

/-- Pointwise image equality transfers to the mapped lists. -/
theorem forall2_map_eq {f : Char → Char} :
    ∀ {l m : List Char}, List.Forall₂ (fun c d => f c = f d) l m → l.map f = m.map f := by
  intro l m h
  induction h with
  | nil => rfl
  | cons hcd _ ih => simp [ih, hcd]

/-- `b` differs from `a` only by ASCII letter case inside and whitespace
at the edges: `b` is whitespace, then a character-wise case variant of
`a`'s trimmed value, then whitespace. -/
def caseWhitespaceVariant (a b : String) : Prop :=
  ∃ w1 m w2,
    (∀ c ∈ w1, goIsSpace c = true) ∧ (∀ c ∈ w2, goIsSpace c = true) ∧
    List.Forall₂ (fun c d => goToLowerChar c = goToLowerChar d) (goTrimSpaceL a.toList) m ∧
    b.toList = w1 ++ m ++ w2

/-- A case/whitespace variant has the same lower-cased trimmed value. -/
theorem lower_trim_eq_of_variant (a b : String) (h : caseWhitespaceVariant a b) :
    (goTrimSpaceL b.toList).map goToLowerChar = (goTrimSpaceL a.toList).map goToLowerChar := by
  obtain ⟨w1, m, w2, hw1, hw2, hf, hb⟩ := h
  rw [map_toLower_trim, hb, List.map_append, List.map_append]
  rw [trim_wings _ _ _
    (fun c hc => by
      obtain ⟨d, hd, rfl⟩ := List.mem_map.mp hc
      rw [goIsSpace_toLower]; exact hw1 d hd)
    (fun c hc => by
      obtain ⟨d, hd, rfl⟩ := List.mem_map.mp hc
      rw [goIsSpace_toLower]; exact hw2 d hd)]
  rw [← forall2_map_eq hf, ← map_toLower_trim, trim_idem]

/-- C10: the change signature is the `|`-join of the lower-cased trimmed
fields, and two events whose fields differ only in ASCII letter case or
edge whitespace produce identical signatures. -/
theorem trackSignature_spec (i1 i2 : TrackInfo) (d1 d2 : String)
    (ht : caseWhitespaceVariant i1.title i2.title)
    (har : caseWhitespaceVariant i1.artist i2.artist)
    (hal : caseWhitespaceVariant i1.album i2.album)
    (hs : caseWhitespaceVariant i1.streamInfo i2.streamInfo)
    (hu : caseWhitespaceVariant i1.uri i2.uri)
    (hd : caseWhitespaceVariant d1 d2) :
    trackSignature i1 d1 = String.intercalate "|"
      [goToLower (goTrimSpace i1.title), goToLower (goTrimSpace i1.artist),
       goToLower (goTrimSpace i1.album), goToLower (goTrimSpace i1.streamInfo),
       goToLower (goTrimSpace i1.uri), goToLower (goTrimSpace d1)] ∧
    trackSignature i1 d1 = trackSignature i2 d2 := by
  have key : ∀ x y : String, caseWhitespaceVariant x y →
      goToLower (goTrimSpace x) = goToLower (goTrimSpace y) := by
    intro x y h
    show ((goTrimSpaceL x.toList).map goToLowerChar).asString =
      ((goTrimSpaceL y.toList).map goToLowerChar).asString
    rw [lower_trim_eq_of_variant x y h]
  refine ⟨rfl, ?_⟩
  simp only [trackSignature, goJoin, List.map]
  rw [key _ _ ht, key _ _ har, key _ _ hal, key _ _ hs, key _ _ hu, key _ _ hd]

/-- A string that is already trimmed is a variant of itself. -/
theorem caseWhitespaceVariant_self (x : String)
    (hx : goTrimSpaceL x.toList = x.toList) : caseWhitespaceVariant x x :=
  ⟨[], x.toList, [], by simp, by simp,
    by rw [hx]; exact List.forall₂_same.mpr fun _ _ => rfl, by simp⟩

/-- C10 witness: concretely, re-casing the artist and padding the title
with whitespace leaves the signature unchanged. -/
theorem trackSignature_spec_witness :
    trackSignature { title := "Tigers", artist := "The Submarines", uri := "x-uri" } "disp" =
    trackSignature { title := "  Tigers ", artist := "THE SUBMARINES", uri := "x-uri" } "disp" := by
  refine (trackSignature_spec
    { title := "Tigers", artist := "The Submarines", uri := "x-uri" }
    { title := "  Tigers ", artist := "THE SUBMARINES", uri := "x-uri" } "disp" "disp"
    ⟨"  ".toList, "Tigers".toList, " ".toList, by decide, by decide, ?_, by decide⟩
    ⟨[], "THE SUBMARINES".toList, [], by simp, by simp, ?_, by decide⟩
    (caseWhitespaceVariant_self "" (by decide))
    (caseWhitespaceVariant_self "" (by decide))
    (caseWhitespaceVariant_self "x-uri" (by decide))
    (caseWhitespaceVariant_self "disp" (by decide))).2
  · rw [show goTrimSpaceL "Tigers".toList = "Tigers".toList from by decide]
    simp only [String.toList, List.forall₂_cons]
    refine ⟨by decide, by decide, by decide, by decide, by decide, by decide, List.Forall₂.nil⟩
  · rw [show goTrimSpaceL "The Submarines".toList = "The Submarines".toList from by decide]
    simp only [String.toList, List.forall₂_cons]
    refine ⟨by decide, by decide, by decide, by decide, by decide, by decide, by decide,
      by decide, by decide, by decide, by decide, by decide, by decide, by decide,
      List.Forall₂.nil⟩

/-! ## C3: the device-description capture window ignores nested devices -/

/-- Short-hand for names in a single namespace. -/
def nm (u loc : String) : XmlName := ⟨u, loc⟩

@[simp]
theorem nm_localName (u l : String) : (nm u l).localName = l := rfl

/-- Tokens of a run of leaf elements `<name>value</name>`. -/
def leafTokens (u : String) : List (String × String) → List XmlTok
  | [] => []
  | f :: fs =>
    XmlTok.startEl (nm u f.1) [] :: XmlTok.charData f.2 :: XmlTok.endEl (nm u f.1) ::
      leafTokens u fs

/-- A device-description token stream: a top-level `device` with
`deviceType`/`friendlyName`/`roomName` leaves, followed by a `deviceList`
containing one nested `device` with arbitrary leaf fields. -/
def deviceDocTokens (u dtv fnv rnv : String) (nested : List (String × String)) : List XmlTok :=
  [XmlTok.startEl (nm u "root") [], XmlTok.startEl (nm u "device") [],
   XmlTok.startEl (nm u "deviceType") [], XmlTok.charData dtv, XmlTok.endEl (nm u "deviceType"),
   XmlTok.startEl (nm u "friendlyName") [], XmlTok.charData fnv, XmlTok.endEl (nm u "friendlyName"),
   XmlTok.startEl (nm u "roomName") [], XmlTok.charData rnv, XmlTok.endEl (nm u "roomName"),
   XmlTok.startEl (nm u "deviceList") [], XmlTok.startEl (nm u "device") []] ++
  leafTokens u nested ++
  [XmlTok.endEl (nm u "device"), XmlTok.endEl (nm u "deviceList"),
   XmlTok.endEl (nm u "device"), XmlTok.endEl (nm u "root")]

/-- While capturing inside the nested device (stack depth 4, capture depth
2), leaf elements never touch the metadata: their character data fails the
depth test and their tags fail the close test. -/
theorem skipNestedLeaves (u : String) (fields : List (String × String)) :
    ∀ (rest : List XmlTok) (meta : DeviceMetadata),
      parseDeviceDescriptionLoop
        (leafTokens u fields ++ rest)
        [nm u "device", nm u "deviceList", nm u "device", nm u "root"] true 2 meta =
      parseDeviceDescriptionLoop rest
        [nm u "device", nm u "deviceList", nm u "device", nm u "root"] true 2 meta := by
  induction fields with
  | nil => intro rest meta; rfl
  | cons f fs ih =>
    intro rest meta
    simp only [leafTokens, List.cons_append]
    simp only [parseDeviceDescriptionLoop, List.length_cons, List.length_nil, nm,
      List.tail_cons]
    norm_num
    exact ih rest meta

/-- C3: parsing a document whose top-level `device` carries a nested
`device` inside a `deviceList` (with any leaf fields) returns the outer
device's values — the nested device never overwrites them. -/
theorem parse_device_description_outer_wins
    (u dtv fnv rnv : String) (nested : List (String × String)) :
    parseDeviceDescriptionLoop (deviceDocTokens u dtv fnv rnv nested) [] false 0 {} =
      Except.ok { deviceType := goTrimSpace dtv, friendlyName := goTrimSpace fnv,
                  roomName := goTrimSpace rnv } := by
  by_cases h1 : goTrimSpace dtv = "" <;> by_cases h2 : goTrimSpace fnv = "" <;>
    by_cases h3 : goTrimSpace rnv = "" <;>
  · simp only [deviceDocTokens, List.cons_append, List.nil_append]
    simp only [parseDeviceDescriptionLoop, nm_localName, metaAssign, h1, h2, h3,
      List.length_cons, List.length_nil, List.tail_cons, if_true, if_false, reduceIte,
      reduceCtorEq, String.reduceEq, Nat.reduceAdd, and_true, and_false, true_and,
      false_and, ite_false, ite_true, not_false_eq_true, not_true_eq_false]
    rw [skipNestedLeaves]
    simp [parseDeviceDescriptionLoop, nm_localName, h1, h2, h3]

/-! ## C8: the missing-device error fires only on the end-of-input path -/

/-- C8 counterexample: a description whose top-level `device` element is
empty — both `deviceType` and `friendlyName` absent — parses
*successfully* (the early return at the device's end tag bypasses the
missing-fields check), with entirely empty metadata. -/
theorem parse_empty_device_succeeds :
    parseDeviceDescription "<root><device></device></root>" =
      Except.ok ({} : DeviceMetadata) ∧
    ({} : DeviceMetadata).deviceType = "" ∧ ({} : DeviceMetadata).friendlyName = "" := by
  refine ⟨?_, rfl, rfl⟩
  rfl

/-- No `device` element with parent `root` ever opens the capture window
along this token stream (tracked against the evolving element stack). -/
def noDeviceUnderRoot : List XmlTok → List XmlName → Bool
  | [], _ => true
  | XmlTok.startEl n _ :: rest, stack =>
    match n :: stack with
    | _ :: parent :: _ =>
      if parent.localName = "root" ∧ n.localName = "device" then false
      else noDeviceUnderRoot rest (n :: stack)
    | _ => noDeviceUnderRoot rest (n :: stack)
  | XmlTok.endEl _ :: rest, stack => noDeviceUnderRoot rest stack.tail
  | XmlTok.charData _ :: rest, stack => noDeviceUnderRoot rest stack

/-- If the capture window never opens, the loop reaches end of input with
untouched metadata. -/
theorem loop_no_capture_errors :
    ∀ (ts : List XmlTok) (stack : List XmlName) (dd : Nat),
      noDeviceUnderRoot ts stack = true →
      parseDeviceDescriptionLoop ts stack false dd {} =
        Except.error "sonos: metadata missing top-level device information" := by
  intro ts
  induction ts with
  | nil => intro stack dd _; rfl
  | cons t rest ih =>
    intro stack dd h
    match t with
    | XmlTok.startEl n attrs =>
      cases stack with
      | nil =>
        simp only [noDeviceUnderRoot] at h
        simp only [parseDeviceDescriptionLoop]
        exact ih _ _ h
      | cons p s' =>
        simp only [noDeviceUnderRoot] at h
        simp only [parseDeviceDescriptionLoop]
        by_cases hc : p.localName = "root" ∧ n.localName = "device"
        · rw [if_pos hc] at h
          cases h
        · rw [if_neg hc] at h
          rw [if_neg (by simpa using hc)]
          exact ih _ _ h
    | XmlTok.endEl n =>
      simp only [noDeviceUnderRoot] at h
      simp only [parseDeviceDescriptionLoop, false_and, if_false]
      exact ih _ _ h
    | XmlTok.charData s =>
      simp only [noDeviceUnderRoot] at h
      simp only [parseDeviceDescriptionLoop, false_and, if_false]
      exact ih _ _ h

/-- C8 (amended): when the document contains no `device` element directly
under `root` — so both `deviceType` and `friendlyName` remain absent at
end of input — `parseDeviceDescription` reports the missing-information
error.  (A document whose top-level `device` closes normally returns
success even with empty fields, per `parse_empty_device_succeeds`.) -/
theorem parse_no_device_errors (body : String) (ts : List XmlTok)
    (htok : xmlTokens body = some ts) (hnd : noDeviceUnderRoot ts [] = true) :
    parseDeviceDescription body =
      Except.error "sonos: metadata missing top-level device information" := by
  unfold parseDeviceDescription
  rw [htok]
  exact loop_no_capture_errors ts [] 0 hnd

/-- C8 witness: a document with no `device` element at all errors out. -/
theorem parse_no_device_errors_witness :
    parseDeviceDescription "<root><speaker></speaker></root>" =
      Except.error "sonos: metadata missing top-level device information" :=
  parse_no_device_errors "<root><speaker></speaker></root>"
    [XmlTok.startEl ⟨"", "root"⟩ [], XmlTok.startEl ⟨"", "speaker"⟩ [],
     XmlTok.endEl ⟨"", "speaker"⟩, XmlTok.endEl ⟨"", "root"⟩]
    (by rfl) (by rfl)

/-! ## C5: SOAP faults always surface as errors with the best description -/

/-- C5: a position-info response whose body carries a `Fault` parses to an
error (never a success) whose description follows the priority
UPnP `errorDescription` > `faultstring` > `UPnPError <code>`. -/
theorem positionInfo_fault_is_error (body : String) (env : PositionInfoEnvelopeBody)
    (fault : SoapFault)
    (hdec : decodePositionInfoEnvelope body = some env) (hf : env.fault = some fault) :
    parsePositionInfoResponse body =
      Except.error ("sonos: avtransport fault " ++ fault.faultCode ++ ": " ++
        faultDescription fault) ∧
    (∀ r, parsePositionInfoResponse body ≠ Except.ok r) ∧
    (fault.detail.errorDescription ≠ "" →
      faultDescription fault = fault.detail.errorDescription) ∧
    (fault.detail.errorDescription = "" → fault.faultString ≠ "" →
      faultDescription fault = fault.faultString) ∧
    (fault.detail.errorDescription = "" → fault.faultString = "" →
      fault.detail.errorCode ≠ "" →
      faultDescription fault = "UPnPError " ++ fault.detail.errorCode) := by
  have herr : parsePositionInfoResponse body =
      Except.error ("sonos: avtransport fault " ++ fault.faultCode ++ ": " ++
        faultDescription fault) := by
    unfold parsePositionInfoResponse
    rw [hdec]
    simp only [hf]
  refine ⟨herr, ?_, ?_, ?_, ?_⟩
  · intro r hr
    rw [herr] at hr
    cases hr
  · intro hd
    simp [faultDescription, hd]
  · intro hd hfs
    simp [faultDescription, hd, hfs]
  · intro hd hfs hc
    simp [faultDescription, hd, hfs, hc]

/-- A GetPositionInfo SOAP fault response with UPnP error code 401 and
description `Invalid Action`. -/
def fault401Body : String :=
  "<s:Envelope xmlns:s=\"http://schemas.xmlsoap.org/soap/envelope/\" s:encodingStyle=\"http://schemas.xmlsoap.org/soap/encoding/\"><s:Body><s:Fault><faultcode>s:Client</faultcode><faultstring>UPnPError</faultstring><detail><UPnPError xmlns=\"urn:schemas-upnp-org:control-1-0\"><errorCode>401</errorCode><errorDescription>Invalid Action</errorDescription></UPnPError></detail></s:Fault></s:Body></s:Envelope>"

set_option maxRecDepth 4000 in
/-- C5 witness: the concrete 401 `Invalid Action` fault yields exactly the
error whose text contains `Invalid Action`. -/
theorem positionInfo_fault_is_error_witness :
    parsePositionInfoResponse fault401Body =
      Except.error "sonos: avtransport fault s:Client: Invalid Action" ∧
    listIsInfixOf "Invalid Action".toList
      "sonos: avtransport fault s:Client: Invalid Action".toList = true := by
  have h := positionInfo_fault_is_error fault401Body
    { response := none,
      fault := some { faultCode := "s:Client", faultString := "UPnPError",
                      detail := { errorCode := "401", errorDescription := "Invalid Action" } } }
    { faultCode := "s:Client", faultString := "UPnPError",
      detail := { errorCode := "401", errorDescription := "Invalid Action" } }
    (by rfl) rfl
  exact ⟨h.1.trans (by rfl), by decide⟩

/-! ## C6: negotiated subscribe timeout -/

set_option maxRecDepth 12000
set_option maxHeartbeats 1000000

/-- `asString` is a left inverse of `toList`. -/
theorem c1_asString_toList (s : String) : s.toList.asString = s := rfl

theorem c1_ra1 : ∀ X acc, replaceAllLoop "&amp;quot;".toList "__SONOS_ATTR_QUOT__".toList 3385 (c1r1.toList ++ X) acc = replaceAllLoop "&amp;quot;".toList "__SONOS_ATTR_QUOT__".toList 3231 X (List.reverseAux c1a1.toList acc) := fun _ _ => rfl
theorem c1_ra2 : ∀ X acc, replaceAllLoop "&amp;quot;".toList "__SONOS_ATTR_QUOT__".toList 3231 (c1r2.toList ++ X) acc = replaceAllLoop "&amp;quot;".toList "__SONOS_ATTR_QUOT__".toList 3076 X (List.reverseAux c1a2.toList acc) := fun _ _ => rfl
theorem c1_ra3 : ∀ X acc, replaceAllLoop "&amp;quot;".toList "__SONOS_ATTR_QUOT__".toList 3076 (c1r3.toList ++ X) acc = replaceAllLoop "&amp;quot;".toList "__SONOS_ATTR_QUOT__".toList 2923 X (List.reverseAux c1a3.toList acc) := fun _ _ => rfl
theorem c1_ra4 : ∀ X acc, replaceAllLoop "&amp;quot;".toList "__SONOS_ATTR_QUOT__".toList 2923 (c1r4.toList ++ X) acc = replaceAllLoop "&amp;quot;".toList "__SONOS_ATTR_QUOT__".toList 2766 X (List.reverseAux c1a4.toList acc) := fun _ _ => rfl
theorem c1_ra5 : ∀ X acc, replaceAllLoop "&amp;quot;".toList "__SONOS_ATTR_QUOT__".toList 2766 (c1r5.toList ++ X) acc = replaceAllLoop "&amp;quot;".toList "__SONOS_ATTR_QUOT__".toList 2643 X (List.reverseAux c1a5.toList acc) := fun _ _ => rfl
theorem c1_ra6 : ∀ X acc, replaceAllLoop "&amp;quot;".toList "__SONOS_ATTR_QUOT__".toList 2643 (c1r6.toList ++ X) acc = replaceAllLoop "&amp;quot;".toList "__SONOS_ATTR_QUOT__".toList 2525 X (List.reverseAux c1a6.toList acc) := fun _ _ => rfl
theorem c1_ra7 : ∀ X acc, replaceAllLoop "&amp;quot;".toList "__SONOS_ATTR_QUOT__".toList 2525 (c1r7.toList ++ X) acc = replaceAllLoop "&amp;quot;".toList "__SONOS_ATTR_QUOT__".toList 2428 X (List.reverseAux c1a7.toList acc) := fun _ _ => rfl
theorem c1_ra8 : ∀ X acc, replaceAllLoop "&amp;quot;".toList "__SONOS_ATTR_QUOT__".toList 2428 (c1r8.toList ++ X) acc = replaceAllLoop "&amp;quot;".toList "__SONOS_ATTR_QUOT__".toList 2280 X (List.reverseAux c1a8.toList acc) := fun _ _ => rfl
theorem c1_ra9 : ∀ X acc, replaceAllLoop "&amp;quot;".toList "__SONOS_ATTR_QUOT__".toList 2280 (c1r9.toList ++ X) acc = replaceAllLoop "&amp;quot;".toList "__SONOS_ATTR_QUOT__".toList 2125 X (List.reverseAux c1a9.toList acc) := fun _ _ => rfl
theorem c1_ra10 : ∀ X acc, replaceAllLoop "&amp;quot;".toList "__SONOS_ATTR_QUOT__".toList 2125 (c1r10.toList ++ X) acc = replaceAllLoop "&amp;quot;".toList "__SONOS_ATTR_QUOT__".toList 1972 X (List.reverseAux c1a10.toList acc) := fun _ _ => rfl
theorem c1_ra11 : ∀ X acc, replaceAllLoop "&amp;quot;".toList "__SONOS_ATTR_QUOT__".toList 1972 (c1r11.toList ++ X) acc = replaceAllLoop "&amp;quot;".toList "__SONOS_ATTR_QUOT__".toList 1819 X (List.reverseAux c1a11.toList acc) := fun _ _ => rfl
theorem c1_ra12 : ∀ X acc, replaceAllLoop "&amp;quot;".toList "__SONOS_ATTR_QUOT__".toList 1819 (c1r12.toList ++ X) acc = replaceAllLoop "&amp;quot;".toList "__SONOS_ATTR_QUOT__".toList 1692 X (List.reverseAux c1a12.toList acc) := fun _ _ => rfl
theorem c1_ra13 : ∀ X acc, replaceAllLoop "&amp;quot;".toList "__SONOS_ATTR_QUOT__".toList 1692 (c1r13.toList ++ X) acc = replaceAllLoop "&amp;quot;".toList "__SONOS_ATTR_QUOT__".toList 1574 X (List.reverseAux c1a13.toList acc) := fun _ _ => rfl
theorem c1_ra14 : ∀ X acc, replaceAllLoop "&amp;quot;".toList "__SONOS_ATTR_QUOT__".toList 1574 (c1r14.toList ++ X) acc = replaceAllLoop "&amp;quot;".toList "__SONOS_ATTR_QUOT__".toList 1465 X (List.reverseAux c1a14.toList acc) := fun _ _ => rfl
theorem c1_ra15 : ∀ X acc, replaceAllLoop "&amp;quot;".toList "__SONOS_ATTR_QUOT__".toList 1465 (c1r15.toList ++ X) acc = replaceAllLoop "&amp;quot;".toList "__SONOS_ATTR_QUOT__".toList 1314 X (List.reverseAux c1a15.toList acc) := fun _ _ => rfl
theorem c1_ra16 : ∀ X acc, replaceAllLoop "&amp;quot;".toList "__SONOS_ATTR_QUOT__".toList 1314 (c1r16.toList ++ X) acc = replaceAllLoop "&amp;quot;".toList "__SONOS_ATTR_QUOT__".toList 1161 X (List.reverseAux c1a16.toList acc) := fun _ _ => rfl
theorem c1_ra17 : ∀ X acc, replaceAllLoop "&amp;quot;".toList "__SONOS_ATTR_QUOT__".toList 1161 (c1r17.toList ++ X) acc = replaceAllLoop "&amp;quot;".toList "__SONOS_ATTR_QUOT__".toList 1039 X (List.reverseAux c1a17.toList acc) := fun _ _ => rfl
theorem c1_ra18 : ∀ X acc, replaceAllLoop "&amp;quot;".toList "__SONOS_ATTR_QUOT__".toList 1039 (c1r18.toList ++ X) acc = replaceAllLoop "&amp;quot;".toList "__SONOS_ATTR_QUOT__".toList 919 X (List.reverseAux c1a18.toList acc) := fun _ _ => rfl
theorem c1_ra19 : ∀ X acc, replaceAllLoop "&amp;quot;".toList "__SONOS_ATTR_QUOT__".toList 919 (c1r19.toList ++ X) acc = replaceAllLoop "&amp;quot;".toList "__SONOS_ATTR_QUOT__".toList 824 X (List.reverseAux c1a19.toList acc) := fun _ _ => rfl
theorem c1_ra20 : ∀ X acc, replaceAllLoop "&amp;quot;".toList "__SONOS_ATTR_QUOT__".toList 824 (c1r20.toList ++ X) acc = replaceAllLoop "&amp;quot;".toList "__SONOS_ATTR_QUOT__".toList 691 X (List.reverseAux c1a20.toList acc) := fun _ _ => rfl
theorem c1_ra21 : ∀ X acc, replaceAllLoop "&amp;quot;".toList "__SONOS_ATTR_QUOT__".toList 691 (c1r21.toList ++ X) acc = replaceAllLoop "&amp;quot;".toList "__SONOS_ATTR_QUOT__".toList 553 X (List.reverseAux c1a21.toList acc) := fun _ _ => rfl
theorem c1_ra22 : ∀ acc, replaceAllLoop "&amp;quot;".toList "__SONOS_ATTR_QUOT__".toList 553 c1r22.toList acc = List.reverseAux c1a22.toList acc := fun _ => rfl

theorem c1_rb1 : ∀ X acc, replaceAllLoop "&amp;apos;".toList "__SONOS_ATTR_APOS__".toList 3799 (c1a1.toList ++ X) acc = replaceAllLoop "&amp;apos;".toList "__SONOS_ATTR_APOS__".toList 3645 X (List.reverseAux c1a1.toList acc) := fun _ _ => rfl
theorem c1_rb2 : ∀ X acc, replaceAllLoop "&amp;apos;".toList "__SONOS_ATTR_APOS__".toList 3645 (c1a2.toList ++ X) acc = replaceAllLoop "&amp;apos;".toList "__SONOS_ATTR_APOS__".toList 3490 X (List.reverseAux c1a2.toList acc) := fun _ _ => rfl
theorem c1_rb3 : ∀ X acc, replaceAllLoop "&amp;apos;".toList "__SONOS_ATTR_APOS__".toList 3490 (c1a3.toList ++ X) acc = replaceAllLoop "&amp;apos;".toList "__SONOS_ATTR_APOS__".toList 3337 X (List.reverseAux c1a3.toList acc) := fun _ _ => rfl
theorem c1_rb4 : ∀ X acc, replaceAllLoop "&amp;apos;".toList "__SONOS_ATTR_APOS__".toList 3337 (c1a4.toList ++ X) acc = replaceAllLoop "&amp;apos;".toList "__SONOS_ATTR_APOS__".toList 3180 X (List.reverseAux c1a4.toList acc) := fun _ _ => rfl
theorem c1_rb5 : ∀ X acc, replaceAllLoop "&amp;apos;".toList "__SONOS_ATTR_APOS__".toList 3180 (c1a5.toList ++ X) acc = replaceAllLoop "&amp;apos;".toList "__SONOS_ATTR_APOS__".toList 3003 X (List.reverseAux c1a5.toList acc) := fun _ _ => rfl
theorem c1_rb6 : ∀ X acc, replaceAllLoop "&amp;apos;".toList "__SONOS_ATTR_APOS__".toList 3003 (c1a6.toList ++ X) acc = replaceAllLoop "&amp;apos;".toList "__SONOS_ATTR_APOS__".toList 2813 X (List.reverseAux c1a6.toList acc) := fun _ _ => rfl
theorem c1_rb7 : ∀ X acc, replaceAllLoop "&amp;apos;".toList "__SONOS_ATTR_APOS__".toList 2813 (c1a7.toList ++ X) acc = replaceAllLoop "&amp;apos;".toList "__SONOS_ATTR_APOS__".toList 2590 X (List.reverseAux c1a7.toList acc) := fun _ _ => rfl
theorem c1_rb8 : ∀ X acc, replaceAllLoop "&amp;apos;".toList "__SONOS_ATTR_APOS__".toList 2590 (c1a8.toList ++ X) acc = replaceAllLoop "&amp;apos;".toList "__SONOS_ATTR_APOS__".toList 2442 X (List.reverseAux c1a8.toList acc) := fun _ _ => rfl
theorem c1_rb9 : ∀ X acc, replaceAllLoop "&amp;apos;".toList "__SONOS_ATTR_APOS__".toList 2442 (c1a9.toList ++ X) acc = replaceAllLoop "&amp;apos;".toList "__SONOS_ATTR_APOS__".toList 2287 X (List.reverseAux c1a9.toList acc) := fun _ _ => rfl
theorem c1_rb10 : ∀ X acc, replaceAllLoop "&amp;apos;".toList "__SONOS_ATTR_APOS__".toList 2287 (c1a10.toList ++ X) acc = replaceAllLoop "&amp;apos;".toList "__SONOS_ATTR_APOS__".toList 2134 X (List.reverseAux c1a10.toList acc) := fun _ _ => rfl
theorem c1_rb11 : ∀ X acc, replaceAllLoop "&amp;apos;".toList "__SONOS_ATTR_APOS__".toList 2134 (c1a11.toList ++ X) acc = replaceAllLoop "&amp;apos;".toList "__SONOS_ATTR_APOS__".toList 1981 X (List.reverseAux c1a11.toList acc) := fun _ _ => rfl
theorem c1_rb12 : ∀ X acc, replaceAllLoop "&amp;apos;".toList "__SONOS_ATTR_APOS__".toList 1981 (c1a12.toList ++ X) acc = replaceAllLoop "&amp;apos;".toList "__SONOS_ATTR_APOS__".toList 1800 X (List.reverseAux c1a12.toList acc) := fun _ _ => rfl
theorem c1_rb13 : ∀ X acc, replaceAllLoop "&amp;apos;".toList "__SONOS_ATTR_APOS__".toList 1800 (c1a13.toList ++ X) acc = replaceAllLoop "&amp;apos;".toList "__SONOS_ATTR_APOS__".toList 1610 X (List.reverseAux c1a13.toList acc) := fun _ _ => rfl
theorem c1_rb14 : ∀ X acc, replaceAllLoop "&amp;apos;".toList "__SONOS_ATTR_APOS__".toList 1610 (c1a14.toList ++ X) acc = replaceAllLoop "&amp;apos;".toList "__SONOS_ATTR_APOS__".toList 1411 X (List.reverseAux c1a14.toList acc) := fun _ _ => rfl
theorem c1_rb15 : ∀ X acc, replaceAllLoop "&amp;apos;".toList "__SONOS_ATTR_APOS__".toList 1411 (c1a15.toList ++ X) acc = replaceAllLoop "&amp;apos;".toList "__SONOS_ATTR_APOS__".toList 1260 X (List.reverseAux c1a15.toList acc) := fun _ _ => rfl
theorem c1_rb16 : ∀ X acc, replaceAllLoop "&amp;apos;".toList "__SONOS_ATTR_APOS__".toList 1260 (c1a16.toList ++ X) acc = replaceAllLoop "&amp;apos;".toList "__SONOS_ATTR_APOS__".toList 1107 X (List.reverseAux c1a16.toList acc) := fun _ _ => rfl
theorem c1_rb17 : ∀ X acc, replaceAllLoop "&amp;apos;".toList "__SONOS_ATTR_APOS__".toList 1107 (c1a17.toList ++ X) acc = replaceAllLoop "&amp;apos;".toList "__SONOS_ATTR_APOS__".toList 913 X (List.reverseAux c1a17.toList acc) := fun _ _ => rfl
theorem c1_rb18 : ∀ X acc, replaceAllLoop "&amp;apos;".toList "__SONOS_ATTR_APOS__".toList 913 (c1a18.toList ++ X) acc = replaceAllLoop "&amp;apos;".toList "__SONOS_ATTR_APOS__".toList 721 X (List.reverseAux c1a18.toList acc) := fun _ _ => rfl
theorem c1_rb19 : ∀ X acc, replaceAllLoop "&amp;apos;".toList "__SONOS_ATTR_APOS__".toList 721 (c1a19.toList ++ X) acc = replaceAllLoop "&amp;apos;".toList "__SONOS_ATTR_APOS__".toList 518 X (List.reverseAux c1a19.toList acc) := fun _ _ => rfl
theorem c1_rb20 : ∀ X acc, replaceAllLoop "&amp;apos;".toList "__SONOS_ATTR_APOS__".toList 518 (c1a20.toList ++ X) acc = replaceAllLoop "&amp;apos;".toList "__SONOS_ATTR_APOS__".toList 331 X (List.reverseAux c1a20.toList acc) := fun _ _ => rfl
theorem c1_rb21 : ∀ X acc, replaceAllLoop "&amp;apos;".toList "__SONOS_ATTR_APOS__".toList 331 (c1a21.toList ++ X) acc = replaceAllLoop "&amp;apos;".toList "__SONOS_ATTR_APOS__".toList 175 X (List.reverseAux c1a21.toList acc) := fun _ _ => rfl
theorem c1_rb22 : ∀ acc, replaceAllLoop "&amp;apos;".toList "__SONOS_ATTR_APOS__".toList 175 c1a22.toList acc = List.reverseAux c1a22.toList acc := fun _ => rfl

theorem c1_hu1 : ∀ X acc, htmlUnescapeLoop 3799 (c1a1.toList ++ X) acc = htmlUnescapeLoop 3674 X (List.reverseAux c1c1.toList acc) := fun _ _ => rfl
theorem c1_hu2 : ∀ X acc, htmlUnescapeLoop 3674 (c1a2.toList ++ X) acc = htmlUnescapeLoop 3572 X (List.reverseAux c1c2.toList acc) := fun _ _ => rfl
theorem c1_hu3 : ∀ X acc, htmlUnescapeLoop 3572 (c1a3.toList ++ X) acc = htmlUnescapeLoop 3478 X (List.reverseAux c1c3.toList acc) := fun _ _ => rfl
theorem c1_hu4 : ∀ X acc, htmlUnescapeLoop 3478 (c1a4.toList ++ X) acc = htmlUnescapeLoop 3353 X (List.reverseAux c1c4.toList acc) := fun _ _ => rfl
theorem c1_hu5 : ∀ X acc, htmlUnescapeLoop 3353 (c1a5.toList ++ X) acc = htmlUnescapeLoop 3185 X (List.reverseAux c1c5.toList acc) := fun _ _ => rfl
theorem c1_hu6 : ∀ X acc, htmlUnescapeLoop 3185 (c1a6.toList ++ X) acc = htmlUnescapeLoop 2995 X (List.reverseAux c1c6.toList acc) := fun _ _ => rfl
theorem c1_hu7 : ∀ X acc, htmlUnescapeLoop 2995 (c1a7.toList ++ X) acc = htmlUnescapeLoop 2792 X (List.reverseAux c1c7.toList acc) := fun _ _ => rfl
theorem c1_hu8 : ∀ X acc, htmlUnescapeLoop 2792 (c1a8.toList ++ X) acc = htmlUnescapeLoop 2672 X (List.reverseAux c1c8.toList acc) := fun _ _ => rfl
theorem c1_hu9 : ∀ X acc, htmlUnescapeLoop 2672 (c1a9.toList ++ X) acc = htmlUnescapeLoop 2553 X (List.reverseAux c1c9.toList acc) := fun _ _ => rfl
theorem c1_hu10 : ∀ X acc, htmlUnescapeLoop 2553 (c1a10.toList ++ X) acc = htmlUnescapeLoop 2428 X (List.reverseAux c1c10.toList acc) := fun _ _ => rfl
theorem c1_hu11 : ∀ X acc, htmlUnescapeLoop 2428 (c1a11.toList ++ X) acc = htmlUnescapeLoop 2322 X (List.reverseAux c1c11.toList acc) := fun _ _ => rfl
theorem c1_hu12 : ∀ X acc, htmlUnescapeLoop 2322 (c1a12.toList ++ X) acc = htmlUnescapeLoop 2166 X (List.reverseAux c1c12.toList acc) := fun _ _ => rfl
theorem c1_hu13 : ∀ X acc, htmlUnescapeLoop 2166 (c1a13.toList ++ X) acc = htmlUnescapeLoop 1976 X (List.reverseAux c1c13.toList acc) := fun _ _ => rfl
theorem c1_hu14 : ∀ X acc, htmlUnescapeLoop 1976 (c1a14.toList ++ X) acc = htmlUnescapeLoop 1801 X (List.reverseAux c1c14.toList acc) := fun _ _ => rfl
theorem c1_hu15 : ∀ X acc, htmlUnescapeLoop 1801 (c1a15.toList ++ X) acc = htmlUnescapeLoop 1682 X (List.reverseAux c1c15.toList acc) := fun _ _ => rfl
theorem c1_hu16 : ∀ X acc, htmlUnescapeLoop 1682 (c1a16.toList ++ X) acc = htmlUnescapeLoop 1576 X (List.reverseAux c1c16.toList acc) := fun _ _ => rfl
theorem c1_hu17 : ∀ X acc, htmlUnescapeLoop 1576 (c1a17.toList ++ X) acc = htmlUnescapeLoop 1391 X (List.reverseAux c1c17.toList acc) := fun _ _ => rfl
theorem c1_hu18 : ∀ X acc, htmlUnescapeLoop 1391 (c1a18.toList ++ X) acc = htmlUnescapeLoop 1207 X (List.reverseAux c1c18.toList acc) := fun _ _ => rfl
theorem c1_hu19 : ∀ X acc, htmlUnescapeLoop 1207 (c1a19.toList ++ X) acc = htmlUnescapeLoop 1020 X (List.reverseAux c1c19.toList acc) := fun _ _ => rfl
theorem c1_hu20 : ∀ X acc, htmlUnescapeLoop 1020 (c1a20.toList ++ X) acc = htmlUnescapeLoop 857 X (List.reverseAux c1c20.toList acc) := fun _ _ => rfl
theorem c1_hu21 : ∀ X acc, htmlUnescapeLoop 857 (c1a21.toList ++ X) acc = htmlUnescapeLoop 729 X (List.reverseAux c1c21.toList acc) := fun _ _ => rfl
theorem c1_hu22 : ∀ acc, htmlUnescapeLoop 729 c1a22.toList acc = List.reverseAux c1c22.toList acc := fun _ => rfl

theorem c1_rc1 : ∀ X acc, replaceAllLoop "__SONOS_ATTR_QUOT__".toList "&quot;".toList 3201 (c1c1.toList ++ X) acc = replaceAllLoop "__SONOS_ATTR_QUOT__".toList "&quot;".toList 3076 X (List.reverseAux c1e1.toList acc) := fun _ _ => rfl
theorem c1_rc2 : ∀ X acc, replaceAllLoop "__SONOS_ATTR_QUOT__".toList "&quot;".toList 3076 (c1c2.toList ++ X) acc = replaceAllLoop "__SONOS_ATTR_QUOT__".toList "&quot;".toList 2974 X (List.reverseAux c1e2.toList acc) := fun _ _ => rfl
theorem c1_rc3 : ∀ X acc, replaceAllLoop "__SONOS_ATTR_QUOT__".toList "&quot;".toList 2974 (c1c3.toList ++ X) acc = replaceAllLoop "__SONOS_ATTR_QUOT__".toList "&quot;".toList 2880 X (List.reverseAux c1e3.toList acc) := fun _ _ => rfl
theorem c1_rc4 : ∀ X acc, replaceAllLoop "__SONOS_ATTR_QUOT__".toList "&quot;".toList 2880 (c1c4.toList ++ X) acc = replaceAllLoop "__SONOS_ATTR_QUOT__".toList "&quot;".toList 2755 X (List.reverseAux c1e4.toList acc) := fun _ _ => rfl
theorem c1_rc5 : ∀ X acc, replaceAllLoop "__SONOS_ATTR_QUOT__".toList "&quot;".toList 2755 (c1c5.toList ++ X) acc = replaceAllLoop "__SONOS_ATTR_QUOT__".toList "&quot;".toList 2641 X (List.reverseAux c1e5.toList acc) := fun _ _ => rfl
theorem c1_rc6 : ∀ X acc, replaceAllLoop "__SONOS_ATTR_QUOT__".toList "&quot;".toList 2641 (c1c6.toList ++ X) acc = replaceAllLoop "__SONOS_ATTR_QUOT__".toList "&quot;".toList 2523 X (List.reverseAux c1e6.toList acc) := fun _ _ => rfl
theorem c1_rc7 : ∀ X acc, replaceAllLoop "__SONOS_ATTR_QUOT__".toList "&quot;".toList 2523 (c1c7.toList ++ X) acc = replaceAllLoop "__SONOS_ATTR_QUOT__".toList "&quot;".toList 2446 X (List.reverseAux c1e7.toList acc) := fun _ _ => rfl
theorem c1_rc8 : ∀ X acc, replaceAllLoop "__SONOS_ATTR_QUOT__".toList "&quot;".toList 2446 (c1c8.toList ++ X) acc = replaceAllLoop "__SONOS_ATTR_QUOT__".toList "&quot;".toList 2326 X (List.reverseAux c1e8.toList acc) := fun _ _ => rfl
theorem c1_rc9 : ∀ X acc, replaceAllLoop "__SONOS_ATTR_QUOT__".toList "&quot;".toList 2326 (c1c9.toList ++ X) acc = replaceAllLoop "__SONOS_ATTR_QUOT__".toList "&quot;".toList 2207 X (List.reverseAux c1e9.toList acc) := fun _ _ => rfl
theorem c1_rc10 : ∀ X acc, replaceAllLoop "__SONOS_ATTR_QUOT__".toList "&quot;".toList 2207 (c1c10.toList ++ X) acc = replaceAllLoop "__SONOS_ATTR_QUOT__".toList "&quot;".toList 2082 X (List.reverseAux c1e10.toList acc) := fun _ _ => rfl
theorem c1_rc11 : ∀ X acc, replaceAllLoop "__SONOS_ATTR_QUOT__".toList "&quot;".toList 2082 (c1c11.toList ++ X) acc = replaceAllLoop "__SONOS_ATTR_QUOT__".toList "&quot;".toList 1976 X (List.reverseAux c1e11.toList acc) := fun _ _ => rfl
theorem c1_rc12 : ∀ X acc, replaceAllLoop "__SONOS_ATTR_QUOT__".toList "&quot;".toList 1976 (c1c12.toList ++ X) acc = replaceAllLoop "__SONOS_ATTR_QUOT__".toList "&quot;".toList 1874 X (List.reverseAux c1e12.toList acc) := fun _ _ => rfl
theorem c1_rc13 : ∀ X acc, replaceAllLoop "__SONOS_ATTR_QUOT__".toList "&quot;".toList 1874 (c1c13.toList ++ X) acc = replaceAllLoop "__SONOS_ATTR_QUOT__".toList "&quot;".toList 1756 X (List.reverseAux c1e13.toList acc) := fun _ _ => rfl
theorem c1_rc14 : ∀ X acc, replaceAllLoop "__SONOS_ATTR_QUOT__".toList "&quot;".toList 1756 (c1c14.toList ++ X) acc = replaceAllLoop "__SONOS_ATTR_QUOT__".toList "&quot;".toList 1671 X (List.reverseAux c1e14.toList acc) := fun _ _ => rfl
theorem c1_rc15 : ∀ X acc, replaceAllLoop "__SONOS_ATTR_QUOT__".toList "&quot;".toList 1671 (c1c15.toList ++ X) acc = replaceAllLoop "__SONOS_ATTR_QUOT__".toList "&quot;".toList 1552 X (List.reverseAux c1e15.toList acc) := fun _ _ => rfl
theorem c1_rc16 : ∀ X acc, replaceAllLoop "__SONOS_ATTR_QUOT__".toList "&quot;".toList 1552 (c1c16.toList ++ X) acc = replaceAllLoop "__SONOS_ATTR_QUOT__".toList "&quot;".toList 1446 X (List.reverseAux c1e16.toList acc) := fun _ _ => rfl
theorem c1_rc17 : ∀ X acc, replaceAllLoop "__SONOS_ATTR_QUOT__".toList "&quot;".toList 1446 (c1c17.toList ++ X) acc = replaceAllLoop "__SONOS_ATTR_QUOT__".toList "&quot;".toList 1333 X (List.reverseAux c1e17.toList acc) := fun _ _ => rfl
theorem c1_rc18 : ∀ X acc, replaceAllLoop "__SONOS_ATTR_QUOT__".toList "&quot;".toList 1333 (c1c18.toList ++ X) acc = replaceAllLoop "__SONOS_ATTR_QUOT__".toList "&quot;".toList 1221 X (List.reverseAux c1e18.toList acc) := fun _ _ => rfl
theorem c1_rc19 : ∀ X acc, replaceAllLoop "__SONOS_ATTR_QUOT__".toList "&quot;".toList 1221 (c1c19.toList ++ X) acc = replaceAllLoop "__SONOS_ATTR_QUOT__".toList "&quot;".toList 1142 X (List.reverseAux c1e19.toList acc) := fun _ _ => rfl
theorem c1_rc20 : ∀ X acc, replaceAllLoop "__SONOS_ATTR_QUOT__".toList "&quot;".toList 1142 (c1c20.toList ++ X) acc = replaceAllLoop "__SONOS_ATTR_QUOT__".toList "&quot;".toList 1033 X (List.reverseAux c1e20.toList acc) := fun _ _ => rfl
theorem c1_rc21 : ∀ X acc, replaceAllLoop "__SONOS_ATTR_QUOT__".toList "&quot;".toList 1033 (c1c21.toList ++ X) acc = replaceAllLoop "__SONOS_ATTR_QUOT__".toList "&quot;".toList 923 X (List.reverseAux c1e21.toList acc) := fun _ _ => rfl
theorem c1_rc22 : ∀ acc, replaceAllLoop "__SONOS_ATTR_QUOT__".toList "&quot;".toList 923 c1c22.toList acc = List.reverseAux c1e22.toList acc := fun _ => rfl

theorem c1_rd1 : ∀ X acc, replaceAllLoop "__SONOS_ATTR_APOS__".toList "&apos;".toList 2603 (c1e1.toList ++ X) acc = replaceAllLoop "__SONOS_ATTR_APOS__".toList "&apos;".toList 2478 X (List.reverseAux c1e1.toList acc) := fun _ _ => rfl
theorem c1_rd2 : ∀ X acc, replaceAllLoop "__SONOS_ATTR_APOS__".toList "&apos;".toList 2478 (c1e2.toList ++ X) acc = replaceAllLoop "__SONOS_ATTR_APOS__".toList "&apos;".toList 2376 X (List.reverseAux c1e2.toList acc) := fun _ _ => rfl
theorem c1_rd3 : ∀ X acc, replaceAllLoop "__SONOS_ATTR_APOS__".toList "&apos;".toList 2376 (c1e3.toList ++ X) acc = replaceAllLoop "__SONOS_ATTR_APOS__".toList "&apos;".toList 2282 X (List.reverseAux c1e3.toList acc) := fun _ _ => rfl
theorem c1_rd4 : ∀ X acc, replaceAllLoop "__SONOS_ATTR_APOS__".toList "&apos;".toList 2282 (c1e4.toList ++ X) acc = replaceAllLoop "__SONOS_ATTR_APOS__".toList "&apos;".toList 2157 X (List.reverseAux c1e4.toList acc) := fun _ _ => rfl
theorem c1_rd5 : ∀ X acc, replaceAllLoop "__SONOS_ATTR_APOS__".toList "&apos;".toList 2157 (c1e5.toList ++ X) acc = replaceAllLoop "__SONOS_ATTR_APOS__".toList "&apos;".toList 2028 X (List.reverseAux c1e5.toList acc) := fun _ _ => rfl
theorem c1_rd6 : ∀ X acc, replaceAllLoop "__SONOS_ATTR_APOS__".toList "&apos;".toList 2028 (c1e6.toList ++ X) acc = replaceAllLoop "__SONOS_ATTR_APOS__".toList "&apos;".toList 1890 X (List.reverseAux c1e6.toList acc) := fun _ _ => rfl
theorem c1_rd7 : ∀ X acc, replaceAllLoop "__SONOS_ATTR_APOS__".toList "&apos;".toList 1890 (c1e7.toList ++ X) acc = replaceAllLoop "__SONOS_ATTR_APOS__".toList "&apos;".toList 1778 X (List.reverseAux c1e7.toList acc) := fun _ _ => rfl
theorem c1_rd8 : ∀ X acc, replaceAllLoop "__SONOS_ATTR_APOS__".toList "&apos;".toList 1778 (c1e8.toList ++ X) acc = replaceAllLoop "__SONOS_ATTR_APOS__".toList "&apos;".toList 1658 X (List.reverseAux c1e8.toList acc) := fun _ _ => rfl
theorem c1_rd9 : ∀ X acc, replaceAllLoop "__SONOS_ATTR_APOS__".toList "&apos;".toList 1658 (c1e9.toList ++ X) acc = replaceAllLoop "__SONOS_ATTR_APOS__".toList "&apos;".toList 1539 X (List.reverseAux c1e9.toList acc) := fun _ _ => rfl
theorem c1_rd10 : ∀ X acc, replaceAllLoop "__SONOS_ATTR_APOS__".toList "&apos;".toList 1539 (c1e10.toList ++ X) acc = replaceAllLoop "__SONOS_ATTR_APOS__".toList "&apos;".toList 1414 X (List.reverseAux c1e10.toList acc) := fun _ _ => rfl
theorem c1_rd11 : ∀ X acc, replaceAllLoop "__SONOS_ATTR_APOS__".toList "&apos;".toList 1414 (c1e11.toList ++ X) acc = replaceAllLoop "__SONOS_ATTR_APOS__".toList "&apos;".toList 1308 X (List.reverseAux c1e11.toList acc) := fun _ _ => rfl
theorem c1_rd12 : ∀ X acc, replaceAllLoop "__SONOS_ATTR_APOS__".toList "&apos;".toList 1308 (c1e12.toList ++ X) acc = replaceAllLoop "__SONOS_ATTR_APOS__".toList "&apos;".toList 1191 X (List.reverseAux c1e12.toList acc) := fun _ _ => rfl
theorem c1_rd13 : ∀ X acc, replaceAllLoop "__SONOS_ATTR_APOS__".toList "&apos;".toList 1191 (c1e13.toList ++ X) acc = replaceAllLoop "__SONOS_ATTR_APOS__".toList "&apos;".toList 1053 X (List.reverseAux c1e13.toList acc) := fun _ _ => rfl
theorem c1_rd14 : ∀ X acc, replaceAllLoop "__SONOS_ATTR_APOS__".toList "&apos;".toList 1053 (c1e14.toList ++ X) acc = replaceAllLoop "__SONOS_ATTR_APOS__".toList "&apos;".toList 943 X (List.reverseAux c1e14.toList acc) := fun _ _ => rfl
theorem c1_rd15 : ∀ X acc, replaceAllLoop "__SONOS_ATTR_APOS__".toList "&apos;".toList 943 (c1e15.toList ++ X) acc = replaceAllLoop "__SONOS_ATTR_APOS__".toList "&apos;".toList 824 X (List.reverseAux c1e15.toList acc) := fun _ _ => rfl
theorem c1_rd16 : ∀ X acc, replaceAllLoop "__SONOS_ATTR_APOS__".toList "&apos;".toList 824 (c1e16.toList ++ X) acc = replaceAllLoop "__SONOS_ATTR_APOS__".toList "&apos;".toList 718 X (List.reverseAux c1e16.toList acc) := fun _ _ => rfl
theorem c1_rd17 : ∀ X acc, replaceAllLoop "__SONOS_ATTR_APOS__".toList "&apos;".toList 718 (c1e17.toList ++ X) acc = replaceAllLoop "__SONOS_ATTR_APOS__".toList "&apos;".toList 585 X (List.reverseAux c1e17.toList acc) := fun _ _ => rfl
theorem c1_rd18 : ∀ X acc, replaceAllLoop "__SONOS_ATTR_APOS__".toList "&apos;".toList 585 (c1e18.toList ++ X) acc = replaceAllLoop "__SONOS_ATTR_APOS__".toList "&apos;".toList 453 X (List.reverseAux c1e18.toList acc) := fun _ _ => rfl
theorem c1_rd19 : ∀ X acc, replaceAllLoop "__SONOS_ATTR_APOS__".toList "&apos;".toList 453 (c1e19.toList ++ X) acc = replaceAllLoop "__SONOS_ATTR_APOS__".toList "&apos;".toList 344 X (List.reverseAux c1e19.toList acc) := fun _ _ => rfl
theorem c1_rd20 : ∀ X acc, replaceAllLoop "__SONOS_ATTR_APOS__".toList "&apos;".toList 344 (c1e20.toList ++ X) acc = replaceAllLoop "__SONOS_ATTR_APOS__".toList "&apos;".toList 220 X (List.reverseAux c1e20.toList acc) := fun _ _ => rfl
theorem c1_rd21 : ∀ X acc, replaceAllLoop "__SONOS_ATTR_APOS__".toList "&apos;".toList 220 (c1e21.toList ++ X) acc = replaceAllLoop "__SONOS_ATTR_APOS__".toList "&apos;".toList 105 X (List.reverseAux c1e21.toList acc) := fun _ _ => rfl
theorem c1_rd22 : ∀ acc, replaceAllLoop "__SONOS_ATTR_APOS__".toList "&apos;".toList 105 c1e22.toList acc = List.reverseAux c1e22.toList acc := fun _ => rfl

theorem c1_ea1 : ∀ X acc, escapeAttrLoop false '"' 0 false none none 2603 (c1e1.toList ++ X) acc = escapeAttrLoop false '"' 0 false none (some '=') 2478 X (List.reverseAux c1f1.toList acc) := fun _ _ => rfl
theorem c1_ea2 : ∀ X acc, escapeAttrLoop false '"' 0 false none (some '=') 2478 (c1e2.toList ++ X) acc = escapeAttrLoop true '"' 0 false none (some '0') 2376 X (List.reverseAux c1f2.toList acc) := fun _ _ => rfl
theorem c1_ea3 : ∀ X acc, escapeAttrLoop true '"' 0 false none (some '0') 2376 (c1e3.toList ++ X) acc = escapeAttrLoop false '"' 0 false none (some 'v') 2282 X (List.reverseAux c1f3.toList acc) := fun _ _ => rfl
theorem c1_ea4 : ∀ X acc, escapeAttrLoop false '"' 0 false none (some 'v') 2282 (c1e4.toList ++ X) acc = escapeAttrLoop false '"' 0 false none (some 'C') 2157 X (List.reverseAux c1f4.toList acc) := fun _ _ => rfl
theorem c1_ea5 : ∀ X acc, escapeAttrLoop false '"' 0 false none (some 'C') 2157 (c1e5.toList ++ X) acc = escapeAttrLoop true '"' 0 false none (some 'r') 2028 X (List.reverseAux c1f5.toList acc) := fun _ _ => rfl
theorem c1_ea6 : ∀ X acc, escapeAttrLoop true '"' 0 false none (some 'r') 2028 (c1e6.toList ++ X) acc = escapeAttrLoop true '"' 0 false none (some '/') 1890 X (List.reverseAux c1f6.toList acc) := fun _ _ => rfl
theorem c1_ea7 : ∀ X acc, escapeAttrLoop true '"' 0 false none (some '/') 1890 (c1e7.toList ++ X) acc = escapeAttrLoop true '"' 0 false none (some 'g') 1778 X (List.reverseAux c1f7.toList acc) := fun _ _ => rfl
theorem c1_ea8 : ∀ X acc, escapeAttrLoop true '"' 0 false none (some 'g') 1778 (c1e8.toList ++ X) acc = escapeAttrLoop true '"' 0 false none (some 'l') 1658 X (List.reverseAux c1f8.toList acc) := fun _ _ => rfl
theorem c1_ea9 : ∀ X acc, escapeAttrLoop true '"' 0 false none (some 'l') 1658 (c1e9.toList ++ X) acc = escapeAttrLoop true '"' 0 false none (some 'g') 1539 X (List.reverseAux c1f9.toList acc) := fun _ _ => rfl
theorem c1_ea10 : ∀ X acc, escapeAttrLoop true '"' 0 false none (some 'g') 1539 (c1e10.toList ++ X) acc = escapeAttrLoop true '"' 0 false none (some 'u') 1414 X (List.reverseAux c1f10.toList acc) := fun _ _ => rfl
theorem c1_ea11 : ∀ X acc, escapeAttrLoop true '"' 0 false none (some 'u') 1414 (c1e11.toList ++ X) acc = escapeAttrLoop false '"' 0 false none (some 'l') 1308 X (List.reverseAux c1f11.toList acc) := fun _ _ => rfl
theorem c1_ea12 : ∀ X acc, escapeAttrLoop false '"' 0 false none (some 'l') 1308 (c1e12.toList ++ X) acc = escapeAttrLoop true '"' 0 false none (some 'u') 1191 X (List.reverseAux c1f12.toList acc) := fun _ _ => rfl
theorem c1_ea13 : ∀ X acc, escapeAttrLoop true '"' 0 false none (some 'u') 1191 (c1e13.toList ++ X) acc = escapeAttrLoop true '"' 0 false none (some 'p') 1053 X (List.reverseAux c1f13.toList acc) := fun _ _ => rfl
theorem c1_ea14 : ∀ X acc, escapeAttrLoop true '"' 0 false none (some 'p') 1053 (c1e14.toList ++ X) acc = escapeAttrLoop true '"' 0 false none (some 'e') 943 X (List.reverseAux c1f14.toList acc) := fun _ _ => rfl
theorem c1_ea15 : ∀ X acc, escapeAttrLoop true '"' 0 false none (some 'e') 943 (c1e15.toList ++ X) acc = escapeAttrLoop true '"' 0 false none (some 's') 824 X (List.reverseAux c1f15.toList acc) := fun _ _ => rfl
theorem c1_ea16 : ∀ X acc, escapeAttrLoop true '"' 0 false none (some 's') 824 (c1e16.toList ++ X) acc = escapeAttrLoop false '"' 0 false none (some '=') 718 X (List.reverseAux c1f16.toList acc) := fun _ _ => rfl
theorem c1_ea17 : ∀ X acc, escapeAttrLoop false '"' 0 false none (some '=') 718 (c1e17.toList ++ X) acc = escapeAttrLoop true '"' 0 false none (some 'x') 585 X (List.reverseAux c1f17.toList acc) := fun _ _ => rfl
theorem c1_ea18 : ∀ X acc, escapeAttrLoop true '"' 0 false none (some 'x') 585 (c1e18.toList ++ X) acc = escapeAttrLoop true '"' 0 false none (some 'l') 453 X (List.reverseAux c1f18.toList acc) := fun _ _ => rfl
theorem c1_ea19 : ∀ X acc, escapeAttrLoop true '"' 0 false none (some 'l') 453 (c1e19.toList ++ X) acc = escapeAttrLoop true '"' 0 false none (some 'e') 344 X (List.reverseAux c1f19.toList acc) := fun _ _ => rfl
theorem c1_ea20 : ∀ X acc, escapeAttrLoop true '"' 0 false none (some 'e') 344 (c1e20.toList ++ X) acc = escapeAttrLoop true '"' 0 false none (some 'u') 220 X (List.reverseAux c1f20.toList acc) := fun _ _ => rfl
theorem c1_ea21 : ∀ X acc, escapeAttrLoop true '"' 0 false none (some 'u') 220 (c1e21.toList ++ X) acc = escapeAttrLoop true '"' 0 false none (some ';') 105 X (List.reverseAux c1f21.toList acc) := fun _ _ => rfl
theorem c1_ea22 : ∀ acc, escapeAttrLoop true '"' 0 false none (some ';') 105 c1e22.toList acc = List.reverseAux c1f22.toList acc := fun _ => rfl

theorem c1_sa1 : ∀ X acc, sanitizeLoop 3123 (c1f1.toList ++ X) acc = sanitizeLoop 2998 X (List.reverseAux c1f1.toList acc) := fun _ _ => rfl
theorem c1_sa2 : ∀ X acc, sanitizeLoop 2998 (c1f2.toList ++ X) acc = sanitizeLoop 2896 X (List.reverseAux c1f2.toList acc) := fun _ _ => rfl
theorem c1_sa3 : ∀ X acc, sanitizeLoop 2896 (c1f3.toList ++ X) acc = sanitizeLoop 2802 X (List.reverseAux c1f3.toList acc) := fun _ _ => rfl
theorem c1_sa4 : ∀ X acc, sanitizeLoop 2802 (c1f4.toList ++ X) acc = sanitizeLoop 2677 X (List.reverseAux c1f4.toList acc) := fun _ _ => rfl
theorem c1_sa5 : ∀ X acc, sanitizeLoop 2677 (c1f5.toList ++ X) acc = sanitizeLoop 2548 X (List.reverseAux c1f5.toList acc) := fun _ _ => rfl
theorem c1_sa6 : ∀ X acc, sanitizeLoop 2548 (c1f6.toList ++ X) acc = sanitizeLoop 2410 X (List.reverseAux c1f6.toList acc) := fun _ _ => rfl
theorem c1_sa7 : ∀ X acc, sanitizeLoop 2410 (c1f7.toList ++ X) acc = sanitizeLoop 2298 X (List.reverseAux c1f7.toList acc) := fun _ _ => rfl
theorem c1_sa8 : ∀ X acc, sanitizeLoop 2298 (c1f8.toList ++ X) acc = sanitizeLoop 2178 X (List.reverseAux c1f8.toList acc) := fun _ _ => rfl
theorem c1_sa9 : ∀ X acc, sanitizeLoop 2178 (c1f9.toList ++ X) acc = sanitizeLoop 2059 X (List.reverseAux c1f9.toList acc) := fun _ _ => rfl
theorem c1_sa10 : ∀ X acc, sanitizeLoop 2059 (c1f10.toList ++ X) acc = sanitizeLoop 1934 X (List.reverseAux c1f10.toList acc) := fun _ _ => rfl
theorem c1_sa11 : ∀ X acc, sanitizeLoop 1934 (c1f11.toList ++ X) acc = sanitizeLoop 1828 X (List.reverseAux c1f11.toList acc) := fun _ _ => rfl
theorem c1_sa12 : ∀ X acc, sanitizeLoop 1828 (c1f12.toList ++ X) acc = sanitizeLoop 1711 X (List.reverseAux c1f12.toList acc) := fun _ _ => rfl
theorem c1_sa13 : ∀ X acc, sanitizeLoop 1711 (c1f13.toList ++ X) acc = sanitizeLoop 1573 X (List.reverseAux c1f13.toList acc) := fun _ _ => rfl
theorem c1_sa14 : ∀ X acc, sanitizeLoop 1573 (c1f14.toList ++ X) acc = sanitizeLoop 1463 X (List.reverseAux c1f14.toList acc) := fun _ _ => rfl
theorem c1_sa15 : ∀ X acc, sanitizeLoop 1463 (c1f15.toList ++ X) acc = sanitizeLoop 1344 X (List.reverseAux c1f15.toList acc) := fun _ _ => rfl
theorem c1_sa16 : ∀ X acc, sanitizeLoop 1344 (c1f16.toList ++ X) acc = sanitizeLoop 1238 X (List.reverseAux c1f16.toList acc) := fun _ _ => rfl
theorem c1_sa17 : ∀ X acc, sanitizeLoop 1238 (c1f17.toList ++ X) acc = sanitizeLoop 1105 X (List.reverseAux c1f17.toList acc) := fun _ _ => rfl
theorem c1_sa18 : ∀ X acc, sanitizeLoop 1105 (c1f18.toList ++ X) acc = sanitizeLoop 973 X (List.reverseAux c1f18.toList acc) := fun _ _ => rfl
theorem c1_sa19 : ∀ X acc, sanitizeLoop 973 (c1f19.toList ++ X) acc = sanitizeLoop 864 X (List.reverseAux c1f19.toList acc) := fun _ _ => rfl
theorem c1_sa20 : ∀ X acc, sanitizeLoop 864 (c1f20.toList ++ X) acc = sanitizeLoop 740 X (List.reverseAux c1f20.toList acc) := fun _ _ => rfl
theorem c1_sa21 : ∀ X acc, sanitizeLoop 740 (c1f21.toList ++ X) acc = sanitizeLoop 625 X (List.reverseAux c1f21.toList acc) := fun _ _ => rfl
theorem c1_sa22 : ∀ acc, sanitizeLoop 625 c1f22.toList acc = List.reverseAux c1f22.toList acc := fun _ => rfl

theorem c1_stageA : goReplaceAll c1s0 "&amp;quot;" "__SONOS_ATTR_QUOT__" = c1s1 := by
  have h0 : c1s0.toList = c1r1.toList ++ (c1r2.toList ++ (c1r3.toList ++ (c1r4.toList ++ (c1r5.toList ++ (c1r6.toList ++ (c1r7.toList ++ (c1r8.toList ++ (c1r9.toList ++ (c1r10.toList ++ (c1r11.toList ++ (c1r12.toList ++ (c1r13.toList ++ (c1r14.toList ++ (c1r15.toList ++ (c1r16.toList ++ (c1r17.toList ++ (c1r18.toList ++ (c1r19.toList ++ (c1r20.toList ++ (c1r21.toList ++ (c1r22.toList))))))))))))))))))))) := rfl
  have h1 : c1s1.toList = c1a1.toList ++ (c1a2.toList ++ (c1a3.toList ++ (c1a4.toList ++ (c1a5.toList ++ (c1a6.toList ++ (c1a7.toList ++ (c1a8.toList ++ (c1a9.toList ++ (c1a10.toList ++ (c1a11.toList ++ (c1a12.toList ++ (c1a13.toList ++ (c1a14.toList ++ (c1a15.toList ++ (c1a16.toList ++ (c1a17.toList ++ (c1a18.toList ++ (c1a19.toList ++ (c1a20.toList ++ (c1a21.toList ++ (c1a22.toList))))))))))))))))))))) := rfl
  have hlen : c1s0.toList.length = 3385 := by
    rw [h0]
    simp only [List.length_append, (show c1r1.toList.length = 154 from rfl), (show c1r2.toList.length = 155 from rfl), (show c1r3.toList.length = 153 from rfl), (show c1r4.toList.length = 157 from rfl), (show c1r5.toList.length = 150 from rfl), (show c1r6.toList.length = 154 from rfl), (show c1r7.toList.length = 160 from rfl), (show c1r8.toList.length = 148 from rfl), (show c1r9.toList.length = 155 from rfl), (show c1r10.toList.length = 153 from rfl), (show c1r11.toList.length = 153 from rfl), (show c1r12.toList.length = 154 from rfl), (show c1r13.toList.length = 154 from rfl), (show c1r14.toList.length = 154 from rfl), (show c1r15.toList.length = 151 from rfl), (show c1r16.toList.length = 153 from rfl), (show c1r17.toList.length = 158 from rfl), (show c1r18.toList.length = 156 from rfl), (show c1r19.toList.length = 149 from rfl), (show c1r20.toList.length = 160 from rfl), (show c1r21.toList.length = 147 from rfl), (show c1r22.toList.length = 157 from rfl)]
  unfold goReplaceAll
  rw [if_neg (by decide)]
  rw [hlen, h0, c1_ra1, c1_ra2, c1_ra3, c1_ra4, c1_ra5, c1_ra6, c1_ra7, c1_ra8, c1_ra9, c1_ra10, c1_ra11, c1_ra12, c1_ra13, c1_ra14, c1_ra15, c1_ra16, c1_ra17, c1_ra18, c1_ra19, c1_ra20, c1_ra21, c1_ra22]
  have hrev : ((List.reverseAux c1a22.toList (List.reverseAux c1a21.toList (List.reverseAux c1a20.toList (List.reverseAux c1a19.toList (List.reverseAux c1a18.toList (List.reverseAux c1a17.toList (List.reverseAux c1a16.toList (List.reverseAux c1a15.toList (List.reverseAux c1a14.toList (List.reverseAux c1a13.toList (List.reverseAux c1a12.toList (List.reverseAux c1a11.toList (List.reverseAux c1a10.toList (List.reverseAux c1a9.toList (List.reverseAux c1a8.toList (List.reverseAux c1a7.toList (List.reverseAux c1a6.toList (List.reverseAux c1a5.toList (List.reverseAux c1a4.toList (List.reverseAux c1a3.toList (List.reverseAux c1a2.toList (List.reverseAux c1a1.toList ([] : List Char)))))))))))))))))))))))).reverse = c1s1.toList := by
    simp only [List.reverseAux_eq, List.reverse_append, List.reverse_reverse,
      List.reverse_nil, List.nil_append, List.append_assoc, List.append_nil]
    exact h1.symm
  rw [hrev]
  exact c1_asString_toList c1s1

theorem c1_stageB : goReplaceAll c1s1 "&amp;apos;" "__SONOS_ATTR_APOS__" = c1s1 := by
  have h0 : c1s1.toList = c1a1.toList ++ (c1a2.toList ++ (c1a3.toList ++ (c1a4.toList ++ (c1a5.toList ++ (c1a6.toList ++ (c1a7.toList ++ (c1a8.toList ++ (c1a9.toList ++ (c1a10.toList ++ (c1a11.toList ++ (c1a12.toList ++ (c1a13.toList ++ (c1a14.toList ++ (c1a15.toList ++ (c1a16.toList ++ (c1a17.toList ++ (c1a18.toList ++ (c1a19.toList ++ (c1a20.toList ++ (c1a21.toList ++ (c1a22.toList))))))))))))))))))))) := rfl
  have h1 : c1s1.toList = c1a1.toList ++ (c1a2.toList ++ (c1a3.toList ++ (c1a4.toList ++ (c1a5.toList ++ (c1a6.toList ++ (c1a7.toList ++ (c1a8.toList ++ (c1a9.toList ++ (c1a10.toList ++ (c1a11.toList ++ (c1a12.toList ++ (c1a13.toList ++ (c1a14.toList ++ (c1a15.toList ++ (c1a16.toList ++ (c1a17.toList ++ (c1a18.toList ++ (c1a19.toList ++ (c1a20.toList ++ (c1a21.toList ++ (c1a22.toList))))))))))))))))))))) := rfl
  have hlen : c1s1.toList.length = 3799 := by
    rw [h0]
    simp only [List.length_append, (show c1a1.toList.length = 154 from rfl), (show c1a2.toList.length = 155 from rfl), (show c1a3.toList.length = 153 from rfl), (show c1a4.toList.length = 157 from rfl), (show c1a5.toList.length = 177 from rfl), (show c1a6.toList.length = 190 from rfl), (show c1a7.toList.length = 223 from rfl), (show c1a8.toList.length = 148 from rfl), (show c1a9.toList.length = 155 from rfl), (show c1a10.toList.length = 153 from rfl), (show c1a11.toList.length = 153 from rfl), (show c1a12.toList.length = 181 from rfl), (show c1a13.toList.length = 190 from rfl), (show c1a14.toList.length = 199 from rfl), (show c1a15.toList.length = 151 from rfl), (show c1a16.toList.length = 153 from rfl), (show c1a17.toList.length = 194 from rfl), (show c1a18.toList.length = 192 from rfl), (show c1a19.toList.length = 203 from rfl), (show c1a20.toList.length = 187 from rfl), (show c1a21.toList.length = 156 from rfl), (show c1a22.toList.length = 175 from rfl)]
  unfold goReplaceAll
  rw [if_neg (by decide)]
  rw [hlen, h0, c1_rb1, c1_rb2, c1_rb3, c1_rb4, c1_rb5, c1_rb6, c1_rb7, c1_rb8, c1_rb9, c1_rb10, c1_rb11, c1_rb12, c1_rb13, c1_rb14, c1_rb15, c1_rb16, c1_rb17, c1_rb18, c1_rb19, c1_rb20, c1_rb21, c1_rb22]
  have hrev : ((List.reverseAux c1a22.toList (List.reverseAux c1a21.toList (List.reverseAux c1a20.toList (List.reverseAux c1a19.toList (List.reverseAux c1a18.toList (List.reverseAux c1a17.toList (List.reverseAux c1a16.toList (List.reverseAux c1a15.toList (List.reverseAux c1a14.toList (List.reverseAux c1a13.toList (List.reverseAux c1a12.toList (List.reverseAux c1a11.toList (List.reverseAux c1a10.toList (List.reverseAux c1a9.toList (List.reverseAux c1a8.toList (List.reverseAux c1a7.toList (List.reverseAux c1a6.toList (List.reverseAux c1a5.toList (List.reverseAux c1a4.toList (List.reverseAux c1a3.toList (List.reverseAux c1a2.toList (List.reverseAux c1a1.toList ([] : List Char)))))))))))))))))))))))).reverse = c1s1.toList := by
    simp only [List.reverseAux_eq, List.reverse_append, List.reverse_reverse,
      List.reverse_nil, List.nil_append, List.append_assoc, List.append_nil]
    exact h1.symm
  rw [hrev]
  exact c1_asString_toList c1s1

theorem c1_stageC : htmlUnescape c1s1 = c1s3 := by
  have h0 : c1s1.toList = c1a1.toList ++ (c1a2.toList ++ (c1a3.toList ++ (c1a4.toList ++ (c1a5.toList ++ (c1a6.toList ++ (c1a7.toList ++ (c1a8.toList ++ (c1a9.toList ++ (c1a10.toList ++ (c1a11.toList ++ (c1a12.toList ++ (c1a13.toList ++ (c1a14.toList ++ (c1a15.toList ++ (c1a16.toList ++ (c1a17.toList ++ (c1a18.toList ++ (c1a19.toList ++ (c1a20.toList ++ (c1a21.toList ++ (c1a22.toList))))))))))))))))))))) := rfl
  have h1 : c1s3.toList = c1c1.toList ++ (c1c2.toList ++ (c1c3.toList ++ (c1c4.toList ++ (c1c5.toList ++ (c1c6.toList ++ (c1c7.toList ++ (c1c8.toList ++ (c1c9.toList ++ (c1c10.toList ++ (c1c11.toList ++ (c1c12.toList ++ (c1c13.toList ++ (c1c14.toList ++ (c1c15.toList ++ (c1c16.toList ++ (c1c17.toList ++ (c1c18.toList ++ (c1c19.toList ++ (c1c20.toList ++ (c1c21.toList ++ (c1c22.toList))))))))))))))))))))) := rfl
  have hlen : c1s1.toList.length = 3799 := by
    rw [h0]
    simp only [List.length_append, (show c1a1.toList.length = 154 from rfl), (show c1a2.toList.length = 155 from rfl), (show c1a3.toList.length = 153 from rfl), (show c1a4.toList.length = 157 from rfl), (show c1a5.toList.length = 177 from rfl), (show c1a6.toList.length = 190 from rfl), (show c1a7.toList.length = 223 from rfl), (show c1a8.toList.length = 148 from rfl), (show c1a9.toList.length = 155 from rfl), (show c1a10.toList.length = 153 from rfl), (show c1a11.toList.length = 153 from rfl), (show c1a12.toList.length = 181 from rfl), (show c1a13.toList.length = 190 from rfl), (show c1a14.toList.length = 199 from rfl), (show c1a15.toList.length = 151 from rfl), (show c1a16.toList.length = 153 from rfl), (show c1a17.toList.length = 194 from rfl), (show c1a18.toList.length = 192 from rfl), (show c1a19.toList.length = 203 from rfl), (show c1a20.toList.length = 187 from rfl), (show c1a21.toList.length = 156 from rfl), (show c1a22.toList.length = 175 from rfl)]
  unfold htmlUnescape
  rw [hlen, h0, c1_hu1, c1_hu2, c1_hu3, c1_hu4, c1_hu5, c1_hu6, c1_hu7, c1_hu8, c1_hu9, c1_hu10, c1_hu11, c1_hu12, c1_hu13, c1_hu14, c1_hu15, c1_hu16, c1_hu17, c1_hu18, c1_hu19, c1_hu20, c1_hu21, c1_hu22]
  have hrev : ((List.reverseAux c1c22.toList (List.reverseAux c1c21.toList (List.reverseAux c1c20.toList (List.reverseAux c1c19.toList (List.reverseAux c1c18.toList (List.reverseAux c1c17.toList (List.reverseAux c1c16.toList (List.reverseAux c1c15.toList (List.reverseAux c1c14.toList (List.reverseAux c1c13.toList (List.reverseAux c1c12.toList (List.reverseAux c1c11.toList (List.reverseAux c1c10.toList (List.reverseAux c1c9.toList (List.reverseAux c1c8.toList (List.reverseAux c1c7.toList (List.reverseAux c1c6.toList (List.reverseAux c1c5.toList (List.reverseAux c1c4.toList (List.reverseAux c1c3.toList (List.reverseAux c1c2.toList (List.reverseAux c1c1.toList ([] : List Char)))))))))))))))))))))))).reverse = c1s3.toList := by
    simp only [List.reverseAux_eq, List.reverse_append, List.reverse_reverse,
      List.reverse_nil, List.nil_append, List.append_assoc, List.append_nil]
    exact h1.symm
  rw [hrev]
  exact c1_asString_toList c1s3

theorem c1_stageD : goReplaceAll c1s3 "__SONOS_ATTR_QUOT__" "&quot;" = c1s4 := by
  have h0 : c1s3.toList = c1c1.toList ++ (c1c2.toList ++ (c1c3.toList ++ (c1c4.toList ++ (c1c5.toList ++ (c1c6.toList ++ (c1c7.toList ++ (c1c8.toList ++ (c1c9.toList ++ (c1c10.toList ++ (c1c11.toList ++ (c1c12.toList ++ (c1c13.toList ++ (c1c14.toList ++ (c1c15.toList ++ (c1c16.toList ++ (c1c17.toList ++ (c1c18.toList ++ (c1c19.toList ++ (c1c20.toList ++ (c1c21.toList ++ (c1c22.toList))))))))))))))))))))) := rfl
  have h1 : c1s4.toList = c1e1.toList ++ (c1e2.toList ++ (c1e3.toList ++ (c1e4.toList ++ (c1e5.toList ++ (c1e6.toList ++ (c1e7.toList ++ (c1e8.toList ++ (c1e9.toList ++ (c1e10.toList ++ (c1e11.toList ++ (c1e12.toList ++ (c1e13.toList ++ (c1e14.toList ++ (c1e15.toList ++ (c1e16.toList ++ (c1e17.toList ++ (c1e18.toList ++ (c1e19.toList ++ (c1e20.toList ++ (c1e21.toList ++ (c1e22.toList))))))))))))))))))))) := rfl
  have hlen : c1s3.toList.length = 3201 := by
    rw [h0]
    simp only [List.length_append, (show c1c1.toList.length = 125 from rfl), (show c1c2.toList.length = 102 from rfl), (show c1c3.toList.length = 94 from rfl), (show c1c4.toList.length = 125 from rfl), (show c1c5.toList.length = 168 from rfl), (show c1c6.toList.length = 190 from rfl), (show c1c7.toList.length = 203 from rfl), (show c1c8.toList.length = 120 from rfl), (show c1c9.toList.length = 119 from rfl), (show c1c10.toList.length = 125 from rfl), (show c1c11.toList.length = 106 from rfl), (show c1c12.toList.length = 156 from rfl), (show c1c13.toList.length = 190 from rfl), (show c1c14.toList.length = 175 from rfl), (show c1c15.toList.length = 119 from rfl), (show c1c16.toList.length = 106 from rfl), (show c1c17.toList.length = 185 from rfl), (show c1c18.toList.length = 184 from rfl), (show c1c19.toList.length = 187 from rfl), (show c1c20.toList.length = 163 from rfl), (show c1c21.toList.length = 128 from rfl), (show c1c22.toList.length = 131 from rfl)]
  unfold goReplaceAll
  rw [if_neg (by decide)]
  rw [hlen, h0, c1_rc1, c1_rc2, c1_rc3, c1_rc4, c1_rc5, c1_rc6, c1_rc7, c1_rc8, c1_rc9, c1_rc10, c1_rc11, c1_rc12, c1_rc13, c1_rc14, c1_rc15, c1_rc16, c1_rc17, c1_rc18, c1_rc19, c1_rc20, c1_rc21, c1_rc22]
  have hrev : ((List.reverseAux c1e22.toList (List.reverseAux c1e21.toList (List.reverseAux c1e20.toList (List.reverseAux c1e19.toList (List.reverseAux c1e18.toList (List.reverseAux c1e17.toList (List.reverseAux c1e16.toList (List.reverseAux c1e15.toList (List.reverseAux c1e14.toList (List.reverseAux c1e13.toList (List.reverseAux c1e12.toList (List.reverseAux c1e11.toList (List.reverseAux c1e10.toList (List.reverseAux c1e9.toList (List.reverseAux c1e8.toList (List.reverseAux c1e7.toList (List.reverseAux c1e6.toList (List.reverseAux c1e5.toList (List.reverseAux c1e4.toList (List.reverseAux c1e3.toList (List.reverseAux c1e2.toList (List.reverseAux c1e1.toList ([] : List Char)))))))))))))))))))))))).reverse = c1s4.toList := by
    simp only [List.reverseAux_eq, List.reverse_append, List.reverse_reverse,
      List.reverse_nil, List.nil_append, List.append_assoc, List.append_nil]
    exact h1.symm
  rw [hrev]
  exact c1_asString_toList c1s4

theorem c1_stageE : goReplaceAll c1s4 "__SONOS_ATTR_APOS__" "&apos;" = c1s4 := by
  have h0 : c1s4.toList = c1e1.toList ++ (c1e2.toList ++ (c1e3.toList ++ (c1e4.toList ++ (c1e5.toList ++ (c1e6.toList ++ (c1e7.toList ++ (c1e8.toList ++ (c1e9.toList ++ (c1e10.toList ++ (c1e11.toList ++ (c1e12.toList ++ (c1e13.toList ++ (c1e14.toList ++ (c1e15.toList ++ (c1e16.toList ++ (c1e17.toList ++ (c1e18.toList ++ (c1e19.toList ++ (c1e20.toList ++ (c1e21.toList ++ (c1e22.toList))))))))))))))))))))) := rfl
  have h1 : c1s4.toList = c1e1.toList ++ (c1e2.toList ++ (c1e3.toList ++ (c1e4.toList ++ (c1e5.toList ++ (c1e6.toList ++ (c1e7.toList ++ (c1e8.toList ++ (c1e9.toList ++ (c1e10.toList ++ (c1e11.toList ++ (c1e12.toList ++ (c1e13.toList ++ (c1e14.toList ++ (c1e15.toList ++ (c1e16.toList ++ (c1e17.toList ++ (c1e18.toList ++ (c1e19.toList ++ (c1e20.toList ++ (c1e21.toList ++ (c1e22.toList))))))))))))))))))))) := rfl
  have hlen : c1s4.toList.length = 2603 := by
    rw [h0]
    simp only [List.length_append, (show c1e1.toList.length = 125 from rfl), (show c1e2.toList.length = 102 from rfl), (show c1e3.toList.length = 94 from rfl), (show c1e4.toList.length = 125 from rfl), (show c1e5.toList.length = 129 from rfl), (show c1e6.toList.length = 138 from rfl), (show c1e7.toList.length = 112 from rfl), (show c1e8.toList.length = 120 from rfl), (show c1e9.toList.length = 119 from rfl), (show c1e10.toList.length = 125 from rfl), (show c1e11.toList.length = 106 from rfl), (show c1e12.toList.length = 117 from rfl), (show c1e13.toList.length = 138 from rfl), (show c1e14.toList.length = 110 from rfl), (show c1e15.toList.length = 119 from rfl), (show c1e16.toList.length = 106 from rfl), (show c1e17.toList.length = 133 from rfl), (show c1e18.toList.length = 132 from rfl), (show c1e19.toList.length = 109 from rfl), (show c1e20.toList.length = 124 from rfl), (show c1e21.toList.length = 115 from rfl), (show c1e22.toList.length = 105 from rfl)]
  unfold goReplaceAll
  rw [if_neg (by decide)]
  rw [hlen, h0, c1_rd1, c1_rd2, c1_rd3, c1_rd4, c1_rd5, c1_rd6, c1_rd7, c1_rd8, c1_rd9, c1_rd10, c1_rd11, c1_rd12, c1_rd13, c1_rd14, c1_rd15, c1_rd16, c1_rd17, c1_rd18, c1_rd19, c1_rd20, c1_rd21, c1_rd22]
  have hrev : ((List.reverseAux c1e22.toList (List.reverseAux c1e21.toList (List.reverseAux c1e20.toList (List.reverseAux c1e19.toList (List.reverseAux c1e18.toList (List.reverseAux c1e17.toList (List.reverseAux c1e16.toList (List.reverseAux c1e15.toList (List.reverseAux c1e14.toList (List.reverseAux c1e13.toList (List.reverseAux c1e12.toList (List.reverseAux c1e11.toList (List.reverseAux c1e10.toList (List.reverseAux c1e9.toList (List.reverseAux c1e8.toList (List.reverseAux c1e7.toList (List.reverseAux c1e6.toList (List.reverseAux c1e5.toList (List.reverseAux c1e4.toList (List.reverseAux c1e3.toList (List.reverseAux c1e2.toList (List.reverseAux c1e1.toList ([] : List Char)))))))))))))))))))))))).reverse = c1s4.toList := by
    simp only [List.reverseAux_eq, List.reverse_append, List.reverse_reverse,
      List.reverse_nil, List.nil_append, List.append_assoc, List.append_nil]
    exact h1.symm
  rw [hrev]
  exact c1_asString_toList c1s4

theorem c1_stageF : escapeAttributeMarkup c1s4 = c1s6 := by
  have h0 : c1s4.toList = c1e1.toList ++ (c1e2.toList ++ (c1e3.toList ++ (c1e4.toList ++ (c1e5.toList ++ (c1e6.toList ++ (c1e7.toList ++ (c1e8.toList ++ (c1e9.toList ++ (c1e10.toList ++ (c1e11.toList ++ (c1e12.toList ++ (c1e13.toList ++ (c1e14.toList ++ (c1e15.toList ++ (c1e16.toList ++ (c1e17.toList ++ (c1e18.toList ++ (c1e19.toList ++ (c1e20.toList ++ (c1e21.toList ++ (c1e22.toList))))))))))))))))))))) := rfl
  have h1 : c1s6.toList = c1f1.toList ++ (c1f2.toList ++ (c1f3.toList ++ (c1f4.toList ++ (c1f5.toList ++ (c1f6.toList ++ (c1f7.toList ++ (c1f8.toList ++ (c1f9.toList ++ (c1f10.toList ++ (c1f11.toList ++ (c1f12.toList ++ (c1f13.toList ++ (c1f14.toList ++ (c1f15.toList ++ (c1f16.toList ++ (c1f17.toList ++ (c1f18.toList ++ (c1f19.toList ++ (c1f20.toList ++ (c1f21.toList ++ (c1f22.toList))))))))))))))))))))) := rfl
  have hlen : c1s4.toList.length = 2603 := by
    rw [h0]
    simp only [List.length_append, (show c1e1.toList.length = 125 from rfl), (show c1e2.toList.length = 102 from rfl), (show c1e3.toList.length = 94 from rfl), (show c1e4.toList.length = 125 from rfl), (show c1e5.toList.length = 129 from rfl), (show c1e6.toList.length = 138 from rfl), (show c1e7.toList.length = 112 from rfl), (show c1e8.toList.length = 120 from rfl), (show c1e9.toList.length = 119 from rfl), (show c1e10.toList.length = 125 from rfl), (show c1e11.toList.length = 106 from rfl), (show c1e12.toList.length = 117 from rfl), (show c1e13.toList.length = 138 from rfl), (show c1e14.toList.length = 110 from rfl), (show c1e15.toList.length = 119 from rfl), (show c1e16.toList.length = 106 from rfl), (show c1e17.toList.length = 133 from rfl), (show c1e18.toList.length = 132 from rfl), (show c1e19.toList.length = 109 from rfl), (show c1e20.toList.length = 124 from rfl), (show c1e21.toList.length = 115 from rfl), (show c1e22.toList.length = 105 from rfl)]
  unfold escapeAttributeMarkup
  rw [hlen, h0, c1_ea1, c1_ea2, c1_ea3, c1_ea4, c1_ea5, c1_ea6, c1_ea7, c1_ea8, c1_ea9, c1_ea10, c1_ea11, c1_ea12, c1_ea13, c1_ea14, c1_ea15, c1_ea16, c1_ea17, c1_ea18, c1_ea19, c1_ea20, c1_ea21, c1_ea22]
  have hrev : ((List.reverseAux c1f22.toList (List.reverseAux c1f21.toList (List.reverseAux c1f20.toList (List.reverseAux c1f19.toList (List.reverseAux c1f18.toList (List.reverseAux c1f17.toList (List.reverseAux c1f16.toList (List.reverseAux c1f15.toList (List.reverseAux c1f14.toList (List.reverseAux c1f13.toList (List.reverseAux c1f12.toList (List.reverseAux c1f11.toList (List.reverseAux c1f10.toList (List.reverseAux c1f9.toList (List.reverseAux c1f8.toList (List.reverseAux c1f7.toList (List.reverseAux c1f6.toList (List.reverseAux c1f5.toList (List.reverseAux c1f4.toList (List.reverseAux c1f3.toList (List.reverseAux c1f2.toList (List.reverseAux c1f1.toList ([] : List Char)))))))))))))))))))))))).reverse = c1s6.toList := by
    simp only [List.reverseAux_eq, List.reverse_append, List.reverse_reverse,
      List.reverse_nil, List.nil_append, List.append_assoc, List.append_nil]
    exact h1.symm
  rw [hrev]
  exact c1_asString_toList c1s6

theorem c1_stageG : sanitizeInvalidEntities c1s6 = c1s6 := by
  have h0 : c1s6.toList = c1f1.toList ++ (c1f2.toList ++ (c1f3.toList ++ (c1f4.toList ++ (c1f5.toList ++ (c1f6.toList ++ (c1f7.toList ++ (c1f8.toList ++ (c1f9.toList ++ (c1f10.toList ++ (c1f11.toList ++ (c1f12.toList ++ (c1f13.toList ++ (c1f14.toList ++ (c1f15.toList ++ (c1f16.toList ++ (c1f17.toList ++ (c1f18.toList ++ (c1f19.toList ++ (c1f20.toList ++ (c1f21.toList ++ (c1f22.toList))))))))))))))))))))) := rfl
  have h1 : c1s6.toList = c1f1.toList ++ (c1f2.toList ++ (c1f3.toList ++ (c1f4.toList ++ (c1f5.toList ++ (c1f6.toList ++ (c1f7.toList ++ (c1f8.toList ++ (c1f9.toList ++ (c1f10.toList ++ (c1f11.toList ++ (c1f12.toList ++ (c1f13.toList ++ (c1f14.toList ++ (c1f15.toList ++ (c1f16.toList ++ (c1f17.toList ++ (c1f18.toList ++ (c1f19.toList ++ (c1f20.toList ++ (c1f21.toList ++ (c1f22.toList))))))))))))))))))))) := rfl
  have hlen : c1s6.toList.length = 3123 := by
    rw [h0]
    simp only [List.length_append, (show c1f1.toList.length = 125 from rfl), (show c1f2.toList.length = 102 from rfl), (show c1f3.toList.length = 94 from rfl), (show c1f4.toList.length = 125 from rfl), (show c1f5.toList.length = 145 from rfl), (show c1f6.toList.length = 154 from rfl), (show c1f7.toList.length = 160 from rfl), (show c1f8.toList.length = 148 from rfl), (show c1f9.toList.length = 155 from rfl), (show c1f10.toList.length = 153 from rfl), (show c1f11.toList.length = 142 from rfl), (show c1f12.toList.length = 133 from rfl), (show c1f13.toList.length = 154 from rfl), (show c1f14.toList.length = 154 from rfl), (show c1f15.toList.length = 151 from rfl), (show c1f16.toList.length = 126 from rfl), (show c1f17.toList.length = 153 from rfl), (show c1f18.toList.length = 156 from rfl), (show c1f19.toList.length = 149 from rfl), (show c1f20.toList.length = 160 from rfl), (show c1f21.toList.length = 147 from rfl), (show c1f22.toList.length = 137 from rfl)]
  unfold sanitizeInvalidEntities
  rw [if_pos (show c1s6.toList.contains '&' = true from rfl)]
  rw [hlen, h0, c1_sa1, c1_sa2, c1_sa3, c1_sa4, c1_sa5, c1_sa6, c1_sa7, c1_sa8, c1_sa9, c1_sa10, c1_sa11, c1_sa12, c1_sa13, c1_sa14, c1_sa15, c1_sa16, c1_sa17, c1_sa18, c1_sa19, c1_sa20, c1_sa21, c1_sa22]
  have hrev : ((List.reverseAux c1f22.toList (List.reverseAux c1f21.toList (List.reverseAux c1f20.toList (List.reverseAux c1f19.toList (List.reverseAux c1f18.toList (List.reverseAux c1f17.toList (List.reverseAux c1f16.toList (List.reverseAux c1f15.toList (List.reverseAux c1f14.toList (List.reverseAux c1f13.toList (List.reverseAux c1f12.toList (List.reverseAux c1f11.toList (List.reverseAux c1f10.toList (List.reverseAux c1f9.toList (List.reverseAux c1f8.toList (List.reverseAux c1f7.toList (List.reverseAux c1f6.toList (List.reverseAux c1f5.toList (List.reverseAux c1f4.toList (List.reverseAux c1f3.toList (List.reverseAux c1f2.toList (List.reverseAux c1f1.toList ([] : List Char)))))))))))))))))))))))).reverse = c1s6.toList := by
    simp only [List.reverseAux_eq, List.reverse_append, List.reverse_reverse,
      List.reverse_nil, List.nil_append, List.append_assoc, List.append_nil]
    exact h1.symm
  rw [hrev]
  exact c1_asString_toList c1s6

/-- The full `prepareLastChangeXML` pass on the raw capture. -/
theorem c1_prep : prepareLastChangeXML (c1rawRev.reverse.asString) = c1s6 := by
  have hres0 : c1rawRev.reverse.asString = c1s0 := by
    have h : c1rawRev.reverse = c1s0.toList := by
      simp only [c1rawRev, List.reverseAux_eq, List.reverse_append, List.reverse_reverse,
        List.reverse_nil, List.nil_append, List.append_assoc, List.append_nil]
      exact (show c1s0.toList = c1r1.toList ++ (c1r2.toList ++ (c1r3.toList ++ (c1r4.toList ++ (c1r5.toList ++ (c1r6.toList ++ (c1r7.toList ++ (c1r8.toList ++ (c1r9.toList ++ (c1r10.toList ++ (c1r11.toList ++ (c1r12.toList ++ (c1r13.toList ++ (c1r14.toList ++ (c1r15.toList ++ (c1r16.toList ++ (c1r17.toList ++ (c1r18.toList ++ (c1r19.toList ++ (c1r20.toList ++ (c1r21.toList ++ (c1r22.toList))))))))))))))))))))) from rfl).symm
    rw [h]
    exact c1_asString_toList c1s0
  rw [hres0]
  simp only [prepareLastChangeXML]
  rw [c1_stageA, c1_stageB, c1_stageC, c1_stageD, c1_stageE, c1_stageF, c1_stageG]


/-- `[]` is a prefix of every list. -/
theorem c1_nil_isPrefixOf (l : List Char) : ([] : List Char).isPrefixOf l = true := by
  cases l <;> rfl

/-- Tokenizer stepping lemma for a character-data run. -/
theorem c1_rawTokenize_text (fuel : Nat) (ch c2 : Char) (rest2 txtRev rest' : List Char)
    (h1 : ¬ ch = '<') (h2q : ¬ c2 = '?') (h2b : ¬ c2 = '!') (h2s : ¬ c2 = '/')
    (hdec : xmlDecodeTextAcc (fuel + 1) (ch :: c2 :: rest2) [] = some (txtRev, rest')) :
    rawTokenize (fuel + 1) (ch :: c2 :: rest2) =
      (rawTokenize fuel rest').map (RawTok.rawText txtRev.reverse :: ·) := by
  rw [rawTokenize]
  · rw [if_neg h1, hdec]
  · intro t h hr _hh
    injection hr with ha _
    exact h2q ha
  · intro t h hr _hh
    injection hr with ha _
    exact h2b ha
  · intro t h hr _hh
    injection hr with ha _
    exact h2s ha

/-- Scan stepping lemma: at a `<tag`-match followed by `>`, the raw scan
captures up to the end tag and continues behind it. -/
theorem c1_innerRaw_found (tag : List Char) (fuel : Nat) (c : Char)
    (srest cs crev rest' : List Char)
    (hpre : ('<' :: tag).isPrefixOf (c :: srest) = true)
    (hdrop : (c :: srest).drop ('<' :: tag).length = '>' :: cs)
    (htake : takeUntilRev ('<' :: '/' :: tag) (fuel + 1) cs [] = some (crev, rest')) :
    innerRawRevOf tag (fuel + 1) (c :: srest) = crev :: innerRawRevOf tag fuel rest' := by
  have hdth : dropThrough ['>'] (fuel + 1) ('>' :: cs) = some cs := by
    rw [dropThrough]
    simp only [List.isPrefixOf, c1_nil_isPrefixOf, List.length_cons, List.length_nil,
      List.drop_succ_cons, List.drop_zero]
    rw [if_pos (by decide)]
  rw [innerRawRevOf]
  simp only [hpre, if_true, hdrop, hdth, htake, true_or]

theorem c1_tk1 : ∀ X acc, takeUntilRev ('<' :: '/' :: "LastChange".toList) 3443 (c1r1.toList ++ X) acc = takeUntilRev ('<' :: '/' :: "LastChange".toList) 3289 X (List.reverseAux c1r1.toList acc) := fun _ _ => rfl
theorem c1_tk2 : ∀ X acc, takeUntilRev ('<' :: '/' :: "LastChange".toList) 3289 (c1r2.toList ++ X) acc = takeUntilRev ('<' :: '/' :: "LastChange".toList) 3134 X (List.reverseAux c1r2.toList acc) := fun _ _ => rfl
theorem c1_tk3 : ∀ X acc, takeUntilRev ('<' :: '/' :: "LastChange".toList) 3134 (c1r3.toList ++ X) acc = takeUntilRev ('<' :: '/' :: "LastChange".toList) 2981 X (List.reverseAux c1r3.toList acc) := fun _ _ => rfl
theorem c1_tk4 : ∀ X acc, takeUntilRev ('<' :: '/' :: "LastChange".toList) 2981 (c1r4.toList ++ X) acc = takeUntilRev ('<' :: '/' :: "LastChange".toList) 2824 X (List.reverseAux c1r4.toList acc) := fun _ _ => rfl
theorem c1_tk5 : ∀ X acc, takeUntilRev ('<' :: '/' :: "LastChange".toList) 2824 (c1r5.toList ++ X) acc = takeUntilRev ('<' :: '/' :: "LastChange".toList) 2674 X (List.reverseAux c1r5.toList acc) := fun _ _ => rfl
theorem c1_tk6 : ∀ X acc, takeUntilRev ('<' :: '/' :: "LastChange".toList) 2674 (c1r6.toList ++ X) acc = takeUntilRev ('<' :: '/' :: "LastChange".toList) 2520 X (List.reverseAux c1r6.toList acc) := fun _ _ => rfl
theorem c1_tk7 : ∀ X acc, takeUntilRev ('<' :: '/' :: "LastChange".toList) 2520 (c1r7.toList ++ X) acc = takeUntilRev ('<' :: '/' :: "LastChange".toList) 2360 X (List.reverseAux c1r7.toList acc) := fun _ _ => rfl
theorem c1_tk8 : ∀ X acc, takeUntilRev ('<' :: '/' :: "LastChange".toList) 2360 (c1r8.toList ++ X) acc = takeUntilRev ('<' :: '/' :: "LastChange".toList) 2212 X (List.reverseAux c1r8.toList acc) := fun _ _ => rfl
theorem c1_tk9 : ∀ X acc, takeUntilRev ('<' :: '/' :: "LastChange".toList) 2212 (c1r9.toList ++ X) acc = takeUntilRev ('<' :: '/' :: "LastChange".toList) 2057 X (List.reverseAux c1r9.toList acc) := fun _ _ => rfl
theorem c1_tk10 : ∀ X acc, takeUntilRev ('<' :: '/' :: "LastChange".toList) 2057 (c1r10.toList ++ X) acc = takeUntilRev ('<' :: '/' :: "LastChange".toList) 1904 X (List.reverseAux c1r10.toList acc) := fun _ _ => rfl
theorem c1_tk11 : ∀ X acc, takeUntilRev ('<' :: '/' :: "LastChange".toList) 1904 (c1r11.toList ++ X) acc = takeUntilRev ('<' :: '/' :: "LastChange".toList) 1751 X (List.reverseAux c1r11.toList acc) := fun _ _ => rfl
theorem c1_tk12 : ∀ X acc, takeUntilRev ('<' :: '/' :: "LastChange".toList) 1751 (c1r12.toList ++ X) acc = takeUntilRev ('<' :: '/' :: "LastChange".toList) 1597 X (List.reverseAux c1r12.toList acc) := fun _ _ => rfl
theorem c1_tk13 : ∀ X acc, takeUntilRev ('<' :: '/' :: "LastChange".toList) 1597 (c1r13.toList ++ X) acc = takeUntilRev ('<' :: '/' :: "LastChange".toList) 1443 X (List.reverseAux c1r13.toList acc) := fun _ _ => rfl
theorem c1_tk14 : ∀ X acc, takeUntilRev ('<' :: '/' :: "LastChange".toList) 1443 (c1r14.toList ++ X) acc = takeUntilRev ('<' :: '/' :: "LastChange".toList) 1289 X (List.reverseAux c1r14.toList acc) := fun _ _ => rfl
theorem c1_tk15 : ∀ X acc, takeUntilRev ('<' :: '/' :: "LastChange".toList) 1289 (c1r15.toList ++ X) acc = takeUntilRev ('<' :: '/' :: "LastChange".toList) 1138 X (List.reverseAux c1r15.toList acc) := fun _ _ => rfl
theorem c1_tk16 : ∀ X acc, takeUntilRev ('<' :: '/' :: "LastChange".toList) 1138 (c1r16.toList ++ X) acc = takeUntilRev ('<' :: '/' :: "LastChange".toList) 985 X (List.reverseAux c1r16.toList acc) := fun _ _ => rfl
theorem c1_tk17 : ∀ X acc, takeUntilRev ('<' :: '/' :: "LastChange".toList) 985 (c1r17.toList ++ X) acc = takeUntilRev ('<' :: '/' :: "LastChange".toList) 827 X (List.reverseAux c1r17.toList acc) := fun _ _ => rfl
theorem c1_tk18 : ∀ X acc, takeUntilRev ('<' :: '/' :: "LastChange".toList) 827 (c1r18.toList ++ X) acc = takeUntilRev ('<' :: '/' :: "LastChange".toList) 671 X (List.reverseAux c1r18.toList acc) := fun _ _ => rfl
theorem c1_tk19 : ∀ X acc, takeUntilRev ('<' :: '/' :: "LastChange".toList) 671 (c1r19.toList ++ X) acc = takeUntilRev ('<' :: '/' :: "LastChange".toList) 522 X (List.reverseAux c1r19.toList acc) := fun _ _ => rfl
theorem c1_tk20 : ∀ X acc, takeUntilRev ('<' :: '/' :: "LastChange".toList) 522 (c1r20.toList ++ X) acc = takeUntilRev ('<' :: '/' :: "LastChange".toList) 362 X (List.reverseAux c1r20.toList acc) := fun _ _ => rfl
theorem c1_tk21 : ∀ X acc, takeUntilRev ('<' :: '/' :: "LastChange".toList) 362 (c1r21.toList ++ X) acc = takeUntilRev ('<' :: '/' :: "LastChange".toList) 215 X (List.reverseAux c1r21.toList acc) := fun _ _ => rfl
theorem c1_tk22 : ∀ X acc, takeUntilRev ('<' :: '/' :: "LastChange".toList) 215 (c1r22.toList ++ X) acc = takeUntilRev ('<' :: '/' :: "LastChange".toList) 58 X (List.reverseAux c1r22.toList acc) := fun _ _ => rfl
theorem c1_tk23 : ∀ acc, takeUntilRev ('<' :: '/' :: "LastChange".toList) 58 c1tailB.toList acc = some (acc, c1tailB.toList) := fun _ => rfl

/-- The raw capture of the `LastChange` body, chunk by chunk. -/
theorem c1_take : takeUntilRev ('<' :: '/' :: "LastChange".toList) 3443 (c1r1.toList ++ (c1r2.toList ++ (c1r3.toList ++ (c1r4.toList ++ (c1r5.toList ++ (c1r6.toList ++ (c1r7.toList ++ (c1r8.toList ++ (c1r9.toList ++ (c1r10.toList ++ (c1r11.toList ++ (c1r12.toList ++ (c1r13.toList ++ (c1r14.toList ++ (c1r15.toList ++ (c1r16.toList ++ (c1r17.toList ++ (c1r18.toList ++ (c1r19.toList ++ (c1r20.toList ++ (c1r21.toList ++ (c1r22.toList ++ (c1tailB.toList))))))))))))))))))))))) [] = some (c1rawRev, c1tailB.toList) := by
  rw [c1_tk1, c1_tk2, c1_tk3, c1_tk4, c1_tk5, c1_tk6, c1_tk7, c1_tk8, c1_tk9, c1_tk10, c1_tk11, c1_tk12, c1_tk13, c1_tk14, c1_tk15, c1_tk16, c1_tk17, c1_tk18, c1_tk19, c1_tk20, c1_tk21, c1_tk22]
  exact c1_tk23 (List.reverseAux c1r22.toList (List.reverseAux c1r21.toList (List.reverseAux c1r20.toList (List.reverseAux c1r19.toList (List.reverseAux c1r18.toList (List.reverseAux c1r17.toList (List.reverseAux c1r16.toList (List.reverseAux c1r15.toList (List.reverseAux c1r14.toList (List.reverseAux c1r13.toList (List.reverseAux c1r12.toList (List.reverseAux c1r11.toList (List.reverseAux c1r10.toList (List.reverseAux c1r9.toList (List.reverseAux c1r8.toList (List.reverseAux c1r7.toList (List.reverseAux c1r6.toList (List.reverseAux c1r5.toList (List.reverseAux c1r4.toList (List.reverseAux c1r3.toList (List.reverseAux c1r2.toList (List.reverseAux c1r1.toList ([] : List Char)))))))))))))))))))))))

theorem c1_dc1 : ∀ X acc, xmlDecodeTextAcc 3552 ('&' :: 'l' :: (c1r1t.toList ++ X)) acc = xmlDecodeTextAcc 3427 X (List.reverseAux c1e1.toList acc) := fun _ _ => rfl
theorem c1_dc2 : ∀ X acc, xmlDecodeTextAcc 3427 (c1r2.toList ++ X) acc = xmlDecodeTextAcc 3325 X (List.reverseAux c1e2.toList acc) := fun _ _ => rfl
theorem c1_dc3 : ∀ X acc, xmlDecodeTextAcc 3325 (c1r3.toList ++ X) acc = xmlDecodeTextAcc 3231 X (List.reverseAux c1e3.toList acc) := fun _ _ => rfl
theorem c1_dc4 : ∀ X acc, xmlDecodeTextAcc 3231 (c1r4.toList ++ X) acc = xmlDecodeTextAcc 3106 X (List.reverseAux c1e4.toList acc) := fun _ _ => rfl
theorem c1_dc5 : ∀ X acc, xmlDecodeTextAcc 3106 (c1r5.toList ++ X) acc = xmlDecodeTextAcc 2977 X (List.reverseAux c1e5.toList acc) := fun _ _ => rfl
theorem c1_dc6 : ∀ X acc, xmlDecodeTextAcc 2977 (c1r6.toList ++ X) acc = xmlDecodeTextAcc 2839 X (List.reverseAux c1e6.toList acc) := fun _ _ => rfl
theorem c1_dc7 : ∀ X acc, xmlDecodeTextAcc 2839 (c1r7.toList ++ X) acc = xmlDecodeTextAcc 2727 X (List.reverseAux c1e7.toList acc) := fun _ _ => rfl
theorem c1_dc8 : ∀ X acc, xmlDecodeTextAcc 2727 (c1r8.toList ++ X) acc = xmlDecodeTextAcc 2607 X (List.reverseAux c1e8.toList acc) := fun _ _ => rfl
theorem c1_dc9 : ∀ X acc, xmlDecodeTextAcc 2607 (c1r9.toList ++ X) acc = xmlDecodeTextAcc 2488 X (List.reverseAux c1e9.toList acc) := fun _ _ => rfl
theorem c1_dc10 : ∀ X acc, xmlDecodeTextAcc 2488 (c1r10.toList ++ X) acc = xmlDecodeTextAcc 2363 X (List.reverseAux c1e10.toList acc) := fun _ _ => rfl
theorem c1_dc11 : ∀ X acc, xmlDecodeTextAcc 2363 (c1r11.toList ++ X) acc = xmlDecodeTextAcc 2257 X (List.reverseAux c1e11.toList acc) := fun _ _ => rfl
theorem c1_dc12 : ∀ X acc, xmlDecodeTextAcc 2257 (c1r12.toList ++ X) acc = xmlDecodeTextAcc 2140 X (List.reverseAux c1e12.toList acc) := fun _ _ => rfl
theorem c1_dc13 : ∀ X acc, xmlDecodeTextAcc 2140 (c1r13.toList ++ X) acc = xmlDecodeTextAcc 2002 X (List.reverseAux c1e13.toList acc) := fun _ _ => rfl
theorem c1_dc14 : ∀ X acc, xmlDecodeTextAcc 2002 (c1r14.toList ++ X) acc = xmlDecodeTextAcc 1892 X (List.reverseAux c1e14.toList acc) := fun _ _ => rfl
theorem c1_dc15 : ∀ X acc, xmlDecodeTextAcc 1892 (c1r15.toList ++ X) acc = xmlDecodeTextAcc 1773 X (List.reverseAux c1e15.toList acc) := fun _ _ => rfl
theorem c1_dc16 : ∀ X acc, xmlDecodeTextAcc 1773 (c1r16.toList ++ X) acc = xmlDecodeTextAcc 1667 X (List.reverseAux c1e16.toList acc) := fun _ _ => rfl
theorem c1_dc17 : ∀ X acc, xmlDecodeTextAcc 1667 (c1r17.toList ++ X) acc = xmlDecodeTextAcc 1534 X (List.reverseAux c1e17.toList acc) := fun _ _ => rfl
theorem c1_dc18 : ∀ X acc, xmlDecodeTextAcc 1534 (c1r18.toList ++ X) acc = xmlDecodeTextAcc 1402 X (List.reverseAux c1e18.toList acc) := fun _ _ => rfl
theorem c1_dc19 : ∀ X acc, xmlDecodeTextAcc 1402 (c1r19.toList ++ X) acc = xmlDecodeTextAcc 1293 X (List.reverseAux c1e19.toList acc) := fun _ _ => rfl
theorem c1_dc20 : ∀ X acc, xmlDecodeTextAcc 1293 (c1r20.toList ++ X) acc = xmlDecodeTextAcc 1169 X (List.reverseAux c1e20.toList acc) := fun _ _ => rfl
theorem c1_dc21 : ∀ X acc, xmlDecodeTextAcc 1169 (c1r21.toList ++ X) acc = xmlDecodeTextAcc 1054 X (List.reverseAux c1e21.toList acc) := fun _ _ => rfl
theorem c1_dc22 : ∀ X acc, xmlDecodeTextAcc 1054 (c1r22.toList ++ X) acc = xmlDecodeTextAcc 949 X (List.reverseAux c1e22.toList acc) := fun _ _ => rfl
theorem c1_dc23 : ∀ acc, xmlDecodeTextAcc 949 c1tailB.toList acc = some (acc, c1tailB.toList) := fun _ => rfl

/-- The decoded character-data run of the body, chunk by chunk. -/
theorem c1_dec : xmlDecodeTextAcc 3552 ('&' :: 'l' :: (c1r1t.toList ++ (c1r2.toList ++ (c1r3.toList ++ (c1r4.toList ++ (c1r5.toList ++ (c1r6.toList ++ (c1r7.toList ++ (c1r8.toList ++ (c1r9.toList ++ (c1r10.toList ++ (c1r11.toList ++ (c1r12.toList ++ (c1r13.toList ++ (c1r14.toList ++ (c1r15.toList ++ (c1r16.toList ++ (c1r17.toList ++ (c1r18.toList ++ (c1r19.toList ++ (c1r20.toList ++ (c1r21.toList ++ (c1r22.toList ++ (c1tailB.toList)))))))))))))))))))))))) [] = some (c1textRev, c1tailB.toList) := by
  rw [c1_dc1, c1_dc2, c1_dc3, c1_dc4, c1_dc5, c1_dc6, c1_dc7, c1_dc8, c1_dc9, c1_dc10, c1_dc11, c1_dc12, c1_dc13, c1_dc14, c1_dc15, c1_dc16, c1_dc17, c1_dc18, c1_dc19, c1_dc20, c1_dc21, c1_dc22]
  exact c1_dc23 (List.reverseAux c1e22.toList (List.reverseAux c1e21.toList (List.reverseAux c1e20.toList (List.reverseAux c1e19.toList (List.reverseAux c1e18.toList (List.reverseAux c1e17.toList (List.reverseAux c1e16.toList (List.reverseAux c1e15.toList (List.reverseAux c1e14.toList (List.reverseAux c1e13.toList (List.reverseAux c1e12.toList (List.reverseAux c1e11.toList (List.reverseAux c1e10.toList (List.reverseAux c1e9.toList (List.reverseAux c1e8.toList (List.reverseAux c1e7.toList (List.reverseAux c1e6.toList (List.reverseAux c1e5.toList (List.reverseAux c1e4.toList (List.reverseAux c1e3.toList (List.reverseAux c1e2.toList (List.reverseAux c1e1.toList ([] : List Char)))))))))))))))))))))))

theorem c1_list : fixtureReal.toList = c1b1.toList ++ (c1b2.toList ++ (c1b3.toList ++ (c1b4a.toList ++ (c1b4b.toList ++ (c1r1.toList ++ (c1r2.toList ++ (c1r3.toList ++ (c1r4.toList ++ (c1r5.toList ++ (c1r6.toList ++ (c1r7.toList ++ (c1r8.toList ++ (c1r9.toList ++ (c1r10.toList ++ (c1r11.toList ++ (c1r12.toList ++ (c1r13.toList ++ (c1r14.toList ++ (c1r15.toList ++ (c1r16.toList ++ (c1r17.toList ++ (c1r18.toList ++ (c1r19.toList ++ (c1r20.toList ++ (c1r21.toList ++ (c1r22.toList ++ (c1tailB.toList))))))))))))))))))))))))))) := rfl
theorem c1_len : fixtureReal.toList.length = 3558 := by
  rw [c1_list]
  simp only [List.length_append, (show c1b1.toList.length = 38 from rfl), (show c1b2.toList.length = 57 from rfl), (show c1b3.toList.length = 15 from rfl), (show c1b4a.toList.length = 5 from rfl), (show c1b4b.toList.length = 12 from rfl), (show c1r1.toList.length = 154 from rfl), (show c1r2.toList.length = 155 from rfl), (show c1r3.toList.length = 153 from rfl), (show c1r4.toList.length = 157 from rfl), (show c1r5.toList.length = 150 from rfl), (show c1r6.toList.length = 154 from rfl), (show c1r7.toList.length = 160 from rfl), (show c1r8.toList.length = 148 from rfl), (show c1r9.toList.length = 155 from rfl), (show c1r10.toList.length = 153 from rfl), (show c1r11.toList.length = 153 from rfl), (show c1r12.toList.length = 154 from rfl), (show c1r13.toList.length = 154 from rfl), (show c1r14.toList.length = 154 from rfl), (show c1r15.toList.length = 151 from rfl), (show c1r16.toList.length = 153 from rfl), (show c1r17.toList.length = 158 from rfl), (show c1r18.toList.length = 156 from rfl), (show c1r19.toList.length = 149 from rfl), (show c1r20.toList.length = 160 from rfl), (show c1r21.toList.length = 147 from rfl), (show c1r22.toList.length = 157 from rfl), (show c1tailB.toList.length = 46 from rfl)]

theorem c1_sc1 : ∀ X, innerRawRevOf "LastChange".toList 3558 (c1b1.toList ++ X) = innerRawRevOf "LastChange".toList 3520 X := fun _ => rfl
theorem c1_sc2 : ∀ X, innerRawRevOf "LastChange".toList 3520 (c1b2.toList ++ X) = innerRawRevOf "LastChange".toList 3463 X := fun _ => rfl
theorem c1_sc3 : ∀ X, innerRawRevOf "LastChange".toList 3463 (c1b3.toList ++ X) = innerRawRevOf "LastChange".toList 3448 X := fun _ => rfl
theorem c1_sc4 : ∀ X, innerRawRevOf "LastChange".toList 3448 (c1b4a.toList ++ X) = innerRawRevOf "LastChange".toList 3443 X := fun _ => rfl
theorem c1_scTail : innerRawRevOf "LastChange".toList 3442 c1tailB.toList = [] := rfl
theorem c1_consB : ∀ X, c1b4b.toList ++ X = '<' :: (c1b4bt.toList ++ X) := fun _ => rfl
theorem c1_consC : ∀ X, c1r1.toList ++ X = '&' :: 'l' :: (c1r1t.toList ++ X) := fun _ => rfl

/-- The only non-blank `LastChange` capture of the fixture body. -/
theorem c1_cand : innerRawRevOf "LastChange".toList fixtureReal.toList.length fixtureReal.toList = [c1rawRev] := by
  rw [c1_len, c1_list]
  rw [c1_sc1, c1_sc2, c1_sc3, c1_sc4]
  rw [c1_consB]
  have hfound : innerRawRevOf "LastChange".toList 3443 ('<' :: (c1b4bt.toList ++ (c1r1.toList ++ (c1r2.toList ++ (c1r3.toList ++ (c1r4.toList ++ (c1r5.toList ++ (c1r6.toList ++ (c1r7.toList ++ (c1r8.toList ++ (c1r9.toList ++ (c1r10.toList ++ (c1r11.toList ++ (c1r12.toList ++ (c1r13.toList ++ (c1r14.toList ++ (c1r15.toList ++ (c1r16.toList ++ (c1r17.toList ++ (c1r18.toList ++ (c1r19.toList ++ (c1r20.toList ++ (c1r21.toList ++ (c1r22.toList ++ (c1tailB.toList))))))))))))))))))))))))) = c1rawRev :: innerRawRevOf "LastChange".toList 3442 c1tailB.toList :=
    c1_innerRaw_found "LastChange".toList 3442 '<' (c1b4bt.toList ++ (c1r1.toList ++ (c1r2.toList ++ (c1r3.toList ++ (c1r4.toList ++ (c1r5.toList ++ (c1r6.toList ++ (c1r7.toList ++ (c1r8.toList ++ (c1r9.toList ++ (c1r10.toList ++ (c1r11.toList ++ (c1r12.toList ++ (c1r13.toList ++ (c1r14.toList ++ (c1r15.toList ++ (c1r16.toList ++ (c1r17.toList ++ (c1r18.toList ++ (c1r19.toList ++ (c1r20.toList ++ (c1r21.toList ++ (c1r22.toList ++ (c1tailB.toList)))))))))))))))))))))))) (c1r1.toList ++ (c1r2.toList ++ (c1r3.toList ++ (c1r4.toList ++ (c1r5.toList ++ (c1r6.toList ++ (c1r7.toList ++ (c1r8.toList ++ (c1r9.toList ++ (c1r10.toList ++ (c1r11.toList ++ (c1r12.toList ++ (c1r13.toList ++ (c1r14.toList ++ (c1r15.toList ++ (c1r16.toList ++ (c1r17.toList ++ (c1r18.toList ++ (c1r19.toList ++ (c1r20.toList ++ (c1r21.toList ++ (c1r22.toList ++ (c1tailB.toList))))))))))))))))))))))) c1rawRev c1tailB.toList rfl rfl c1_take
  rw [hfound, c1_scTail]

theorem c1_tok12 : ∀ X, rawTokenize 3559 (c1b1.toList ++ (c1b2.toList ++ X)) = ((rawTokenize 3556 X).map (RawTok.rawStart "e:propertyset".toList [("xmlns:e".toList, "urn:schemas-upnp-org:event-1-0".toList)] false :: ·)).map (RawTok.rawText "\n".toList :: ·) := fun _ => rfl
theorem c1_tok3 : ∀ X, rawTokenize 3556 (c1b3.toList ++ X) = ((rawTokenize 3554 X).map (RawTok.rawStart "e:property".toList [] false :: ·)).map (RawTok.rawText "\n  ".toList :: ·) := fun _ => rfl
theorem c1_tok4 : ∀ X, rawTokenize 3554 (c1b4a.toList ++ (c1b4b.toList ++ X)) = ((rawTokenize 3552 X).map (RawTok.rawStart "LastChange".toList [] false :: ·)).map (RawTok.rawText "\n    ".toList :: ·) := fun _ => rfl
theorem c1_tokTail : rawTokenize 3551 c1tailB.toList = some [RawTok.rawEnd "LastChange".toList, RawTok.rawText "\n  ".toList, RawTok.rawEnd "e:property".toList, RawTok.rawText "\n".toList, RawTok.rawEnd "e:propertyset".toList] := rfl

/-- The decoder accepts the fixture body (its resolved token stream). -/
theorem c1_xml : xmlTokens fixtureReal = some
    [XmlTok.charData "\n",
      XmlTok.startEl ⟨"urn:schemas-upnp-org:event-1-0", "propertyset"⟩ [(⟨"xmlns", "e"⟩, "urn:schemas-upnp-org:event-1-0")],
      XmlTok.charData "\n  ",
      XmlTok.startEl ⟨"urn:schemas-upnp-org:event-1-0", "property"⟩ [],
      XmlTok.charData "\n    ",
      XmlTok.startEl ⟨"", "LastChange"⟩ [],
      XmlTok.charData c1textRev.reverse.asString,
      XmlTok.endEl ⟨"", "LastChange"⟩,
      XmlTok.charData "\n  ",
      XmlTok.endEl ⟨"urn:schemas-upnp-org:event-1-0", "property"⟩,
      XmlTok.charData "\n",
      XmlTok.endEl ⟨"urn:schemas-upnp-org:event-1-0", "propertyset"⟩] := by
  have hlen1 : fixtureReal.toList.length + 1 = 3559 := by rw [c1_len]
  unfold xmlTokens
  rw [hlen1, c1_list]
  rw [c1_tok12, c1_tok3, c1_tok4]
  rw [c1_consC]
  have htext : rawTokenize 3552 ('&' :: 'l' :: (c1r1t.toList ++ (c1r2.toList ++ (c1r3.toList ++ (c1r4.toList ++ (c1r5.toList ++ (c1r6.toList ++ (c1r7.toList ++ (c1r8.toList ++ (c1r9.toList ++ (c1r10.toList ++ (c1r11.toList ++ (c1r12.toList ++ (c1r13.toList ++ (c1r14.toList ++ (c1r15.toList ++ (c1r16.toList ++ (c1r17.toList ++ (c1r18.toList ++ (c1r19.toList ++ (c1r20.toList ++ (c1r21.toList ++ (c1r22.toList ++ (c1tailB.toList)))))))))))))))))))))))) =
      (rawTokenize 3551 c1tailB.toList).map (RawTok.rawText c1textRev.reverse :: ·) :=
    c1_rawTokenize_text 3551 '&' 'l' (c1r1t.toList ++ (c1r2.toList ++ (c1r3.toList ++ (c1r4.toList ++ (c1r5.toList ++ (c1r6.toList ++ (c1r7.toList ++ (c1r8.toList ++ (c1r9.toList ++ (c1r10.toList ++ (c1r11.toList ++ (c1r12.toList ++ (c1r13.toList ++ (c1r14.toList ++ (c1r15.toList ++ (c1r16.toList ++ (c1r17.toList ++ (c1r18.toList ++ (c1r19.toList ++ (c1r20.toList ++ (c1r21.toList ++ (c1r22.toList ++ (c1tailB.toList))))))))))))))))))))))) c1textRev c1tailB.toList
      (by decide) (by decide) (by decide) (by decide) c1_dec
  rw [htext, c1_tokTail]
  rfl

theorem c1_g1 : ∀ X, rawTokenize 3124 (c1u1.toList ++ (X)) = (rawTokenize 3123 X).map (RawTok.rawStart "Event".toList [("xmlns".toList, "urn:schemas-upnp-org:metadata-1-0/AVT/".toList), ("xmlns:r".toList, "urn:schemas-rinconnetworks-com:metadata-1-0/".toList)] false :: ·) := fun _ => rfl
theorem c1_g2 : ∀ X, rawTokenize 3123 (c1u2.toList ++ (c1u3.toList ++ (X))) = (rawTokenize 3122 X).map (RawTok.rawStart "InstanceID".toList [("val".toList, "0".toList)] false :: ·) := fun _ => rfl
theorem c1_g3 : ∀ X, rawTokenize 3122 (c1u4.toList ++ (X)) = (rawTokenize 3121 X).map (RawTok.rawStart "TransportState".toList [("val".toList, "PAUSED_PLAYBACK".toList)] true :: ·) := fun _ => rfl
theorem c1_g4 : ∀ X, rawTokenize 3121 (c1u5.toList ++ (X)) = (rawTokenize 3120 X).map (RawTok.rawStart "CurrentPlayMode".toList [("val".toList, "NORMAL".toList)] true :: ·) := fun _ => rfl
theorem c1_g5 : ∀ X, rawTokenize 3120 (c1u6.toList ++ (c1u7.toList ++ (X))) = (rawTokenize 3119 X).map (RawTok.rawStart "CurrentCrossfadeMode".toList [("val".toList, "0".toList)] true :: ·) := fun _ => rfl
theorem c1_g6 : ∀ X, rawTokenize 3119 (c1u8.toList ++ (X)) = (rawTokenize 3118 X).map (RawTok.rawStart "NumberOfTracks".toList [("val".toList, "1".toList)] true :: ·) := fun _ => rfl
theorem c1_g7 : ∀ X, rawTokenize 3118 (c1u9.toList ++ (X)) = (rawTokenize 3117 X).map (RawTok.rawStart "CurrentTrack".toList [("val".toList, "1".toList)] true :: ·) := fun _ => rfl
theorem c1_g8 : ∀ X, rawTokenize 3117 (c1u10.toList ++ (X)) = (rawTokenize 3116 X).map (RawTok.rawStart "CurrentSection".toList [("val".toList, "0".toList)] true :: ·) := fun _ => rfl
theorem c1_g9 : ∀ X, rawTokenize 3116 (c1u11.toList ++ (c1u12.toList ++ (X))) = (rawTokenize 3115 X).map (RawTok.rawStart "CurrentTrackURI".toList [("val".toList, "x-sonos-vli:RINCON_F0F6C19DB2C101400:1,airplay:3e4acedc271c488c9f7a78dc0cb819df".toList)] true :: ·) := fun _ => rfl
theorem c1_g10 : ∀ X, rawTokenize 3115 (c1u13.toList ++ (X)) = (rawTokenize 3114 X).map (RawTok.rawStart "CurrentTrackDuration".toList [("val".toList, "0:04:59".toList)] true :: ·) := fun _ => rfl
theorem c1_g11 : ∀ X, rawTokenize 3114 (c1u14.toList ++ (c1f5.toList ++ (c1f6.toList ++ (c1f7.toList ++ (c1f8.toList ++ (c1f9.toList ++ (c1f10.toList ++ (c1u15.toList ++ (X))))))))) = (rawTokenize 3113 X).map (RawTok.rawStart "CurrentTrackMetaData".toList [("val".toList, c1didl.toList)] true :: ·) := fun _ => rfl
theorem c1_g12 : ∀ X, rawTokenize 3113 (c1u16.toList ++ (c1u17.toList ++ (X))) = (rawTokenize 3112 X).map (RawTok.rawStart "r:NextTrackURI".toList [("val".toList, "".toList)] true :: ·) := fun _ => rfl
theorem c1_g13 : ∀ X, rawTokenize 3112 (c1u18.toList ++ (c1f13.toList ++ (c1f14.toList ++ (c1f15.toList ++ (c1u19.toList ++ (X)))))) = (rawTokenize 3111 X).map (RawTok.rawStart "r:NextTrackMetaData".toList [("val".toList, c1didl1.toList)] true :: ·) := fun _ => rfl
theorem c1_g14 : ∀ X, rawTokenize 3111 (c1u20.toList ++ (X)) = (rawTokenize 3110 X).map (RawTok.rawStart "r:EnqueuedTransportURI".toList [("val".toList, "".toList)] true :: ·) := fun _ => rfl
theorem c1_g15 : ∀ X, rawTokenize 3110 (c1u21.toList ++ (c1f17.toList ++ (c1f18.toList ++ (c1f19.toList ++ (c1f20.toList ++ (c1f21.toList ++ (c1u22.toList ++ (X)))))))) = (rawTokenize 3109 X).map (RawTok.rawStart "r:EnqueuedTransportURIMetaData".toList [("val".toList, c1didl2.toList)] true :: ·) := fun _ => rfl
theorem c1_gEnd : rawTokenize 3109 (c1u23.toList ++ (c1u24.toList)) = some [RawTok.rawEnd "InstanceID".toList, RawTok.rawEnd "Event".toList] := rfl
theorem c1_usplit1 : c1f1.toList = c1u1.toList ++ (c1u2.toList) := rfl
theorem c1_usplit2 : c1f2.toList = c1u3.toList ++ (c1u4.toList ++ (c1u5.toList ++ (c1u6.toList))) := rfl
theorem c1_usplit3 : c1f3.toList = c1u7.toList ++ (c1u8.toList ++ (c1u9.toList ++ (c1u10.toList ++ (c1u11.toList)))) := rfl
theorem c1_usplit4 : c1f4.toList = c1u12.toList ++ (c1u13.toList ++ (c1u14.toList)) := rfl
theorem c1_usplit11 : c1f11.toList = c1u15.toList ++ (c1u16.toList) := rfl
theorem c1_usplit12 : c1f12.toList = c1u17.toList ++ (c1u18.toList) := rfl
theorem c1_usplit16 : c1f16.toList = c1u19.toList ++ (c1u20.toList ++ (c1u21.toList)) := rfl
theorem c1_usplit22 : c1f22.toList = c1u22.toList ++ (c1u23.toList ++ (c1u24.toList)) := rfl
theorem c1_len6 : c1s6.toList.length = 3123 := by
  rw [show c1s6.toList = c1f1.toList ++ (c1f2.toList ++ (c1f3.toList ++ (c1f4.toList ++ (c1f5.toList ++ (c1f6.toList ++ (c1f7.toList ++ (c1f8.toList ++ (c1f9.toList ++ (c1f10.toList ++ (c1f11.toList ++ (c1f12.toList ++ (c1f13.toList ++ (c1f14.toList ++ (c1f15.toList ++ (c1f16.toList ++ (c1f17.toList ++ (c1f18.toList ++ (c1f19.toList ++ (c1f20.toList ++ (c1f21.toList ++ (c1f22.toList))))))))))))))))))))) from rfl]
  simp only [List.length_append, (show c1f1.toList.length = 125 from rfl), (show c1f2.toList.length = 102 from rfl), (show c1f3.toList.length = 94 from rfl), (show c1f4.toList.length = 125 from rfl), (show c1f5.toList.length = 145 from rfl), (show c1f6.toList.length = 154 from rfl), (show c1f7.toList.length = 160 from rfl), (show c1f8.toList.length = 148 from rfl), (show c1f9.toList.length = 155 from rfl), (show c1f10.toList.length = 153 from rfl), (show c1f11.toList.length = 142 from rfl), (show c1f12.toList.length = 133 from rfl), (show c1f13.toList.length = 154 from rfl), (show c1f14.toList.length = 154 from rfl), (show c1f15.toList.length = 151 from rfl), (show c1f16.toList.length = 126 from rfl), (show c1f17.toList.length = 153 from rfl), (show c1f18.toList.length = 156 from rfl), (show c1f19.toList.length = 149 from rfl), (show c1f20.toList.length = 160 from rfl), (show c1f21.toList.length = 147 from rfl), (show c1f22.toList.length = 137 from rfl)]
theorem c1_list6 : c1s6.toList = c1u1.toList ++ (c1u2.toList ++ (c1u3.toList ++ (c1u4.toList ++ (c1u5.toList ++ (c1u6.toList ++ (c1u7.toList ++ (c1u8.toList ++ (c1u9.toList ++ (c1u10.toList ++ (c1u11.toList ++ (c1u12.toList ++ (c1u13.toList ++ (c1u14.toList ++ (c1f5.toList ++ (c1f6.toList ++ (c1f7.toList ++ (c1f8.toList ++ (c1f9.toList ++ (c1f10.toList ++ (c1u15.toList ++ (c1u16.toList ++ (c1u17.toList ++ (c1u18.toList ++ (c1f13.toList ++ (c1f14.toList ++ (c1f15.toList ++ (c1u19.toList ++ (c1u20.toList ++ (c1u21.toList ++ (c1f17.toList ++ (c1f18.toList ++ (c1f19.toList ++ (c1f20.toList ++ (c1f21.toList ++ (c1u22.toList ++ (c1u23.toList ++ (c1u24.toList))))))))))))))))))))))))))))))))))))) := by
  rw [show c1s6.toList = c1f1.toList ++ (c1f2.toList ++ (c1f3.toList ++ (c1f4.toList ++ (c1f5.toList ++ (c1f6.toList ++ (c1f7.toList ++ (c1f8.toList ++ (c1f9.toList ++ (c1f10.toList ++ (c1f11.toList ++ (c1f12.toList ++ (c1f13.toList ++ (c1f14.toList ++ (c1f15.toList ++ (c1f16.toList ++ (c1f17.toList ++ (c1f18.toList ++ (c1f19.toList ++ (c1f20.toList ++ (c1f21.toList ++ (c1f22.toList))))))))))))))))))))) from rfl]
  rw [c1_usplit1, c1_usplit2, c1_usplit3, c1_usplit4, c1_usplit11, c1_usplit12, c1_usplit16, c1_usplit22]
  simp only [List.append_assoc]
/-- The prepared document is accepted by the decoder (token stream). -/
theorem c1_lc : xmlTokens c1s6 = some
    [XmlTok.startEl ⟨"urn:schemas-upnp-org:metadata-1-0/AVT/", "Event"⟩ [(⟨"", "xmlns"⟩, "urn:schemas-upnp-org:metadata-1-0/AVT/"), (⟨"xmlns", "r"⟩, "urn:schemas-rinconnetworks-com:metadata-1-0/")],
      XmlTok.startEl ⟨"urn:schemas-upnp-org:metadata-1-0/AVT/", "InstanceID"⟩ [(⟨"", "val"⟩, "0")],
      XmlTok.startEl ⟨"urn:schemas-upnp-org:metadata-1-0/AVT/", "TransportState"⟩ [(⟨"", "val"⟩, "PAUSED_PLAYBACK")],
      XmlTok.endEl ⟨"urn:schemas-upnp-org:metadata-1-0/AVT/", "TransportState"⟩,
      XmlTok.startEl ⟨"urn:schemas-upnp-org:metadata-1-0/AVT/", "CurrentPlayMode"⟩ [(⟨"", "val"⟩, "NORMAL")],
      XmlTok.endEl ⟨"urn:schemas-upnp-org:metadata-1-0/AVT/", "CurrentPlayMode"⟩,
      XmlTok.startEl ⟨"urn:schemas-upnp-org:metadata-1-0/AVT/", "CurrentCrossfadeMode"⟩ [(⟨"", "val"⟩, "0")],
      XmlTok.endEl ⟨"urn:schemas-upnp-org:metadata-1-0/AVT/", "CurrentCrossfadeMode"⟩,
      XmlTok.startEl ⟨"urn:schemas-upnp-org:metadata-1-0/AVT/", "NumberOfTracks"⟩ [(⟨"", "val"⟩, "1")],
      XmlTok.endEl ⟨"urn:schemas-upnp-org:metadata-1-0/AVT/", "NumberOfTracks"⟩,
      XmlTok.startEl ⟨"urn:schemas-upnp-org:metadata-1-0/AVT/", "CurrentTrack"⟩ [(⟨"", "val"⟩, "1")],
      XmlTok.endEl ⟨"urn:schemas-upnp-org:metadata-1-0/AVT/", "CurrentTrack"⟩,
      XmlTok.startEl ⟨"urn:schemas-upnp-org:metadata-1-0/AVT/", "CurrentSection"⟩ [(⟨"", "val"⟩, "0")],
      XmlTok.endEl ⟨"urn:schemas-upnp-org:metadata-1-0/AVT/", "CurrentSection"⟩,
      XmlTok.startEl ⟨"urn:schemas-upnp-org:metadata-1-0/AVT/", "CurrentTrackURI"⟩ [(⟨"", "val"⟩, "x-sonos-vli:RINCON_F0F6C19DB2C101400:1,airplay:3e4acedc271c488c9f7a78dc0cb819df")],
      XmlTok.endEl ⟨"urn:schemas-upnp-org:metadata-1-0/AVT/", "CurrentTrackURI"⟩,
      XmlTok.startEl ⟨"urn:schemas-upnp-org:metadata-1-0/AVT/", "CurrentTrackDuration"⟩ [(⟨"", "val"⟩, "0:04:59")],
      XmlTok.endEl ⟨"urn:schemas-upnp-org:metadata-1-0/AVT/", "CurrentTrackDuration"⟩,
      XmlTok.startEl ⟨"urn:schemas-upnp-org:metadata-1-0/AVT/", "CurrentTrackMetaData"⟩ [(⟨"", "val"⟩, c1didl)],
      XmlTok.endEl ⟨"urn:schemas-upnp-org:metadata-1-0/AVT/", "CurrentTrackMetaData"⟩,
      XmlTok.startEl ⟨"urn:schemas-rinconnetworks-com:metadata-1-0/", "NextTrackURI"⟩ [(⟨"", "val"⟩, "")],
      XmlTok.endEl ⟨"urn:schemas-rinconnetworks-com:metadata-1-0/", "NextTrackURI"⟩,
      XmlTok.startEl ⟨"urn:schemas-rinconnetworks-com:metadata-1-0/", "NextTrackMetaData"⟩ [(⟨"", "val"⟩, c1didl1)],
      XmlTok.endEl ⟨"urn:schemas-rinconnetworks-com:metadata-1-0/", "NextTrackMetaData"⟩,
      XmlTok.startEl ⟨"urn:schemas-rinconnetworks-com:metadata-1-0/", "EnqueuedTransportURI"⟩ [(⟨"", "val"⟩, "")],
      XmlTok.endEl ⟨"urn:schemas-rinconnetworks-com:metadata-1-0/", "EnqueuedTransportURI"⟩,
      XmlTok.startEl ⟨"urn:schemas-rinconnetworks-com:metadata-1-0/", "EnqueuedTransportURIMetaData"⟩ [(⟨"", "val"⟩, c1didl2)],
      XmlTok.endEl ⟨"urn:schemas-rinconnetworks-com:metadata-1-0/", "EnqueuedTransportURIMetaData"⟩,
      XmlTok.endEl ⟨"urn:schemas-upnp-org:metadata-1-0/AVT/", "InstanceID"⟩,
      XmlTok.endEl ⟨"urn:schemas-upnp-org:metadata-1-0/AVT/", "Event"⟩] := by
  have hlen1 : c1s6.toList.length + 1 = 3124 := by rw [c1_len6]
  unfold xmlTokens
  rw [hlen1, c1_list6]
  rw [c1_g1, c1_g2, c1_g3, c1_g4, c1_g5, c1_g6, c1_g7, c1_g8, c1_g9, c1_g10, c1_g11, c1_g12, c1_g13, c1_g14, c1_g15]
  rw [c1_gEnd]
  rfl

/-- Unmarshalling the prepared document yields exactly one `InstanceID`. -/
theorem c1_declc : decodeLastChange c1s6 = some [c1inst] := by
  unfold decodeLastChange
  rw [c1_lc]
  rfl

/-- C1: decoding the known-good NOTIFY fixture (the doubly-escaped AirPlay
payload of `TestParseAVTransportEventWithRealPayload`) succeeds and returns
transport state `PAUSED_PLAYBACK` and exactly the track fields the test
expects: title `Tigers`, artist `The Submarines`, album `Love Notes/Letter
Bombs (Deluxe Edition)`, the AirPlay URI, and the album-art URI. -/
theorem parse_real_event_payload :
    parseAVTransportEvent fixtureReal =
      Except.ok { transportState := "PAUSED_PLAYBACK",
                  track := { title := "Tigers", artist := "The Submarines",
                             album := "Love Notes/Letter Bombs (Deluxe Edition)",
                             streamInfo := "",
                             uri := "x-sonos-vli:RINCON_F0F6C19DB2C101400:1,airplay:3e4acedc271c488c9f7a78dc0cb819df",
                             state := "",
                             albumArtURI := "http://192.168.7.119:1400/getaa?v=0&vli=1&u=2507217148" } } := by
  have hfind : [c1rawRev].find? (fun r => r.any fun c => ¬ goIsSpace c) = some c1rawRev := rfl
  simp only [parseAVTransportEvent, c1_xml, c1_cand, hfind, c1_prep, c1_declc]
  rfl

end WallDisplay
